import Mathlib

/-!
# Baese dashboards: change detection, message preview, notifications, settings, refresh

A shallow embedding of the poll / diff / render logic of
`docs/assets/js/dashboard.js` and `semiauto/dashboard/assets/js/dashboard.js`, and of
the notifications of the control-centre scripts.

* JavaScript values are embedded as far as the code inspects them: primitives
  (`JSPrim`) with value equality, and the objects and arrays that a parsed JSON
  document can hold (`JSValue`).
* Mutable globals (`lastData`) become explicit state that is passed in and
  returned.
* A raised exception is an `Except.error`; where the state written before the
  exception matters, a call returns an `Outcome`: the state and what was raised.
* The page is the record of the regions a script writes; timers are a queue that
  `advance` runs; the storage slot is a field of the page.
* Functions of the browser that depend on the locale or the clock are the fields of a
  `Platform`.
-/

set_option autoImplicit false

namespace Dashboard

/-! ## JavaScript values -/

/-- Exceptions the embedded code can raise, and the one way the model can give up. -/
inductive JSError where
  /-- A `TypeError` (property read on `null`/`undefined`, call of a non-function). -/
  | typeError
  /-- A `SyntaxError` (raised by the `RegExp` constructor). -/
  | syntaxError
  /-- The regular expression built from a key lies outside the modelled fragment. -/
  | unmodelled
  /-- A `DOMException` of `localStorage.setItem` (quota exceeded, storage disabled). -/
  | storageError
  /-- An `Error` built by `new Error(message)` and thrown. -/
  | thrown (message : String)
  deriving DecidableEq, Repr

/-- Primitive values. A `Number` is `number n` when it is integral and `fraction t`
otherwise, where `t` is its `Number::toString` text (that text identifies a finite
non-integral number). `NaN` and the infinities, which JSON cannot carry, are left out. -/
inductive JSPrim where
  | undefined
  | null
  | bool (b : Bool)
  | number (n : Int)
  | fraction (text : String)
  | string (s : String)
  deriving DecidableEq, Repr

/-- Values of a parsed JSON document or of a snapshot built by the page. -/
inductive JSValue where
  | prim (p : JSPrim)
  | object (props : List (String × JSValue))
  | array (elems : List JSValue)

/-- The strict inequality operator on primitives: value comparison. -/
def strictNotEquals (a b : JSPrim) : Bool := decide (a ≠ b)

/-! ## Snapshots and `hasDataChanged` -/

/-- A status snapshot. The three fields `hasDataChanged` reads are primitives (numbers
in every snapshot the fetch path builds, `undefined` on an error snapshot); every other
property of the object is kept in `rest`. -/
structure Snapshot where
  current_score : JSPrim
  completed_missions : JSPrim
  active_riders : JSPrim
  rest : List (String × JSValue)

/-- The function `hasDataChanged(newData)` of `docs/assets/js/dashboard.js`.
`lastData` is the global of that name (`none` is `null`); `newData` is the argument
(`none` is `null`). The result is the returned boolean and the new value of `lastData`;
reading a property of a `null` argument raises `TypeError`. -/
def hasDataChanged (lastData newData : Option Snapshot) :
    Except JSError (Bool × Option Snapshot) :=
  match lastData with
  | none => .ok (true, newData)
  | some last =>
    match newData with
    | none => .error .typeError
    | some new =>
      let changed :=
        strictNotEquals last.current_score new.current_score ||
        strictNotEquals last.completed_missions new.completed_missions ||
        strictNotEquals last.active_riders new.active_riders
      .ok (changed, some new)

/-- Two calls in a row: `hasDataChanged(s1)` and then `hasDataChanged(s2)`, the second
on the state the first one leaves. The result is the second call's. -/
def ingestTwice (lastData s1 s2 : Option Snapshot) :
    Except JSError (Bool × Option Snapshot) :=
  match hasDataChanged lastData s1 with
  | .error e => .error e
  | .ok (_, held) => hasDataChanged held s2

/-! ## Strings, regular expressions and `String.prototype.replace` -/

/-- The string form of a primitive (`ToString`). An integral number is printed in plain
decimal below `10^21`; the exponent form of larger ones is not modelled. -/
def JSPrim.toJSString : JSPrim → Except JSError String
  | .undefined => .ok "undefined"
  | .null => .ok "null"
  | .bool true => .ok "true"
  | .bool false => .ok "false"
  | .number n =>
    if n.natAbs < 1000000000000000000000 then .ok (toString n) else .error .unmodelled
  | .fraction text => .ok text
  | .string s => .ok s

mutual
/-- The string form of a value (`ToString`): `[object Object]` for an object, unless an
own property hides `Object.prototype.toString` (a parsed property is never callable, so
the conversion raises `TypeError`); the joined elements for an array. -/
def JSValue.toJSString : JSValue → Except JSError String
  | .prim p => p.toJSString
  | .object props =>
    if props.any (fun kv => kv.1 == "toString") then .error .typeError
    else .ok "[object Object]"
  | .array elems => joinElements elems
/-- The method `Array.prototype.join` with the separator `,`: `undefined` and `null`
elements give the empty string. -/
def joinElements : List JSValue → Except JSError String
  | [] => .ok ""
  | [.prim .undefined] => .ok ""
  | [.prim .null] => .ok ""
  | [v] => v.toJSString
  | .prim .undefined :: vs =>
    match joinElements vs with
    | .ok tail => .ok ("," ++ tail)
    | .error e => .error e
  | .prim .null :: vs =>
    match joinElements vs with
    | .ok tail => .ok ("," ++ tail)
    | .error e => .error e
  | v :: vs =>
    match v.toJSString with
    | .error e => .error e
    | .ok head =>
      match joinElements vs with
      | .ok tail => .ok (head ++ "," ++ tail)
      | .error e => .error e
end

/-- The dollar sign, which starts a replacement pattern. -/
def dollar : Char := Char.ofNat 36
/-- The ampersand: after a dollar sign it stands for the matched text. -/
def ampersand : Char := Char.ofNat 38
/-- The grave accent: after a dollar sign it stands for the text before the match. -/
def graveAccent : Char := Char.ofNat 96
/-- The apostrophe: after a dollar sign it stands for the text after the match. -/
def apostrophe : Char := Char.ofNat 39
/-- The opening brace of a placeholder. -/
def lbrace : Char := Char.ofNat 123
/-- The closing brace of a placeholder. -/
def rbrace : Char := Char.ofNat 125
/-- The full stop, the wildcard of a regular expression. -/
def fullStop : Char := Char.ofNat 46

/-- The syntax characters of a regular expression, by code:
`^ $ \ . * + ? ( ) [ ] { } |`. Every other character of a pattern matches itself. -/
def isSyntaxCharacter (c : Char) : Bool :=
  c.toNat ∈ [94, 36, 92, 46, 42, 43, 63, 40, 41, 91, 93, 123, 125, 124]

/-- The line terminators, which the wildcard does not match. -/
def isLineTerminator (c : Char) : Bool :=
  c.toNat ∈ [10, 13, 8232, 8233]

/-- An atom of a compiled pattern: a character that matches itself, or the wildcard. -/
inductive Atom where
  | lit (c : Char)
  | dot
  deriving DecidableEq, Repr

/-- Whether the text between the braces of `{key}` makes the whole pattern a braced
quantifier (`{2}`, `{2,}`, `{2,5}`): digits, then optionally a comma and digits. -/
def isBracedQuantifierBody (cs : List Char) : Bool :=
  let digits := cs.takeWhile Char.isDigit
  let tail := cs.dropWhile Char.isDigit
  !digits.isEmpty && (tail.isEmpty || (tail.head? == some ',' && tail.tail.all Char.isDigit))

/-- The atoms of the characters of a key. A wildcard and plain characters are modelled;
any other syntax character puts the pattern outside the modelled fragment. -/
def compileAtoms : List Char → Except JSError (List Atom)
  | [] => .ok []
  | c :: cs =>
    if c = fullStop then
      match compileAtoms cs with
      | .ok as => .ok (Atom.dot :: as)
      | .error e => .error e
    else if isSyntaxCharacter c then .error .unmodelled
    else
      match compileAtoms cs with
      | .ok as => .ok (Atom.lit c :: as)
      | .error e => .error e

/-- The expression `new RegExp("{" + key + "}", 'g')`. A pattern that starts with a
braced quantifier has nothing to repeat and raises `SyntaxError`; otherwise both braces
match themselves. -/
def compilePlaceholder (key : String) : Except JSError (List Atom) :=
  if isBracedQuantifierBody key.data then .error .syntaxError
  else
    match compileAtoms key.data with
    | .ok as => .ok (Atom.lit lbrace :: (as ++ [Atom.lit rbrace]))
    | .error e => .error e

/-- Match a pattern at the start of a text; the result is the number of characters of
the text the match covers. Without the `u` flag the wildcard matches one UTF-16 code
unit, so a character outside the basic plane takes two wildcards. -/
def matchAtoms : List Atom → List Char → Option Nat
  | [], _ => some 0
  | _ :: _, [] => none
  | Atom.lit c :: pat, d :: text =>
    if c = d then (matchAtoms pat text).map (· + 1) else none
  | Atom.dot :: pat, d :: text =>
    if isLineTerminator d then none
    else if d.toNat < 65536 then (matchAtoms pat text).map (· + 1)
    else
      match pat with
      | Atom.dot :: pat2 => (matchAtoms pat2 text).map (· + 1)
      | _ => none

/-- The abstract operation `GetSubstitution` for a pattern without capture groups,
read one character at a time; `pending` says that the character before was a dollar
sign that is still undecided. In the replacement text `$$` is a dollar sign, `$&` the
matched text, a dollar sign and a grave accent the text before the match, a dollar sign
and an apostrophe the text after it; any other dollar sign stands for itself. -/
def getSubstitution (matched before after : List Char) : Bool → List Char → List Char
  | false, [] => []
  | true, [] => [dollar]
  | false, c :: tl =>
    if c = dollar then getSubstitution matched before after true tl
    else c :: getSubstitution matched before after false tl
  | true, c :: tl =>
    if c = dollar then dollar :: getSubstitution matched before after false tl
    else if c = ampersand then matched ++ getSubstitution matched before after false tl
    else if c = graveAccent then before ++ getSubstitution matched before after false tl
    else if c = apostrophe then after ++ getSubstitution matched before after false tl
    else dollar :: c :: getSubstitution matched before after false tl

/-- The scan of `text.replace(regex, replacement)` for a global regular expression:
`before` is the part of the text already passed, `skip` the number of characters still
covered by the last match. Matches are found left to right and do not overlap; a
placeholder pattern never matches the empty string. -/
def replaceGo (pat : List Atom) (repl : List Char) : List Char → List Char → Nat → List Char
  | [], _, _ => []
  | c :: rest, before, skip + 1 => replaceGo pat repl rest (before ++ [c]) skip
  | c :: rest, before, 0 =>
    match matchAtoms pat (c :: rest) with
    | some (n + 1) =>
      getSubstitution ((c :: rest).take (n + 1)) before ((c :: rest).drop (n + 1)) false repl ++
        replaceGo pat repl rest (before ++ [c]) n
    | _ => c :: replaceGo pat repl rest (before ++ [c]) 0

/-- The call `text.replace(regex, replacement)` with a global regular expression. -/
def replaceAll (pat : List Atom) (text replacement : String) : String :=
  ⟨replaceGo pat replacement.data text.data [] 0⟩

/-! ## Message templates and `updateMessagePreview` -/

/-- The field map handed to the template code: the own properties of the `data` object
in the order `Object.keys` lists them (insertion order for keys that are not array
indices). -/
abbrev FieldMap := List (String × JSValue)

/-- A template record `{title, content, footer}` as a JavaScript object. -/
def templateObject (title content footer : String) : JSValue :=
  .object [("title", .prim (.string title)), ("content", .prim (.string content)),
    ("footer", .prim (.string footer))]

/-- The constant `messageTemplates.standard`. -/
def standardTemplate : JSValue :=
  templateObject "🚀 G라이더 현황 알림"
    "📊 현재 점수: \x7bscore\x7d점\n✅ 완료 미션: \x7bcompleted_missions\x7d개\n🏍️ 활성 라이더: \x7bactive_riders\x7d명\n💰 예상 수익: \x7bestimated_income\x7d원"
    "📅 \x7btimestamp\x7d"

/-- The constant `messageTemplates.detailed`. -/
def detailedTemplate : JSValue :=
  templateObject "📈 G라이더 상세 현황 리포트"
    "🎯 성과 지표\n━━━━━━━━━━━━━━━━━━━━━\n📊 현재 점수: \x7bscore\x7d점 (\x7bscore_change\x7d)\n✅ 완료 미션: \x7bcompleted_missions\x7d개 (\x7bmission_change\x7d)\n🏍️ 활성 라이더: \x7bactive_riders\x7d명 (\x7briders_change\x7d)\n💰 예상 수익: \x7bestimated_income\x7d원 (\x7bincome_change\x7d)\n\n📈 시간대별 추이\n━━━━━━━━━━━━━━━━━━━━━\n🕒 피크시간 성과율: \x7bpeak_performance\x7d%\n⏰ 평균 응답시간: \x7bavg_response_time\x7d분\n🎯 목표 달성률: \x7bgoal_achievement\x7d%"
    "📅 \x7btimestamp\x7d | 다음 업데이트: \x7bnext_update\x7d"

/-- The constant `messageTemplates.simple`. -/
def simpleTemplate : JSValue :=
  templateObject "G라이더"
    "점수 \x7bscore\x7d점 | 미션 \x7bcompleted_missions\x7d개 | 라이더 \x7bactive_riders\x7d명"
    "\x7btimestamp\x7d"

/-- The names every object inherits from `Object.prototype`. -/
def objectPrototypeNames : List String :=
  ["constructor", "__proto__", "hasOwnProperty", "isPrototypeOf", "propertyIsEnumerable",
    "toLocaleString", "toString", "valueOf", "__defineGetter__", "__defineSetter__",
    "__lookupGetter__", "__lookupSetter__"]

/-- The lookup `messageTemplates[template]`: one of the three records, an inherited
member (a function or the prototype object, none of which has a `title`, `content` or
`footer`), or `undefined`. -/
def messageTemplates (template : String) : JSValue :=
  if template = "standard" then standardTemplate
  else if template = "detailed" then detailedTemplate
  else if template = "simple" then simpleTemplate
  else if template ∈ objectPrototypeNames then .object []
  else .prim .undefined

/-- The value of an own property in a property list, `undefined` when it is absent. -/
def lookupProperty : List (String × JSValue) → String → JSValue
  | [], _ => .prim .undefined
  | (k, v) :: rest, name => if k = name then v else lookupProperty rest name

/-- The reads `messageTemplate.title`, `.content` and `.footer`, names that no
prototype defines: `TypeError` on `null` and `undefined`, the own property of an object,
`undefined` on anything else. -/
def templateField (messageTemplate : JSValue) (name : String) : Except JSError JSValue :=
  match messageTemplate with
  | .prim .undefined => .error .typeError
  | .prim .null => .error .typeError
  | .object props => .ok (lookupProperty props name)
  | _ => .ok (.prim .undefined)

/-- The loop `Object.keys(sampleData).forEach(key => ...)` over one text: for each key
the regular expression is built first, then `text.replace(regex, sampleData[key])` is
called, which raises `TypeError` unless the text is a string and then takes the string
form of the value. -/
def substituteAll (text : JSValue) : FieldMap → Except JSError JSValue
  | [] => .ok text
  | (key, value) :: rest =>
    match compilePlaceholder key with
    | .error e => .error e
    | .ok regex =>
      match text with
      | .prim (.string s) =>
        match value.toJSString with
        | .error e => .error e
        | .ok replacement =>
          substituteAll (.prim (.string (replaceAll regex s replacement))) rest
      | _ => .error .typeError

/-- The three parts of a rendered message. -/
structure Rendered where
  title : String
  content : String
  footer : String
  deriving DecidableEq, Repr

/-- The substitution part of `updateMessagePreview`: the content and the footer go
through the key loop, the title is read as it is, and the final `content.replace` needs
the content to be a string; the title and the footer enter the markup by their string
form. -/
def renderTemplate (messageTemplate : JSValue) (fields : FieldMap) : Except JSError Rendered :=
  match templateField messageTemplate "content" with
  | .error e => .error e
  | .ok content0 =>
    match substituteAll content0 fields with
    | .error e => .error e
    | .ok content =>
      match templateField messageTemplate "footer" with
      | .error e => .error e
      | .ok footer0 =>
        match substituteAll footer0 fields with
        | .error e => .error e
        | .ok footer =>
          match templateField messageTemplate "title" with
          | .error e => .error e
          | .ok title =>
            match title.toJSString with
            | .error e => .error e
            | .ok titleText =>
              match content with
              | .prim (.string c) =>
                match footer.toJSString with
                | .error e => .error e
                | .ok footerText => .ok { title := titleText, content := c, footer := footerText }
              | _ => .error .typeError

/-- The call `content.replace(/\n/g, '<br>')`. -/
def lineBreaksToHTML : List Char → List Char
  | [] => []
  | c :: cs =>
    if c = '\n' then "<br>".data ++ lineBreaksToHTML cs else c :: lineBreaksToHTML cs

/-- The markup assigned to `previewElement.innerHTML`. -/
def previewHTML (r : Rendered) : String :=
  "\n        <strong>" ++ r.title ++ "</strong><br><br>\n        " ++
    String.mk (lineBreaksToHTML r.content.data) ++ "<br><br>\n        <em>" ++ r.footer ++
    "</em>\n    "

/-- The sample object used when `data` is missing; the two date texts come from the
clock. -/
def defaultSampleData (timestamp nextUpdate : String) : FieldMap :=
  [("score", .prim (.number 750)),
   ("completed_missions", .prim (.number 23)),
   ("active_riders", .prim (.number 31)),
   ("estimated_income", .prim (.number 90000)),
   ("score_change", .prim (.string "+25")),
   ("mission_change", .prim (.string "+3")),
   ("riders_change", .prim (.string "+2")),
   ("income_change", .prim (.string "+15000")),
   ("timestamp", .prim (.string timestamp)),
   ("next_update", .prim (.string nextUpdate)),
   ("peak_performance", .prim (.number 92)),
   ("avg_response_time", .prim (.fraction "3.5")),
   ("goal_achievement", .prim (.number 87))]

/-- What `updateMessagePreview` does to the preview element. -/
inductive PreviewEffect where
  /-- The statement `previewElement.textContent = text`. -/
  | textContent (text : String)
  /-- The statement `previewElement.innerHTML = html`. -/
  | innerHTML (html : String)
  deriving DecidableEq, Repr

/-- The function `updateMessagePreview(data)` of both dashboards. `jsonParse` is
`JSON.parse` (an error carries the message of the exception), `timestamp` and
`nextUpdate` are the two texts the clock gives, `template` and `customMessage` are the
values of the two form controls, `data` is the argument (`none` when it is `null` or
left out). -/
def updateMessagePreview (jsonParse : String → Except String JSValue)
    (timestamp nextUpdate template customMessage : String) (data : Option FieldMap) :
    Except JSError PreviewEffect :=
  let sampleData := data.getD (defaultSampleData timestamp nextUpdate)
  if template = "custom" then
    match jsonParse customMessage with
    | .error message => .ok (.textContent ("JSON 형식 오류: " ++ message))
    | .ok messageTemplate =>
      match renderTemplate messageTemplate sampleData with
      | .error e => .error e
      | .ok r => .ok (.innerHTML (previewHTML r))
  else
    match renderTemplate (messageTemplates template) sampleData with
    | .error e => .error e
    | .ok r => .ok (.innerHTML (previewHTML r))

/-! ## Well-formed templates and simultaneous substitution

The reference semantics the substitution loop is compared with: a template text cut
into plain text and placeholders, each placeholder replaced at once by the value of its
key. -/

/-- A piece of a template text: plain text, or a placeholder with its name. -/
inductive Token where
  | text (cs : List Char)
  | placeholder (name : List Char)
  deriving DecidableEq, Repr

/-- The text of a placeholder: the name between braces. -/
def placeholderText (name : List Char) : List Char := lbrace :: (name ++ [rbrace])

/-- The text of one token. -/
def Token.chars : Token → List Char
  | .text cs => cs
  | .placeholder name => placeholderText name

/-- The text of a token list. -/
def tokensText : List Token → List Char
  | [] => []
  | t :: ts => t.chars ++ tokensText ts

/-- A token is well formed when its text has no opening brace and its placeholder name
has no brace at all. -/
def Token.wellFormed : Token → Bool
  | .text cs => cs.all (fun c => c != lbrace)
  | .placeholder name => name.all (fun c => c != lbrace && c != rbrace)

/-- A template text in which every opening brace starts a placeholder. -/
def wellFormedTokens (ts : List Token) : Bool := ts.all Token.wellFormed

/-- The value of a key in a field map, the first pair winning. -/
def lookupField (name : List Char) : FieldMap → Option JSValue
  | [] => none
  | (k, v) :: rest => if k.data = name then some v else lookupField name rest

/-- The characters of the string form of a value, none when the conversion raises. -/
def stringForm (v : JSValue) : List Char :=
  match v.toJSString with
  | .ok s => s.data
  | .error _ => []

/-- Whether a value has a string form. -/
def hasStringForm (v : JSValue) : Bool :=
  match v.toJSString with
  | .ok _ => true
  | .error _ => false

/-- One token after simultaneous substitution: a placeholder whose name is a key gives
the string form of the value, anything else stays. -/
def Token.substituted (fields : FieldMap) : Token → List Char
  | .text cs => cs
  | .placeholder name =>
    match lookupField name fields with
    | some v => stringForm v
    | none => placeholderText name

/-- Simultaneous substitution over a token list. -/
def substitutedText (fields : FieldMap) : List Token → List Char
  | [] => []
  | t :: ts => t.substituted fields ++ substitutedText fields ts

/-- A key whose pattern is the literal text of its placeholder: no syntax character of a
regular expression in it, and not the body of a braced quantifier. -/
def plainKey (key : String) : Bool :=
  !isBracedQuantifierBody key.data && key.data.all (fun c => !isSyntaxCharacter c)

/-- A value that has a string form with neither a dollar sign nor an opening brace. -/
def plainValue (v : JSValue) : Bool :=
  hasStringForm v && (stringForm v).all (fun c => c != dollar && c != lbrace)

/-- A field map of plain keys whose values all have a string form. -/
def plainKeys (fields : FieldMap) : Bool :=
  fields.all (fun kv => plainKey kv.1 && hasStringForm kv.2)

/-- A field map of plain keys and plain values. -/
def plainFields (fields : FieldMap) : Bool :=
  fields.all (fun kv => plainKey kv.1 && plainValue kv.2)

/-- The keys of a field map, in order. -/
def fieldKeys (fields : FieldMap) : List String := fields.map Prod.fst

/-- One token after the substitution of a single key. -/
def Token.substituteOne (key repl : List Char) : Token → Token
  | .text cs => .text cs
  | .placeholder name => if name = key then .text repl else .placeholder name

/-- The pattern of a plain key: every character matches itself. -/
def literalPattern (key : List Char) : List Atom :=
  (placeholderText key).map Atom.lit


/-! ## Notifications

The notification elements of a page and the timers that `setTimeout` has pending. Time
is counted in milliseconds. -/

/-- A notification element under `document.body`. `text` is the message it carries
(its `textContent`, or the message placed in its markup; markup inside a message is not
modelled), `shown` says whether it has been faded in. -/
structure Toast where
  id : Nat
  className : String
  text : String
  shown : Bool
  deriving DecidableEq, Repr

/-- What a pending timer does when it fires. -/
inductive TimerAction where
  /-- Dashboards: `classList.add('show')`, respectively `style.opacity = '1'`. -/
  | fadeIn (id : Nat)
  /-- Dashboards: fade out, then schedule `removeChild` 300 ms later. -/
  | fadeOut (id : Nat)
  /-- Dashboards: `document.body.removeChild(notification)`. -/
  | removeChild (id : Nat)
  /-- Control centre: `if (notification.parentElement) notification.remove()`. -/
  | expire (id : Nat)
  deriving DecidableEq, Repr

/-- A pending timer. -/
structure Timer where
  due : Nat
  action : TimerAction
  deriving DecidableEq, Repr

/-- The notification elements attached to the page, in document order, the pending
timers in the order they were set, the clock, and the identity of the next element. -/
structure NotificationDOM where
  attached : List Toast
  timers : List Timer
  now : Nat
  nextId : Nat
  deriving DecidableEq, Repr

/-- A page without notifications at time zero. -/
def NotificationDOM.empty : NotificationDOM :=
  { attached := [], timers := [], now := 0, nextId := 0 }

/-- Detach the element `id` (a no-op when it is not attached). -/
def detach (id : Nat) (attached : List Toast) : List Toast :=
  attached.filter (fun t => t.id != id)

/-- Set the `shown` flag of the element `id`. -/
def setShown (id : Nat) (value : Bool) (attached : List Toast) : List Toast :=
  attached.map (fun t => if t.id = id then { t with shown := value } else t)

/-- The callback of a timer, run at time `st.now`. -/
def fireAction (st : NotificationDOM) : TimerAction → NotificationDOM
  | .fadeIn id => { st with attached := setShown id true st.attached }
  | .fadeOut id =>
    { st with attached := setShown id false st.attached,
              timers := st.timers ++ [⟨st.now + 300, .removeChild id⟩] }
  | .removeChild id => { st with attached := detach id st.attached }
  | .expire id => { st with attached := detach id st.attached }

/-- The earliest due time among the pending timers. -/
def earliestDue : List Timer → Option Nat
  | [] => none
  | t :: ts =>
    match earliestDue ts with
    | none => some t.due
    | some d => some (min t.due d)

/-- Take out the first timer, in the order they were set, that is due at `d`. -/
def takeDue (d : Nat) : List Timer → Option (Timer × List Timer)
  | [] => none
  | t :: ts =>
    if t.due = d then some (t, ts)
    else
      match takeDue d ts with
      | none => none
      | some (found, rest) => some (found, t :: rest)

/-- Fire the timers that are due up to `deadline`, earliest first and in the order they
were set among equals; `fuel` bounds the number of callbacks. -/
def runTimers (deadline : Nat) : Nat → NotificationDOM → NotificationDOM
  | 0, st => st
  | fuel + 1, st =>
    match earliestDue st.timers with
    | none => st
    | some d =>
      if d ≤ deadline then
        match takeDue d st.timers with
        | none => st
        | some (t, rest) =>
          runTimers deadline fuel (fireAction { st with timers := rest, now := d } t.action)
      else st

/-- Let `ms` milliseconds pass: every timer due by then fires. A callback sets at most
one further timer, and that one sets none, so three rounds per pending timer suffice. -/
def advance (ms : Nat) (st : NotificationDOM) : NotificationDOM :=
  { runTimers (st.now + ms) (3 * st.timers.length + 3) st with now := st.now + ms }

/-- The function `showNotification` of `docs/assets/js/dashboard.js`: a new element is
appended, faded in after 100 ms, faded out after 3000 ms and removed 300 ms later. -/
def Docs.showNotification (message type : String) (st : NotificationDOM) : NotificationDOM :=
  { st with
    attached := st.attached ++
      [{ id := st.nextId, className := "notification " ++ type, text := message,
         shown := false }],
    timers := st.timers ++
      [⟨st.now + 100, .fadeIn st.nextId⟩, ⟨st.now + 3000, .fadeOut st.nextId⟩],
    nextId := st.nextId + 1 }

/-- The function `showNotification` of `semiauto/dashboard/assets/js/dashboard.js`: as
in the other dashboard, with the fade-in after 10 ms. -/
def Semi.showNotification (message type : String) (st : NotificationDOM) : NotificationDOM :=
  { st with
    attached := st.attached ++
      [{ id := st.nextId, className := "notification " ++ type, text := message,
         shown := false }],
    timers := st.timers ++
      [⟨st.now + 10, .fadeIn st.nextId⟩, ⟨st.now + 3000, .fadeOut st.nextId⟩],
    nextId := st.nextId + 1 }

/-- The common body of the three control-centre implementations: the first element that
`querySelector('.notification')` finds is removed, the new element is appended and a
timer is set that removes it after `delay` ms if it is still attached. -/
def supersedingShow (delay : Nat) (message type : String) (st : NotificationDOM) :
    NotificationDOM :=
  { st with
    attached := st.attached.drop 1 ++
      [{ id := st.nextId, className := "notification notification-" ++ type,
         text := message, shown := true }],
    timers := st.timers ++ [⟨st.now + delay, .expire st.nextId⟩],
    nextId := st.nextId + 1 }

/-- The method `ControlCenter.showNotification` (removal after 5 s). -/
def ControlCenter.showNotification (message type : String) (st : NotificationDOM) :
    NotificationDOM :=
  supersedingShow 5000 message type st

/-- The method `EnhancedControlCenter.showNotification` (removal after 3 s). -/
def EnhancedControlCenter.showNotification (message type : String) (st : NotificationDOM) :
    NotificationDOM :=
  supersedingShow 3000 message type st

/-- The function `showNotification` of `control-center-functions.js` (removal after
5 s). -/
def ControlCenterFunctions.showNotification (message type : String) (st : NotificationDOM) :
    NotificationDOM :=
  supersedingShow 5000 message type st

/-- The close button of a control-centre notification:
`this.parentElement.parentElement.remove()`. -/
def closeNotification (id : Nat) (st : NotificationDOM) : NotificationDOM :=
  { st with attached := detach id st.attached }

/-- The identities of the attached notifications. -/
def attachedIds (st : NotificationDOM) : List Nat := st.attached.map Toast.id

/-! ## JSON text

`JSON.stringify` and `JSON.parse` on the values of `JSValue`. A number is parsed when it
is an integer of magnitude up to `2^53`; a text with a fraction, an exponent, a larger
integer or an escape of a surrogate code unit is valid JSON that the model does not
cover and answers with `unmodelled`. -/

/-- The double quote. -/
def doubleQuote : Char := Char.ofNat 34
/-- The backslash. -/
def backslash : Char := Char.ofNat 92

/-- The lowercase hexadecimal digit of a value below sixteen. -/
def hexDigit (n : Nat) : Char :=
  if n < 10 then Char.ofNat (48 + n) else Char.ofNat (87 + n)

/-- The value of a hexadecimal digit, in either case. -/
def hexValue (c : Char) : Option Nat :=
  if 48 ≤ c.toNat ∧ c.toNat ≤ 57 then some (c.toNat - 48)
  else if 97 ≤ c.toNat ∧ c.toNat ≤ 102 then some (c.toNat - 87)
  else if 65 ≤ c.toNat ∧ c.toNat ≤ 70 then some (c.toNat - 55)
  else none

/-- One character inside a JSON string, as `QuoteJSONString` writes it: the short
escapes for backspace, tab, line feed, form feed, carriage return, the double quote and
the backslash, a `\u00xx` escape for any other control character, the character
itself otherwise. -/
def quoteChar (c : Char) : List Char :=
  if c.toNat = 8 then [backslash, 'b']
  else if c.toNat = 9 then [backslash, 't']
  else if c.toNat = 10 then [backslash, 'n']
  else if c.toNat = 12 then [backslash, 'f']
  else if c.toNat = 13 then [backslash, 'r']
  else if c = doubleQuote then [backslash, doubleQuote]
  else if c = backslash then [backslash, backslash]
  else if c.toNat < 32 then
    [backslash, 'u', '0', '0', hexDigit (c.toNat / 16), hexDigit (c.toNat % 16)]
  else [c]

/-- The characters of a string, each as `QuoteJSONString` writes it. -/
def quoteBody : List Char → List Char
  | [] => []
  | c :: cs => quoteChar c ++ quoteBody cs

/-- The abstract operation `QuoteJSONString`. -/
def quoteJSONString (cs : List Char) : List Char :=
  doubleQuote :: (quoteBody cs ++ [doubleQuote])

/-- Texts joined by commas. -/
def joinComma : List (List Char) → List Char
  | [] => []
  | [t] => t
  | t :: ts => t ++ ',' :: joinComma ts

mutual
/-- The function `JSON.stringify` on a value; `none` is the result `undefined`. A
property whose value gives `undefined` is left out of an object, an element that gives
`undefined` is written `null`. -/
def jsonStringify : JSValue → Except JSError (Option (List Char))
  | .prim .undefined => .ok none
  | .prim .null => .ok (some "null".data)
  | .prim (.bool true) => .ok (some "true".data)
  | .prim (.bool false) => .ok (some "false".data)
  | .prim (.number n) =>
    if n.natAbs < 1000000000000000000000 then .ok (some (toString n).data)
    else .error .unmodelled
  | .prim (.fraction text) => .ok (some text.data)
  | .prim (.string s) => .ok (some (quoteJSONString s.data))
  | .object props =>
    match stringifyMembers props with
    | .ok members => .ok (some (lbrace :: (joinComma members ++ [rbrace])))
    | .error e => .error e
  | .array elems =>
    match stringifyElements elems with
    | .ok texts => .ok (some ('[' :: (joinComma texts ++ [']'])))
    | .error e => .error e
/-- The members of an object, each as `"key":value`. -/
def stringifyMembers : List (String × JSValue) → Except JSError (List (List Char))
  | [] => .ok []
  | (k, v) :: rest =>
    match jsonStringify v with
    | .error e => .error e
    | .ok none => stringifyMembers rest
    | .ok (some text) =>
      match stringifyMembers rest with
      | .ok members => .ok ((quoteJSONString k.data ++ ':' :: text) :: members)
      | .error e => .error e
/-- The elements of an array. -/
def stringifyElements : List JSValue → Except JSError (List (List Char))
  | [] => .ok []
  | v :: rest =>
    match jsonStringify v with
    | .error e => .error e
    | .ok none =>
      match stringifyElements rest with
      | .ok texts => .ok ("null".data :: texts)
      | .error e => .error e
    | .ok (some text) =>
      match stringifyElements rest with
      | .ok texts => .ok (text :: texts)
      | .error e => .error e
end

/-- The white space of JSON: space, tab, line feed, carriage return. -/
def isJSONWhitespace (c : Char) : Bool := c.toNat ∈ [32, 9, 10, 13]

/-- Drop leading white space. -/
def skipWhitespace : List Char → List Char
  | [] => []
  | c :: cs => if isJSONWhitespace c then skipWhitespace cs else c :: cs

/-- The character a short escape stands for. -/
def unescapeChar (e : Char) : Option Char :=
  if e = doubleQuote then some doubleQuote
  else if e = backslash then some backslash
  else if e = '/' then some '/'
  else if e = 'b' then some (Char.ofNat 8)
  else if e = 'f' then some (Char.ofNat 12)
  else if e = 'n' then some (Char.ofNat 10)
  else if e = 'r' then some (Char.ofNat 13)
  else if e = 't' then some (Char.ofNat 9)
  else none

/-- Read a JSON string from the character after its opening quote: the decoded
characters and the text after the closing quote. -/
def parseStringBody : List Char → Except JSError (List Char × List Char)
  | [] => .error .syntaxError
  | c :: rest =>
    if c = doubleQuote then .ok ([], rest)
    else if c = backslash then
      match rest with
      | [] => .error .syntaxError
      | e :: rest2 =>
        if e = 'u' then
          match rest2 with
          | h1 :: h2 :: h3 :: h4 :: rest3 =>
            match hexValue h1, hexValue h2, hexValue h3, hexValue h4 with
            | some a, some b, some c3, some d =>
              if 55296 ≤ ((a * 16 + b) * 16 + c3) * 16 + d ∧
                  ((a * 16 + b) * 16 + c3) * 16 + d < 57344 then .error .unmodelled
              else
                match parseStringBody rest3 with
                | .ok (s, r) => .ok (Char.ofNat (((a * 16 + b) * 16 + c3) * 16 + d) :: s, r)
                | .error err => .error err
            | _, _, _, _ => .error .syntaxError
          | _ => .error .syntaxError
        else
          match unescapeChar e with
          | none => .error .syntaxError
          | some ch =>
            match parseStringBody rest2 with
            | .ok (s, r) => .ok (ch :: s, r)
            | .error err => .error err
    else if c.toNat < 32 then .error .syntaxError
    else
      match parseStringBody rest with
      | .ok (s, r) => .ok (c :: s, r)
      | .error err => .error err

/-- The number a run of decimal digits writes. -/
def digitsToNat (ds : List Char) : Nat :=
  ds.foldl (fun n d => 10 * n + (d.toNat - 48)) 0

/-- Read a JSON number from its first digit. A single `0` is a whole integer part. -/
def parseNumber (negative : Bool) (cs : List Char) : Except JSError (JSValue × List Char) :=
  match cs with
  | [] => .error .syntaxError
  | d :: ds =>
    if !d.isDigit then .error .syntaxError
    else
      let digits := if d = '0' then [d] else d :: ds.takeWhile Char.isDigit
      let rest := if d = '0' then ds else ds.dropWhile Char.isDigit
      if rest.head? = some '.' ∨ rest.head? = some 'e' ∨ rest.head? = some 'E' then
        .error .unmodelled
      else if digitsToNat digits > 9007199254740992 then .error .unmodelled
      else if negative then .ok (.prim (.number (-(digitsToNat digits : Int))), rest)
      else .ok (.prim (.number (digitsToNat digits)), rest)

/-- The array index a key writes in canonical form, if it is one. -/
def arrayIndex (k : String) : Option Nat :=
  match k.data with
  | [] => none
  | d :: ds =>
    if (d :: ds).all Char.isDigit && (d != '0' || ds.isEmpty) &&
        digitsToNat (d :: ds) < 4294967295 then some (digitsToNat (d :: ds))
    else none

/-- Place a new array-index key among the leading index keys, in ascending order. -/
def insertIndexKey (i : Nat) (k : String) (v : JSValue) :
    List (String × JSValue) → List (String × JSValue)
  | [] => [(k, v)]
  | (k2, v2) :: rest =>
    match arrayIndex k2 with
    | some j => if j < i then (k2, v2) :: insertIndexKey i k v rest else (k, v) :: (k2, v2) :: rest
    | none => (k, v) :: (k2, v2) :: rest

/-- Define the property `k` on an object under construction: an existing key keeps its
place and takes the new value, a new array index goes among the indices, any other new
key goes last. -/
def defineProperty (props : List (String × JSValue)) (k : String) (v : JSValue) :
    List (String × JSValue) :=
  if props.any (fun kv => kv.1 == k) then props.map (fun kv => if kv.1 = k then (k, v) else kv)
  else
    match arrayIndex k with
    | some i => insertIndexKey i k v props
    | none => props ++ [(k, v)]

mutual
/-- Read a JSON value; `fuel` bounds the depth of the calls. -/
def parseValue : Nat → List Char → Except JSError (JSValue × List Char)
  | 0, _ => .error .unmodelled
  | fuel + 1, cs =>
    match skipWhitespace cs with
    | [] => .error .syntaxError
    | c :: rest =>
      if c = doubleQuote then
        match parseStringBody rest with
        | .ok (s, r) => .ok (.prim (.string ⟨s⟩), r)
        | .error e => .error e
      else if c = lbrace then
        match skipWhitespace rest with
        | [] => .error .syntaxError
        | c2 :: rest2 =>
          if c2 = rbrace then .ok (.object [], rest2) else parseMembers fuel [] (c2 :: rest2)
      else if c = '[' then
        match skipWhitespace rest with
        | [] => .error .syntaxError
        | c2 :: rest2 =>
          if c2 = ']' then .ok (.array [], rest2) else parseElements fuel [] (c2 :: rest2)
      else if c = '-' then parseNumber true rest
      else if c.isDigit then parseNumber false (c :: rest)
      else if "true".data <+: c :: rest then .ok (.prim (.bool true), (c :: rest).drop 4)
      else if "false".data <+: c :: rest then .ok (.prim (.bool false), (c :: rest).drop 5)
      else if "null".data <+: c :: rest then .ok (.prim .null, (c :: rest).drop 4)
      else .error .syntaxError
/-- Read the members of an object from the first key on; `acc` holds the properties
defined so far. -/
def parseMembers : Nat → List (String × JSValue) → List Char →
    Except JSError (JSValue × List Char)
  | 0, _, _ => .error .unmodelled
  | fuel + 1, acc, cs =>
    match skipWhitespace cs with
    | [] => .error .syntaxError
    | q :: rest =>
      if q = doubleQuote then
        match parseStringBody rest with
        | .error e => .error e
        | .ok (key, afterKey) =>
          match skipWhitespace afterKey with
          | [] => .error .syntaxError
          | colon :: afterColon =>
            if colon = ':' then
              match parseValue fuel afterColon with
              | .error e => .error e
              | .ok (v, afterValue) =>
                match skipWhitespace afterValue with
                | [] => .error .syntaxError
                | sep :: afterSep =>
                  if sep = ',' then parseMembers fuel (defineProperty acc ⟨key⟩ v) afterSep
                  else if sep = rbrace then .ok (.object (defineProperty acc ⟨key⟩ v), afterSep)
                  else .error .syntaxError
            else .error .syntaxError
      else .error .syntaxError
/-- Read the elements of an array from the first element on. -/
def parseElements : Nat → List JSValue → List Char → Except JSError (JSValue × List Char)
  | 0, _, _ => .error .unmodelled
  | fuel + 1, acc, cs =>
    match parseValue fuel cs with
    | .error e => .error e
    | .ok (v, afterValue) =>
      match skipWhitespace afterValue with
      | [] => .error .syntaxError
      | sep :: afterSep =>
        if sep = ',' then parseElements fuel (acc ++ [v]) afterSep
        else if sep = ']' then .ok (.array (acc ++ [v]), afterSep)
        else .error .syntaxError
end

/-- The function `JSON.parse` on a text: one value, white space around it allowed. -/
def jsonParse (text : String) : Except JSError JSValue :=
  match parseValue (text.length + 1) text.data with
  | .error e => .error e
  | .ok (v, rest) => if skipWhitespace rest = [] then .ok v else .error .syntaxError

/-! ## Message settings and their storage slot

The global `messageSettings`, the slot `grider-message-settings` of `localStorage` and
the five form controls of the settings panel. -/

/-- A state together with the exception that ended the call, if one was raised. What
the call did before raising is in the state. -/
structure Outcome (σ : Type) where
  state : σ
  raised : Option JSError

/-- The conversion `ToBoolean`. -/
def truthy : JSValue → Bool
  | .prim .undefined => false
  | .prim .null => false
  | .prim (.bool b) => b
  | .prim (.number n) => n != 0
  | .prim (.fraction _) => true
  | .prim (.string s) => s != ""
  | .object _ => true
  | .array _ => true

/-- The form controls of the settings panel as the script reads them, and the option
values of the control `message-template`. -/
structure FormControls where
  template : String
  sendOnChange : Bool
  sendOnSchedule : Bool
  sendOnAlert : Bool
  customMessage : String
  templateOptions : List String

/-- The settings panel of a dashboard: the global `messageSettings`, the storage slot
(`none` when the key is absent), whether the storage accepts a write, the form controls
and the notifications of the page. -/
structure SettingsPage where
  messageSettings : JSValue
  storage : Option String
  storageWritable : Bool
  controls : FormControls
  toasts : NotificationDOM

/-- The initial value of the global `messageSettings`. -/
def defaultMessageSettings : JSValue :=
  .object [("template", .prim (.string "standard")), ("sendOnChange", .prim (.bool true)),
    ("sendOnSchedule", .prim (.bool true)), ("sendOnAlert", .prim (.bool false)),
    ("customMessage", .prim .null)]

/-- The object literal that `saveMessageSettings` builds from the form controls. -/
def settingsObject (c : FormControls) : JSValue :=
  .object [("template", .prim (.string c.template)),
    ("sendOnChange", .prim (.bool c.sendOnChange)),
    ("sendOnSchedule", .prim (.bool c.sendOnSchedule)),
    ("sendOnAlert", .prim (.bool c.sendOnAlert)),
    ("customMessage", .prim (.string c.customMessage))]

/-- The statement `localStorage.setItem('grider-message-settings',
JSON.stringify(messageSettings))`: the text is written when the storage accepts it, and
the call raises otherwise, leaving the slot as it was. The result `undefined` of
`JSON.stringify` is stored as the text `undefined`. -/
def storeSettings (page : SettingsPage) : Outcome SettingsPage :=
  match jsonStringify page.messageSettings with
  | .error e => ⟨page, some e⟩
  | .ok text =>
    if page.storageWritable then
      ⟨{ page with storage := some (match text with
                                    | some t => String.mk t
                                    | none => "undefined") }, none⟩
    else ⟨page, some .storageError⟩

/-- The function `saveMessageSettings`, with the `showNotification` of its file: the
global is assigned, the slot is written, the success notification is posted. The call
of `updateMessageConfig` that follows only logs to the console. -/
def saveMessageSettingsWith
    (showNotification : String → String → NotificationDOM → NotificationDOM)
    (page : SettingsPage) : Outcome SettingsPage :=
  match storeSettings { page with messageSettings := settingsObject page.controls } with
  | ⟨stored, some e⟩ => ⟨stored, some e⟩
  | ⟨stored, none⟩ =>
    ⟨{ stored with
       toasts := showNotification "메시지 설정이 저장되었습니다." "success" stored.toasts }, none⟩

/-- The function `saveMessageSettings` of `docs/assets/js/dashboard.js`. -/
def Docs.saveMessageSettings (page : SettingsPage) : Outcome SettingsPage :=
  saveMessageSettingsWith Docs.showNotification page

/-- The function `saveMessageSettings` of `semiauto/dashboard/assets/js/dashboard.js`. -/
def Semi.saveMessageSettings (page : SettingsPage) : Outcome SettingsPage :=
  saveMessageSettingsWith Semi.showNotification page

/-- The assignment `select.value = text`: the first option with that value is selected,
and with no such option none is, so that the control reads as the empty text. -/
def selectValue (options : List String) (text : String) : String :=
  if text ∈ options then text else ""

/-- The value a text area reads after an assignment: a carriage return, with the line
feed that may follow it, reads as one line feed. `afterReturn` says that the character
before was a carriage return. -/
def normalizeNewlines : Bool → List Char → List Char
  | _, [] => []
  | afterReturn, c :: cs =>
    if c = Char.ofNat 13 then Char.ofNat 10 :: normalizeNewlines true cs
    else if c = Char.ofNat 10 && afterReturn then normalizeNewlines false cs
    else c :: normalizeNewlines false cs

/-- The five assignments to the form controls at the end of `loadMessageSettings`, in
their order; a read of a property of `null` or a failing conversion raises and leaves
the later controls untouched. -/
def applySettingsToControls (page : SettingsPage) : Outcome SettingsPage :=
  match templateField page.messageSettings "template" with
  | .error e => ⟨page, some e⟩
  | .ok template =>
    match template.toJSString with
    | .error e => ⟨page, some e⟩
    | .ok templateText =>
      let c1 := { page.controls with
        template := selectValue page.controls.templateOptions templateText }
      let c2 := { c1 with
        sendOnChange := truthy (lookupProperty
          (match page.messageSettings with | .object props => props | _ => []) "sendOnChange"),
        sendOnSchedule := truthy (lookupProperty
          (match page.messageSettings with | .object props => props | _ => []) "sendOnSchedule"),
        sendOnAlert := truthy (lookupProperty
          (match page.messageSettings with | .object props => props | _ => []) "sendOnAlert") }
      let custom := lookupProperty
        (match page.messageSettings with | .object props => props | _ => []) "customMessage"
      if truthy custom then
        match custom.toJSString with
        | .error e => ⟨{ page with controls := c2 }, some e⟩
        | .ok customText =>
          ⟨{ page with controls :=
              { c2 with customMessage := String.mk (normalizeNewlines false customText.data) } }, none⟩
      else ⟨{ page with controls := { c2 with customMessage := "" } }, none⟩

/-- The function `loadMessageSettings` of both dashboards: nothing happens when the slot
is absent or holds the empty text; otherwise the text is parsed (a failure of
`JSON.parse` raises before the global is assigned), the global is assigned and the form
controls are set from it. -/
def loadMessageSettings (page : SettingsPage) : Outcome SettingsPage :=
  match page.storage with
  | none => ⟨page, none⟩
  | some saved =>
    if saved = "" then ⟨page, none⟩
    else
      match jsonParse saved with
      | .error e => ⟨page, some e⟩
      | .ok settings => applySettingsToControls { page with messageSettings := settings }

/-- The `beforeunload` handler of both dashboards: the slot is written from the global
when the global is truthy. -/
def beforeUnload (page : SettingsPage) : Outcome SettingsPage :=
  if truthy page.messageSettings then storeSettings page else ⟨page, none⟩

/-- The text of a boolean. -/
def boolText (b : Bool) : List Char := if b then "true".data else "false".data

/-- The text `JSON.stringify` gives for the object of `saveMessageSettings`. -/
def settingsText (c : FormControls) : List Char :=
  lbrace :: (quoteJSONString "template".data ++ ':' :: (quoteJSONString c.template.data ++ ',' ::
    (quoteJSONString "sendOnChange".data ++ ':' :: (boolText c.sendOnChange ++ ',' ::
    (quoteJSONString "sendOnSchedule".data ++ ':' :: (boolText c.sendOnSchedule ++ ',' ::
    (quoteJSONString "sendOnAlert".data ++ ':' :: (boolText c.sendOnAlert ++ ',' ::
    (quoteJSONString "customMessage".data ++ ':' ::
      (quoteJSONString c.customMessage.data ++ [rbrace]))))))))))

/-- The function `JSON.parse` as `updateMessagePreview` uses it, with the message that
the engine attaches to a failure. -/
def parseOrMessage (message : String) (text : String) : Except String JSValue :=
  match jsonParse text with
  | .ok v => .ok v
  | .error _ => .error message

/-! ## The refresh cycle of `semiauto/dashboard/assets/js/dashboard.js` -/

/-- Functions of the browser that the scripts call and the model takes as given. -/
structure Platform where
  /-- The text `new Date(x).toLocaleString('ko-KR')`. -/
  dateToLocaleString : JSValue → String
  /-- The text `x.toLocaleString('ko-KR')` of a number. -/
  numberToLocaleString : JSPrim → String
  /-- The product `x * 0.1`; `none` is `NaN`. -/
  timesTenth : JSPrim → Option JSPrim
  /-- The sign of `ToNumber` of a text; `none` when the text is not a number. -/
  textSign : String → Option Int
  /-- The label `getHours().toString().padStart(2, '0') + ':00'` of a time stamp. -/
  hourLabel : JSValue → String
  /-- The message of the `SyntaxError` that `JSON.parse` raises on a text. -/
  parseErrorMessage : String → String

/-- A rider record of a snapshot: the properties `name`, `완료` and `수락률`
(`undefined` when missing). -/
structure Rider where
  name : JSPrim
  completed : JSPrim
  acceptance : JSPrim
  deriving DecidableEq, Repr

/-- A snapshot as `updateDashboard` and `refreshData` read it: the properties `error`,
`error_reason`, `last_updated`, `총점`, `총완료`, `수락률` (`undefined` when missing)
and `riders` (`none` when missing or not truthy). -/
structure SemiSnapshot where
  error : JSPrim
  error_reason : JSPrim
  last_updated : JSPrim
  totalScore : JSPrim
  totalCompleted : JSPrim
  acceptanceRate : JSPrim
  riders : Option (List Rider)
  deriving DecidableEq, Repr

/-- An element created by the script: its class and the markup assigned to it. -/
structure PageElement where
  className : String
  innerHTML : String
  deriving DecidableEq, Repr

/-- The content of the rider list: the markup last assigned to it, or the elements
appended after it was emptied. -/
inductive RiderListContent where
  | markup (html : String)
  | children (items : List PageElement)
  deriving DecidableEq, Repr

/-- The regions of the page that the script writes, and its notifications. Every
element the script looks up is taken to exist. -/
structure SemiPage where
  indicatorClass : String
  statusText : String
  totalScore : String
  totalCompleted : String
  acceptanceRate : String
  activeRiders : String
  riderList : RiderListContent
  toasts : NotificationDOM
  deriving DecidableEq, Repr

/-- The expression `x || 0`. -/
def orZero (p : JSPrim) : JSPrim :=
  if truthy (.prim p) then p else .number 0

/-- The test `(x || 0) > 0`. A fraction is positive unless its text starts with a minus
sign; a text is converted by the browser. -/
def isPositive (platform : Platform) : JSPrim → Bool
  | .undefined => false
  | .null => false
  | .bool b => b
  | .number n => decide (0 < n)
  | .fraction text => text.data.head? != some '-'
  | .string s => s != "" && platform.textSign s == some 1

/-- The call `riders.filter(rider => (rider.완료 || 0) > 0)`. -/
def activeRidersOf (platform : Platform) (riders : List Rider) : List Rider :=
  riders.filter fun r => isPositive platform r.completed

/-- The element built for one active rider. -/
def riderElement (r : Rider) : Except JSError PageElement :=
  match r.name.toJSString with
  | .error e => .error e
  | .ok name =>
    match r.completed.toJSString with
    | .error e => .error e
    | .ok completed =>
      match r.acceptance.toJSString with
      | .error e => .error e
      | .ok acceptance =>
        .ok { className := "rider-item",
              innerHTML :=
                "\n                <div class=\"rider-name\">" ++ name ++
                "</div>\n                <div class=\"rider-stats\">\n                    <span>완료: " ++
                completed ++ "</span>\n                    <span>수락률: " ++ acceptance ++
                "%</span>\n                </div>\n            " }

/-- The elements of the active riders, in their order. -/
def riderElements : List Rider → Except JSError (List PageElement)
  | [] => .ok []
  | r :: rest =>
    match riderElement r with
    | .error e => .error e
    | .ok element =>
      match riderElements rest with
      | .error e => .error e
      | .ok elements => .ok (element :: elements)

/-- The markup of the rider list when no rider is active. -/
def riderPlaceholder : String :=
  "<div class=\"rider-item-placeholder\">운행 기록이 있는 라이더가 없습니다.</div>"

/-- The function `updateDashboard` of the semi-automatic dashboard: the four statistics,
the rider list of the riders with a positive completed count, and the success
notification. On a snapshot of this type nothing raises; an error is a value the model
does not cover. -/
def Semi.updateDashboard (platform : Platform) (data : SemiSnapshot) (page : SemiPage) :
    Except JSError SemiPage :=
  let active := activeRidersOf platform (data.riders.getD [])
  match (orZero data.totalScore).toJSString, (orZero data.totalCompleted).toJSString,
      (orZero data.acceptanceRate).toJSString with
  | .ok score, .ok completed, .ok rate =>
    match riderElements active with
    | .error e => .error e
    | .ok elements =>
      .ok { page with
        totalScore := score,
        totalCompleted := completed,
        acceptanceRate := rate ++ "%",
        activeRiders := toString active.length,
        riderList := if active.length = 0 then .markup riderPlaceholder
                     else .children elements,
        toasts := Semi.showNotification "대시보드 데이터가 업데이트되었습니다." "success"
          page.toasts }
  | .error e, _, _ => .error e
  | _, .error e, _ => .error e
  | _, _, .error e => .error e

/-- The function `updateSystemStatus(status, lastUpdated, errorMessage)` of the
semi-automatic dashboard; `errorMessage` is `undefined` when the argument is left out
or passed as `undefined`, and then takes its default. -/
def Semi.updateSystemStatus (platform : Platform) (status : String) (lastUpdated : JSPrim)
    (errorMessage : JSPrim) (page : SemiPage) : Except JSError SemiPage :=
  if status = "online" then
    .ok { page with
      indicatorClass := "status-indicator " ++ status,
      statusText := "실시간 연결 (" ++ platform.dateToLocaleString (.prim lastUpdated) ++ " 기준)" }
  else if status = "offline" then
    .ok { page with indicatorClass := "status-indicator " ++ status, statusText := "연결 끊김" }
  else if status = "error" then
    match (if errorMessage = .undefined then JSPrim.string "데이터 수신 중단"
           else errorMessage).toJSString with
    | .error e => .error e
    | .ok text =>
      .ok { page with
        indicatorClass := "status-indicator " ++ status, statusText := "오류: " ++ text }
  else .ok { page with indicatorClass := "status-indicator " ++ status }

/-- The text an element shows after `textContent = value`: nothing for `undefined` and
`null`, the string form otherwise. -/
def textContentOf (value : JSPrim) : Except JSError String :=
  match value with
  | .undefined => .ok ""
  | .null => .ok ""
  | v => v.toJSString

/-- The function `refreshData` of the semi-automatic dashboard, given what
`fetchLatestData` returned (`none` is `null`). An ok snapshot is rendered and the
indicator goes online; otherwise the indicator shows the error and an error
notification is posted. The `catch` block is not reached on a snapshot of this type. -/
def Semi.refreshData (platform : Platform) (fetched : Option SemiSnapshot) (page : SemiPage) :
    Except JSError SemiPage :=
  let failed (reason : JSPrim) : Except JSError SemiPage :=
    match Semi.updateSystemStatus platform "error" .null reason page with
    | .error e => .error e
    | .ok shown =>
      match textContentOf reason with
      | .error e => .error e
      | .ok text => .ok { shown with toasts := Semi.showNotification text "error" shown.toasts }
  match fetched with
  | none => failed (.string "데이터 파일을 찾을 수 없습니다.")
  | some data =>
    if truthy (.prim data.error) then failed data.error_reason
    else
      match Semi.updateDashboard platform data page with
      | .error e => .error e
      | .ok rendered => Semi.updateSystemStatus platform "online" data.last_updated .undefined rendered

/-- Whether every value of a snapshot that `updateDashboard` converts is covered by the
model: no number is too large for plain decimal. -/
def SemiSnapshot.covered (data : SemiSnapshot) : Bool :=
  hasStringForm (.prim (orZero data.totalScore)) &&
  hasStringForm (.prim (orZero data.totalCompleted)) &&
  hasStringForm (.prim (orZero data.acceptanceRate)) &&
  (data.riders.getD []).all (fun r =>
    hasStringForm (.prim r.name) && hasStringForm (.prim r.completed) &&
    hasStringForm (.prim r.acceptance))

/-! ## The refresh cycle of `docs/assets/js/dashboard.js` -/

/-- Run `next` on the state of an outcome unless the call has already raised. -/
def Outcome.andThen {σ : Type} (o : Outcome σ) (next : σ → Outcome σ) : Outcome σ :=
  match o.raised with
  | none => next o.state
  | some _ => o

/-- A statistics card: the text of its value element, and the text and the class of its
change element. -/
structure StatCard where
  value : String
  change : String
  changeClass : String
  deriving DecidableEq, Repr

/-- The data of the performance chart. -/
structure PerformanceChart where
  labels : List String
  scores : List JSValue
  missions : List JSValue

/-- The regions of the page that the script writes, the globals it keeps and the two
form controls that `updateMessagePreview` reads. A chart is `none` when the global that
holds it is `null`; the preview is `none` as long as the script has not written it.
Every element the script looks up is taken to exist; the timers that undo the fade of
the dashboard and the scaling of a card are not modelled. -/
structure DocsPage where
  lastData : Option Snapshot
  lastDataUpdate : Option String
  dashboardOpacity : String
  dashboardTransition : String
  currentScore : StatCard
  completedMissions : StatCard
  activeRiders : StatCard
  estimatedIncome : StatCard
  performanceChart : Option PerformanceChart
  missionChart : Option (List JSValue)
  activityLog : List PageElement
  templateControl : String
  customControl : String
  preview : Option PreviewEffect
  statusColor : String
  statusLabel : String
  lastUpdateTime : String
  toasts : NotificationDOM

/-- The function `formatNumber`: a number is given its Korean locale text, anything else
is returned as it is. -/
def formatNumber (platform : Platform) : JSValue → JSValue
  | .prim (.number n) => .prim (.string (platform.numberToLocaleString (.number n)))
  | .prim (.fraction text) => .prim (.string (platform.numberToLocaleString (.fraction text)))
  | v => v

/-- The sign of `ToNumber(v)`, `none` for `NaN`, as the comparisons `v > 0` and
`v >= 0` need it. -/
def signOf (platform : Platform) : JSValue → Except JSError (Option Int)
  | .prim .undefined => .ok none
  | .prim .null => .ok (some 0)
  | .prim (.bool b) => .ok (some (if b then 1 else 0))
  | .prim (.number n) => .ok (some (Int.sign n))
  | .prim (.fraction text) => .ok (some (if text.data.head? = some '-' then -1 else 1))
  | .prim (.string s) => .ok (platform.textSign s)
  | v =>
    match v.toJSString with
    | .error e => .error e
    | .ok text => .ok (platform.textSign text)

/-- The function `updateStatCard(elementId, value, change, unit)` on the card of that
element: the value text is written first, then, unless `change` is `undefined`, the
change text and class. -/
def updateStatCard (platform : Platform) (value change : JSValue) (unit : String)
    (card : StatCard) : Outcome StatCard :=
  match (formatNumber platform value).toJSString with
  | .error e => ⟨card, some e⟩
  | .ok valueText =>
    let card1 := { card with value := valueText ++ unit }
    match change with
    | .prim .undefined => ⟨card1, none⟩
    | _ =>
      match signOf platform change with
      | .error e => ⟨card1, some e⟩
      | .ok sign =>
        match (formatNumber platform change).toJSString with
        | .error e => ⟨card1, some e⟩
        | .ok changeText =>
          ⟨{ card1 with
              change := (if sign = some 1 then "+" else "") ++ changeText ++ unit,
              changeClass := "stat-change " ++
                (if sign = some 0 ∨ sign = some 1 then "positive" else "negative") },
            none⟩

/-- The values of a property over the items of an array; the read of a property of
`null` or `undefined` raises `TypeError`. -/
def pluck (name : String) : List JSValue → Except JSError (List JSValue)
  | [] => .ok []
  | item :: rest =>
    match templateField item name with
    | .error e => .error e
    | .ok v =>
      match pluck name rest with
      | .error e => .error e
      | .ok vs => .ok (v :: vs)

/-- The argument of `new Date(value)` after the conversion `ToPrimitive`: a primitive
stays as it is; an object or an array is converted to its text, and the conversion
raises `TypeError` when an own property `toString` hides the inherited method. -/
def dateArgument : JSValue → Except JSError JSValue
  | .prim p => .ok (.prim p)
  | .object props =>
    match (JSValue.object props).toJSString with
    | .ok text => .ok (.prim (.string text))
    | .error e => .error e
  | .array elems =>
    match (JSValue.array elems).toJSString with
    | .ok text => .ok (.prim (.string text))
    | .error e => .error e

/-- The label that `updatePerformanceChart` computes for one item: the read
`item.timestamp` raises `TypeError` on `null` and `undefined`, `new Date` raises when
the time stamp cannot be converted, and the hour of the date gives the label. -/
def chartLabel (platform : Platform) (item : JSValue) : Except JSError String :=
  match templateField item "timestamp" with
  | .error e => .error e
  | .ok stamp =>
    match dateArgument stamp with
    | .error e => .error e
    | .ok time => .ok (platform.hourLabel time)

/-- The labels of the items, in their order; the first item that raises ends the call. -/
def chartLabels (platform : Platform) : List JSValue → Except JSError (List String)
  | [] => .ok []
  | item :: rest =>
    match chartLabel platform item with
    | .error e => .error e
    | .ok label =>
      match chartLabels platform rest with
      | .error e => .error e
      | .ok labels => .ok (label :: labels)

/-- The function `updatePerformanceChart(history)`: nothing without a chart or a
history; otherwise the labels, scores and missions of the last twelve items. -/
def updatePerformanceChart (platform : Platform) (history : JSValue)
    (chart : Option PerformanceChart) : Outcome (Option PerformanceChart) :=
  match chart with
  | none => ⟨chart, none⟩
  | some _ =>
    if !truthy history then ⟨chart, none⟩
    else
      match history with
      | .array items =>
        match chartLabels platform (items.drop (items.length - 12)),
            pluck "score" (items.drop (items.length - 12)),
            pluck "missions" (items.drop (items.length - 12)) with
        | .ok labels, .ok scores, .ok missions =>
          ⟨some { labels := labels, scores := scores, missions := missions }, none⟩
        | .error e, _, _ => ⟨chart, some e⟩
        | _, .error e, _ => ⟨chart, some e⟩
        | _, _, .error e => ⟨chart, some e⟩
      | _ => ⟨chart, some .typeError⟩

/-- The function `updateMissionChart(distribution)`. -/
def updateMissionChart (distribution : JSValue) (chart : Option (List JSValue)) :
    Option (List JSValue) :=
  match chart with
  | none => chart
  | some _ =>
    if !truthy distribution then chart
    else
      match distribution with
      | .object props =>
        some [lookupProperty props "completed", lookupProperty props "in_progress",
          lookupProperty props "pending"]
      | _ => some [.prim .undefined, .prim .undefined, .prim .undefined]

/-- The function `updateActivityLog(lastAction)`: the new entry goes first and the log
is cut to ten entries from the end. The template literal converts the time first, in
`new Date(lastAction.time)`, and the action second; a conversion that raises ends the
call before anything is inserted. -/
def updateActivityLog (platform : Platform) (lastAction : JSValue)
    (log : List PageElement) : Outcome (List PageElement) :=
  if !truthy lastAction then ⟨log, none⟩
  else
    let props := match lastAction with
      | .object ps => ps
      | _ => []
    match dateArgument (lookupProperty props "time") with
    | .error e => ⟨log, some e⟩
    | .ok time =>
      match (lookupProperty props "action").toJSString with
      | .error e => ⟨log, some e⟩
      | .ok action =>
        ⟨({ className := "activity-item",
            innerHTML :=
              "\n        <div class=\"activity-time\">" ++ platform.dateToLocaleString time ++
              "</div>\n        <div class=\"activity-content\">" ++ action ++ "</div>\n    " } ::
            log).take 10, none⟩

/-- The snapshot that `hasDataChanged` keeps of a data object: its three tracked
properties, which the model needs to be primitives. -/
def snapshotOf (props : List (String × JSValue)) : Option Snapshot :=
  match lookupProperty props "current_score", lookupProperty props "completed_missions",
      lookupProperty props "active_riders" with
  | .prim score, .prim missions, .prim riders =>
    some { current_score := score, completed_missions := missions, active_riders := riders,
           rest := props }
  | _, _, _ => none

/-- The function `updateSystemStatus(status)` of this dashboard. -/
def Docs.updateSystemStatus (status : String) (page : DocsPage) : DocsPage :=
  if status = "online" then { page with statusColor := "#27ae60", statusLabel := "정상 운영" }
  else if status = "offline" then
    { page with statusColor := "#e74c3c", statusLabel := "연결 끊김" }
  else if status = "error" then
    { page with statusColor := "#f39c12", statusLabel := "오류 발생" }
  else page

/-- Whether the custom body, when the custom template is selected, lies in the modelled
part of JSON. -/
def customCovered (template customMessage : String) : Bool :=
  if template = "custom" then
    match jsonParse customMessage with
    | .error .unmodelled => false
    | _ => true
  else true

/-- The call `updateMessagePreview(data)` on the page: the two form controls are read
and the preview is written. -/
def Docs.updateMessagePreview (platform : Platform) (fields : FieldMap) (page : DocsPage) :
    Outcome DocsPage :=
  if customCovered page.templateControl page.customControl then
    match Dashboard.updateMessagePreview
        (parseOrMessage (platform.parseErrorMessage page.customControl))
        "" "" page.templateControl page.customControl (some fields) with
    | .error e => ⟨page, some e⟩
    | .ok effect => ⟨{ page with preview := some effect }, none⟩
  else ⟨page, some .unmodelled⟩

/-- The product `data.estimated_income * 0.1`, formatted by `formatNumber`: always the
locale text of a number. -/
def tenthText (platform : Platform) (income : JSValue) : Except JSError JSValue :=
  match income with
  | .prim p =>
    match platform.timesTenth p with
    | some product => .ok (.prim (.string (platform.numberToLocaleString product)))
    | none => .ok (.prim (.string "NaN"))
  | _ => .error .unmodelled

/-- The outcome of a call of `updateStatCard`, with the card put back into the page. -/
def onCard (o : Outcome StatCard) (put : StatCard → DocsPage) : Outcome DocsPage :=
  ⟨put o.state, o.raised⟩

/-- The four calls of `updateStatCard` in `updateDashboard`, in their order. -/
def updateStatCards (platform : Platform) (props : List (String × JSValue)) (page : DocsPage) :
    Outcome DocsPage :=
  (onCard (updateStatCard platform (lookupProperty props "current_score")
      (lookupProperty props "score_change") "점" page.currentScore)
    fun card => { page with currentScore := card }).andThen fun p1 =>
  (onCard (updateStatCard platform (lookupProperty props "completed_missions")
      (lookupProperty props "mission_change") "개" p1.completedMissions)
    fun card => { p1 with completedMissions := card }).andThen fun p2 =>
  (onCard (updateStatCard platform (lookupProperty props "active_riders")
      (lookupProperty props "riders_change") "명" p2.activeRiders)
    fun card => { p2 with activeRiders := card }).andThen fun p3 =>
  match tenthText platform (lookupProperty props "estimated_income") with
  | .error e => ⟨p3, some e⟩
  | .ok tenth =>
    onCard (updateStatCard platform
        (formatNumber platform (lookupProperty props "estimated_income")) tenth "원"
        p3.estimatedIncome)
      fun card => { p3 with estimatedIncome := card }

/-- The calls of `updatePerformanceChart`, `updateMissionChart` and `updateActivityLog`
in `updateDashboard`, in their order. -/
def updateChartsAndLog (platform : Platform) (props : List (String × JSValue))
    (page : DocsPage) : Outcome DocsPage :=
  match updatePerformanceChart platform (lookupProperty props "performance_history")
      page.performanceChart with
  | ⟨chart, some e⟩ => ⟨{ page with performanceChart := chart }, some e⟩
  | ⟨chart, none⟩ =>
    let p1 := { page with
      performanceChart := chart,
      missionChart :=
        updateMissionChart (lookupProperty props "mission_distribution") page.missionChart }
    match updateActivityLog platform (lookupProperty props "last_action") p1.activityLog with
    | ⟨log, raised⟩ => ⟨{ p1 with activityLog := log }, raised⟩

/-- The fade that `updateDashboard` starts when `hasDataChanged` reports a change, and
the snapshot that `hasDataChanged` holds afterwards. -/
def startFade (hasChanges : Bool) (held : Option Snapshot) (page : DocsPage) : DocsPage :=
  if hasChanges then
    { page with lastData := held, dashboardTransition := "opacity 0.3s ease",
                dashboardOpacity := "0.8" }
  else { page with lastData := held }

/-- The function `updateDashboard(data)` of this dashboard, on a data object with
primitive tracked properties: the fade when the data changed, the four cards, the two
charts, the activity log and the message preview, in this order. -/
def Docs.updateDashboard (platform : Platform) (data : JSValue) (page : DocsPage) :
    Outcome DocsPage :=
  match data with
  | .object props =>
    match snapshotOf props with
    | none => ⟨page, some .unmodelled⟩
    | some snapshot =>
      match hasDataChanged page.lastData (some snapshot) with
      | .error e => ⟨page, some e⟩
      | .ok (hasChanges, held) =>
        (updateStatCards platform props (startFade hasChanges held page)).andThen fun p1 =>
        (updateChartsAndLog platform props p1).andThen fun p2 =>
        Docs.updateMessagePreview platform props p2
  | _ => ⟨page, some .unmodelled⟩

/-- The random draws and clock readings of one call of `generateSampleData`, each draw
`Math.floor(Math.random() * k)` given as a natural number that is reduced below `k`. -/
structure SampleDraws where
  hour : Nat
  timestamp : String
  score : Nat
  missions : Nat
  riders : Nat
  income : Nat
  scoreChange : JSPrim
  missionChange : Nat
  ridersChange : Nat
  historyStamp : Nat → String
  historyHour : Nat → Nat
  historyScore : Nat → Nat
  historyMissions : Nat → Nat
  historyRiders : Nat → Nat
  distributionCompleted : Nat
  distributionInProgress : Nat
  distributionPending : Nat
  actionTime : String

/-- The test `(hour >= 11 && hour <= 13) || (hour >= 17 && hour <= 19)`. -/
def isPeakTime (hour : Nat) : Bool :=
  (11 ≤ hour && hour ≤ 13) || (17 ≤ hour && hour ≤ 19)

/-- The function `generatePerformanceHistory`: one item per hour, from 23 hours ago
to now. -/
def generatePerformanceHistory (draws : SampleDraws) : List JSValue :=
  ((List.range 24).reverse).map fun i =>
    .object [("timestamp", .prim (.string (draws.historyStamp i))),
      ("score", .prim (.number (((if isPeakTime (draws.historyHour i) then 800 else 650) +
        draws.historyScore i % 200 : Nat) : Int))),
      ("missions", .prim (.number (((if isPeakTime (draws.historyHour i) then 20 else 15) +
        draws.historyMissions i % 15 : Nat) : Int))),
      ("riders", .prim (.number (((if isPeakTime (draws.historyHour i) then 30 else 25) +
        draws.historyRiders i % 10 : Nat) : Int)))]

/-- The properties of the object that `generateSampleData` returns, in their order. The
draw `score_change` is the number `(Math.random() - 0.5) * 50` as the draws give it. -/
def sampleProperties (draws : SampleDraws) : List (String × JSValue) :=
  let baseScore : Nat := if isPeakTime draws.hour then 850 else 720
  let baseMissions : Nat := if isPeakTime draws.hour then 25 else 18
  let baseRiders : Nat := if isPeakTime draws.hour then 35 else 28
  [("timestamp", .prim (.string draws.timestamp)),
    ("current_score", .prim (.number ((baseScore + draws.score % 100 : Nat) : Int))),
    ("completed_missions", .prim (.number ((baseMissions + draws.missions % 10 : Nat) : Int))),
    ("active_riders", .prim (.number ((baseRiders + draws.riders % 8 : Nat) : Int))),
    ("estimated_income", .prim (.number (((baseScore + draws.income % 100) * 120 : Nat) : Int))),
    ("score_change", .prim draws.scoreChange),
    ("mission_change", .prim (.number ((draws.missionChange % 6 : Nat) - 3))),
    ("riders_change", .prim (.number ((draws.ridersChange % 4 : Nat) - 2))),
    ("performance_history", .array (generatePerformanceHistory draws)),
    ("mission_distribution", .object [
      ("completed", .prim (.number ((baseMissions + draws.distributionCompleted % 5 : Nat) : Int))),
      ("in_progress", .prim (.number ((draws.distributionInProgress % 8 : Nat) : Int))),
      ("pending", .prim (.number ((draws.distributionPending % 12 : Nat) : Int)))]),
    ("system_status", .prim (.string "operational")),
    ("last_action", .object [
      ("time", .prim (.string draws.actionTime)),
      ("action", .prim (.string "데이터 수집 완료")),
      ("status", .prim (.string "success"))])]

/-- The function `generateSampleData`. -/
def generateSampleData (draws : SampleDraws) : JSValue :=
  .object (sampleProperties draws)

/-- How the request of `fetchLatestData` ended: the request was rejected, the response
was not ok, its body was not JSON, or the body parsed to a value. -/
inductive FetchOutcome where
  | rejected
  | notOk (status : Nat)
  | badBody
  | ok (body : JSValue)

/-- Whether the request failed. -/
def FetchOutcome.failed : FetchOutcome → Bool
  | .ok _ => false
  | _ => true

/-- The statements in the `try` block of `fetchLatestData`, in both dashboards: the
request, the test of `response.ok`, whose failure throws an `Error` with the message of
that dashboard, and `response.json()`. A rejected request raises the `TypeError` of
`fetch`, a body that is not JSON the `SyntaxError` of the parser. -/
def fetchAndParse (notOkMessage : Nat → String) : FetchOutcome → Except JSError JSValue
  | .rejected => .error .typeError
  | .notOk status => .error (.thrown (notOkMessage status))
  | .badBody => .error .syntaxError
  | .ok body => .ok body

/-- The statement `try { body } catch (error) { handler }`. What the model does not
cover is not an exception and passes through. -/
def tryCatch {α : Type} (body : Except JSError α) (handler : JSError → Except JSError α) :
    Except JSError α :=
  match body with
  | .ok value => .ok value
  | .error .unmodelled => .error .unmodelled
  | .error e => handler e

/-- The function `fetchLatestData` of this dashboard: the parsed body, and in the
`catch` block the generated sample data. -/
def Docs.fetchLatestData (draws : SampleDraws) (outcome : FetchOutcome) :
    Except JSError JSValue :=
  tryCatch (fetchAndParse (fun _ => "데이터 로드 실패") outcome)
    fun _ => .ok (generateSampleData draws)

/-- The function `fetchLatestData` of the semi-automatic dashboard: the parsed body, and
in the `catch` block `null`. -/
def Semi.fetchLatestData (outcome : FetchOutcome) : Except JSError JSValue :=
  tryCatch
    (fetchAndParse (fun status => "데이터 파일 로드 실패 (" ++ toString status ++ ")") outcome)
    fun _ => .ok (.prim .null)

/-- The last statement of `refreshData`: the time of the last update is shown. -/
def stampLastUpdate (nowText : String) (page : DocsPage) : DocsPage :=
  { page with lastUpdateTime := nowText }

/-- The `catch` block of `refreshData`: the indicator shows the error and an error
notification is posted. -/
def Docs.refreshFailed (page : DocsPage) : DocsPage :=
  { Docs.updateSystemStatus "error" page with
    toasts := Docs.showNotification "데이터 로드에 실패했습니다." "error" page.toasts }

/-- The part of `refreshData` that runs once the fetch has settled with `data`: the
dashboard is updated when `data` is truthy, and an exception of `updateDashboard` is
caught. -/
def Docs.ingest (platform : Platform) (nowText : String) (data : JSValue) (page : DocsPage) :
    Outcome DocsPage :=
  if truthy data then
    match Docs.updateDashboard platform data page with
    | ⟨rendered, none⟩ =>
      ⟨stampLastUpdate nowText
        { Docs.updateSystemStatus "online" rendered with lastDataUpdate := some nowText }, none⟩
    | ⟨partly, some .unmodelled⟩ => ⟨partly, some .unmodelled⟩
    | ⟨partly, some _⟩ => ⟨stampLastUpdate nowText (Docs.refreshFailed partly), none⟩
  else ⟨stampLastUpdate nowText (Docs.updateSystemStatus "offline" page), none⟩

/-- The function `refreshData` of this dashboard, given how the request ended, the
draws for the sample data and the clock text. An exception of `fetchLatestData` or of
`updateDashboard` is caught: the indicator shows the error and an error notification is
posted. -/
def Docs.refreshData (platform : Platform) (draws : SampleDraws) (nowText : String)
    (outcome : FetchOutcome) (page : DocsPage) : Outcome DocsPage :=
  match Docs.fetchLatestData draws outcome with
  | .ok data => Docs.ingest platform nowText data page
  | .error .unmodelled => ⟨page, some .unmodelled⟩
  | .error _ => ⟨stampLastUpdate nowText (Docs.refreshFailed page), none⟩


/-! ## The views of the dashboard that show a snapshot -/

/-- The regions of the page that `updateDashboard` writes from a snapshot: the four
cards, the two charts, the activity log and the message preview. -/
structure DocsViews where
  currentScore : StatCard
  completedMissions : StatCard
  activeRiders : StatCard
  estimatedIncome : StatCard
  performanceChart : Option PerformanceChart
  missionChart : Option (List JSValue)
  activityLog : List PageElement
  preview : Option PreviewEffect

/-- The views of a page. -/
def DocsPage.views (page : DocsPage) : DocsViews :=
  { currentScore := page.currentScore, completedMissions := page.completedMissions,
    activeRiders := page.activeRiders, estimatedIncome := page.estimatedIncome,
    performanceChart := page.performanceChart, missionChart := page.missionChart,
    activityLog := page.activityLog, preview := page.preview }

/-- A page with everything but its views and its two form controls taken from
`frame`: the held snapshot, the fade, the status indicator, the two time stamps and
the notifications. -/
def withFrame (frame page : DocsPage) : DocsPage :=
  { page with
    lastData := frame.lastData, lastDataUpdate := frame.lastDataUpdate,
    dashboardOpacity := frame.dashboardOpacity,
    dashboardTransition := frame.dashboardTransition,
    statusColor := frame.statusColor, statusLabel := frame.statusLabel,
    lastUpdateTime := frame.lastUpdateTime, toasts := frame.toasts }

/-! ## Snapshots with the keys of `generateSampleData` -/

/-- An object with the twelve keys that `generateSampleData` gives its result, in their
order, and any values. -/
def snapshotWithSampleKeys (timestamp score missions riders income scoreChange missionChange
    ridersChange history distribution status lastAction : JSValue) : List (String × JSValue) :=
  [("timestamp", timestamp), ("current_score", score), ("completed_missions", missions),
    ("active_riders", riders), ("estimated_income", income), ("score_change", scoreChange),
    ("mission_change", missionChange), ("riders_change", ridersChange),
    ("performance_history", history), ("mission_distribution", distribution),
    ("system_status", status), ("last_action", lastAction)]

/-- The string form of a value as a string. -/
def stringOf (v : JSValue) : String := ⟨stringForm v⟩

/-! ## Refresh requests and their fetches

`refreshData` is an `async` function: a call runs up to `await fetchLatestData()`, where
the request has been sent, and its remaining statements run as one task of the event
loop once the fetch has settled. The page is written by one task at a time. -/

/-- The page and the calls of `refreshData` that await their fetch, oldest first. -/
structure RefreshState where
  page : DocsPage
  fetching : List Nat
  nextCall : Nat

/-- What the event loop can run next: the `keydown` handler, another caller of
`refreshData` (the initialisation, the timer of `refreshActivity`, `changeTimeRange`),
or the remaining statements of a call whose fetch has settled. -/
inductive RefreshEvent where
  | keydown (ctrlKey : Bool) (key : String)
  | refreshRequested
  | fetchSettled (call : Nat) (draws : SampleDraws) (nowText : String) (outcome : FetchOutcome)

/-- The statements of `refreshData` up to its `await`: the request is sent. No state is
consulted before. -/
def startRefresh (st : RefreshState) : RefreshState :=
  { st with fetching := st.fetching ++ [st.nextCall], nextCall := st.nextCall + 1 }

/-- One task of the event loop. `Ctrl+R` calls `refreshData`; `Ctrl+S` saves the message
settings, which is modelled by `saveMessageSettings` and touches nothing here. -/
def refreshStep (platform : Platform) (st : RefreshState) : RefreshEvent → RefreshState
  | .keydown ctrlKey key => if ctrlKey && key == "r" then startRefresh st else st
  | .refreshRequested => startRefresh st
  | .fetchSettled call draws nowText outcome =>
    if call ∈ st.fetching then
      { st with
        page := (Docs.refreshData platform draws nowText outcome st.page).state,
        fetching := st.fetching.filter fun c => c != call }
    else st

/-- The tasks of a list, one after the other. -/
def refreshRun (platform : Platform) (st : RefreshState) : List RefreshEvent → RefreshState
  | [] => st
  | event :: rest => refreshRun platform (refreshStep platform st event) rest

/-! ## The control centre of `docs/assets/js/control-center.js` -/

/-- The method `ControlCenter.formatTimeAgo(timestamp)`. `timeValue` gives the time value
of `new Date(timestamp)` in milliseconds (`none` for an invalid date, whose difference
is `NaN` and fails every comparison) and `now` is the time value of `new Date()`. The
division of integers is the floor of the quotient, which `Math.floor` of the
floating-point quotient gives for differences below `2^52`; larger ones are not
covered. -/
def formatTimeAgo (timeValue : JSPrim → Option Int) (now : Int) (timestamp : JSPrim) :
    Except JSError String :=
  if !truthy (.prim timestamp) then .ok "알 수 없음"
  else
    match timeValue timestamp with
    | none => .ok "NaN일 전"
    | some past =>
      let diffMs := now - past
      let diffSecs := diffMs / 1000
      let diffMins := diffSecs / 60
      let diffHours := diffMins / 60
      let diffDays := diffHours / 24
      if 4503599627370496 ≤ diffMs.natAbs then .error .unmodelled
      else if diffSecs < 60 then .ok "방금 전"
      else if diffMins < 60 then .ok (toString diffMins ++ "분 전")
      else if diffHours < 24 then .ok (toString diffHours ++ "시간 전")
      else .ok (toString diffDays ++ "일 전")

/-- A registered function: the properties of its record that the modelled methods read,
and its category. -/
structure FunctionInfo where
  name : String
  category : String
  status : String
  scriptPath : String
  deriving DecidableEq, Repr

/-- The entries that `registerFunctions` puts into the map `functions`, in their
order. -/
def registerFunctions : List (String × FunctionInfo) :=
  [("grider-main", ⟨"G라이더 메인 시스템", "core", "active", "../../main_(2).py"⟩),
    ("ultimate-system",
      ⟨"차세대 통합 시스템", "core", "active", "../core/ultimate_grider_system.py"⟩),
    ("dashboard",
      ⟨"실시간 대시보드", "core", "active", "../core/dashboard_data_generator.py"⟩),
    ("kakao-talk", ⟨"카카오톡 알림", "notification", "active", "../../카카오톡_자동전송.py"⟩),
    ("multi-platform",
      ⟨"다중 플랫폼 알림", "notification", "pending", "../core/multi_platform_notifier.py"⟩),
    ("ai-analytics", ⟨"AI 성과 분석", "ai", "active", "../core/ai_analytics.py"⟩),
    ("optimization", ⟨"성능 최적화", "ai", "active", "../core/optimization_engine.py"⟩),
    ("scheduler", ⟨"고급 스케줄러", "utility", "active", "../core/enhanced_scheduler.py"⟩),
    ("file-manager", ⟨"파일 관리자", "utility", "active", "../../utils/file_manager.py"⟩)]

/-- The object `systemStatus` with the shape that the constructor and the fallbacks of
`loadSystemStatus` give it, which a loaded status file is taken to have: the number of
executions is a number, the other properties are primitives. -/
structure SystemStatus where
  activeFunctions : JSPrim
  totalExecutions : Int
  successRate : JSPrim
  lastUpdate : JSPrim
  deriving DecidableEq, Repr

/-- The texts of the four elements that `updateSystemStatusDisplay` writes. -/
structure StatusDisplay where
  activeFunctions : String
  totalExecutions : String
  successRate : String
  lastUpdate : String
  deriving DecidableEq, Repr

/-- The control centre: the map of functions, the status, what the page shows of it, and
the notifications. -/
structure ControlCenterState where
  functions : List (String × FunctionInfo)
  systemStatus : SystemStatus
  display : StatusDisplay
  toasts : NotificationDOM
  deriving DecidableEq, Repr

/-- The method `updateSystemStatusDisplay`; the four elements are taken to exist and the
default locale of the browser to be the Korean one. A number too large for the model to
print, or a time too far away, is not covered. -/
def updateSystemStatusDisplay (platform : Platform) (timeValue : JSPrim → Option Int)
    (now : Int) (st : ControlCenterState) : Except JSError ControlCenterState :=
  match textContentOf st.systemStatus.activeFunctions, st.systemStatus.successRate.toJSString,
      formatTimeAgo timeValue now st.systemStatus.lastUpdate with
  | .ok active, .ok rate, .ok ago =>
    .ok { st with display :=
      { activeFunctions := active,
        totalExecutions := platform.numberToLocaleString (.number st.systemStatus.totalExecutions),
        successRate := rate ++ "%",
        lastUpdate := ago } }
  | .error e, _, _ => .error e
  | _, .error e, _ => .error e
  | _, _, .error e => .error e

/-- The statement `this.systemStatus.totalExecutions++`; at `2^53` and above the sum is
not the next integer and is not covered. -/
def incrementExecutions (status : SystemStatus) : Except JSError SystemStatus :=
  if status.totalExecutions.natAbs < 9007199254740992 then
    .ok { status with totalExecutions := status.totalExecutions + 1 }
  else .error .unmodelled

/-- The `catch` block of `executeFunction` for the function `func`. -/
def executeFallback (platform : Platform) (timeValue : JSPrim → Option Int) (now : Int)
    (func : FunctionInfo) (st : ControlCenterState) :
    Except JSError (Bool × ControlCenterState) :=
  match incrementExecutions st.systemStatus with
  | .error e => .error e
  | .ok status =>
    match updateSystemStatusDisplay platform timeValue now
        { st with
          systemStatus := status,
          toasts := ControlCenter.showNotification (func.name ++ " 실행 요청이 전송되었습니다.")
            "info" st.toasts } with
    | .error e => .error e
    | .ok shown => .ok (false, shown)

/-- The method `ControlCenter.executeFunction(functionId)`, given how the `POST` request
ends. The result is the returned boolean and the state. The status text of a response
that is not ok is left out of the message of the `Error`, which is only logged. -/
def ControlCenter.executeFunction (platform : Platform) (timeValue : JSPrim → Option Int)
    (now : Int) (functionId : String) (outcome : FetchOutcome) (st : ControlCenterState) :
    Except JSError (Bool × ControlCenterState) :=
  match st.functions.lookup functionId with
  | none => .ok (false, st)
  | some func =>
    tryCatch
      (match fetchAndParse (fun status => "HTTP " ++ toString status ++ ": ") outcome with
        | .error e => .error e
        | .ok _ =>
          let message := func.name ++ "이(가) 성공적으로 실행되었습니다."
          .ok (true,
            { st with toasts := ControlCenter.showNotification message "success" st.toasts }))
      fun _ => executeFallback platform timeValue now func st

/-- Whether the model covers `updateSystemStatusDisplay` after one more execution: the
numbers can be printed and counted, and the time of the last update is not too far
away. -/
def SystemStatus.covered (timeValue : JSPrim → Option Int) (now : Int)
    (status : SystemStatus) : Bool :=
  decide (status.totalExecutions.natAbs < 9007199254740992) &&
  hasStringForm (.prim status.activeFunctions) && hasStringForm (.prim status.successRate) &&
  (match formatTimeAgo timeValue now status.lastUpdate with
    | .ok _ => true
    | .error _ => false)

/-! ## The configuration of `EnhancedControlCenter` -/

/-- An interval timer: its identifier and its period in milliseconds (`none` when the
delay passed to `setInterval` is `NaN`). -/
structure IntervalTimer where
  id : Nat
  period : Option Int
  deriving DecidableEq, Repr

/-- The enhanced control centre: the object `currentConfig` by its properties, the
property `updateInterval` (`none` while it is `undefined`), the interval timers created
by `applyConfig` that are active, the number of timers created so far (the identifier
of a new timer is the next positive integer), the storage slot
`controlCenterConfig`, the theme whose colours are applied, and the notifications. -/
structure EnhancedState where
  currentConfig : List (String × JSValue)
  updateInterval : Option Nat
  intervals : List IntervalTimer
  timersCreated : Nat
  storage : Option String
  appliedTheme : Option String
  toasts : NotificationDOM

/-- The keys of the table `themes`. -/
def themeIds : List String := ["default", "dark", "light", "grider"]

/-- The method `applyTheme(themeId)`: a theme of the table is applied and recorded in the
configuration; a name that every object inherits is truthy without `colors`, and reading
a colour of it raises `TypeError`; any other value is not a theme and nothing happens. -/
def applyTheme (themeId : JSValue) (st : EnhancedState) : Outcome EnhancedState :=
  match themeId.toJSString with
  | .error e => ⟨st, some e⟩
  | .ok key =>
    if key ∈ themeIds then
      let config := defineProperty st.currentConfig "theme" themeId
      ⟨{ st with appliedTheme := some key, currentConfig := config }, none⟩
    else if key ∈ objectPrototypeNames then ⟨st, some .typeError⟩
    else ⟨st, none⟩

/-- The product `refreshInterval * 1000` (`none` is `NaN`). A product of `2^53` or more,
and the conversion of a text, a fraction or an object, are not covered. -/
def timesThousand : JSValue → Except JSError (Option Int)
  | .prim (.number n) =>
    if (n * 1000).natAbs < 9007199254740992 then .ok (some (n * 1000)) else .error .unmodelled
  | .prim .undefined => .ok none
  | .prim .null => .ok (some 0)
  | .prim (.bool b) => .ok (some (if b then 1000 else 0))
  | _ => .error .unmodelled

/-- The call `clearInterval(this.updateInterval)` under `if (this.updateInterval)`; the
identifier of a timer is positive, hence truthy. -/
def clearUpdateInterval (st : EnhancedState) : EnhancedState :=
  match st.updateInterval with
  | some id => { st with intervals := st.intervals.filter fun t => t.id != id }
  | none => st

/-- The method `applyConfig`: the theme, then the timer held in `updateInterval` is
cleared, then a new one is created when `autoUpdate` is truthy. -/
def applyConfig (st : EnhancedState) : Outcome EnhancedState :=
  (applyTheme (lookupProperty st.currentConfig "theme") st).andThen fun themed =>
    if truthy (lookupProperty themed.currentConfig "autoUpdate") then
      match timesThousand (lookupProperty themed.currentConfig "refreshInterval") with
      | .error e => ⟨clearUpdateInterval themed, some e⟩
      | .ok period =>
        let cleared := clearUpdateInterval themed
        ⟨{ cleared with
            intervals := cleared.intervals ++ [⟨themed.timersCreated + 1, period⟩],
            updateInterval := some (themed.timersCreated + 1),
            timersCreated := themed.timersCreated + 1 }, none⟩
    else ⟨clearUpdateInterval themed, none⟩

/-- The text that `setItem` stores for what `JSON.stringify` returned: the string
conversion of it. -/
def storedText : Option (List Char) → String
  | some text => String.mk text
  | none => "undefined"

/-- The method `saveConfig(newConfig)` for an object `newConfig`, given whether the
storage accepts the write: the properties are merged, the configuration is stored and
applied, and the success notification is posted. -/
def saveConfig (newConfig : List (String × JSValue)) (storageAccepts : Bool)
    (st : EnhancedState) : Outcome EnhancedState :=
  let config := newConfig.foldl (fun config kv => defineProperty config kv.1 kv.2) st.currentConfig
  let merged : EnhancedState := { st with currentConfig := config }
  match jsonStringify (.object merged.currentConfig) with
  | .error e => ⟨merged, some e⟩
  | .ok text =>
    if storageAccepts then
      (applyConfig { merged with storage := some (storedText text) }).andThen fun applied =>
        let toasts :=
          EnhancedControlCenter.showNotification "✅ 설정이 저장되었습니다!" "success"
            applied.toasts
        ⟨{ applied with toasts := toasts }, none⟩
    else ⟨merged, some .storageError⟩

/-- A call of one of the two methods. -/
inductive ConfigCall where
  | saveConfig (newConfig : List (String × JSValue)) (storageAccepts : Bool)
  | applyConfig

/-- One call on a state. -/
def configStep (st : EnhancedState) : ConfigCall → Outcome EnhancedState
  | .saveConfig newConfig storageAccepts => saveConfig newConfig storageAccepts st
  | .applyConfig => applyConfig st

/-- The calls of a list, one after the other; a call that raised leaves the state it
reached. -/
def configRun (st : EnhancedState) : List ConfigCall → EnhancedState
  | [] => st
  | call :: rest => configRun (configStep st call).state rest

/-- A control centre on which `applyConfig` has not run: no timer of it is active and
`updateInterval` is `undefined`. -/
def beforeApplyConfig (st : EnhancedState) : EnhancedState :=
  { st with intervals := [], updateInterval := none }

/-- Whether the timers of `applyConfig` are in order: none is active, or the only active
one is the one held in `updateInterval`. -/
def timersInOrder (st : EnhancedState) : Bool :=
  match st.intervals, st.updateInterval with
  | [], _ => true
  | [timer], some id => timer.id == id
  | _, _ => false

/-! ## The MacroDroid macro of `autoinfo/android_automation/macrodroid_setup.js`

The functions of the host (`addToLog`, `wait`, `launchApplication`,
`performGlobalAction`, `getVariable`, `clickOnText`, `clickOnTextContains`,
`clickOnContentDescription`, `enterText`) are not part of the repository. A run of the
macro is modelled by the list of the host calls it makes. The calls that the script
wraps in `try` / `catch` may return a truthy value, return a falsy value, or raise; the
calls that it does not wrap are taken to return. A variable holds a text or is
missing. -/

/-- The two global actions that the macro performs. -/
inductive GlobalAction where
  | back
  | home
  deriving DecidableEq, Repr

/-- A call of a host function, with its argument. -/
inductive HostCall where
  | addToLog (message : String)
  | wait (ms : Nat)
  | launchApplication (packageName : String)
  | performGlobalAction (action : GlobalAction)
  | getVariable (name : String)
  | clickOnText (text : String)
  | clickOnTextContains (text : String)
  | clickOnContentDescription (desc : String)
  | enterText (text : String)
  deriving DecidableEq, Repr

/-- How a call of `clickOnText`, `clickOnTextContains`, `clickOnContentDescription` or
`enterText` ends. -/
inductive UIReply where
  | truthy
  | falsy
  | raised
  deriving DecidableEq, Repr

/-- How a call of `getVariable` ends: with the text of the variable, with `null` or
`undefined` for a missing one, or by raising. -/
inductive VariableReply where
  | text (value : String)
  | missing
  | raised
  deriving DecidableEq, Repr

/-- The host: what `getVariable` answers for a name, and what the screen answers to the
UI request that comes after `asked` earlier ones. -/
structure MacroHost where
  getVariable : String → VariableReply
  ui : (asked : Nat) → HostCall → UIReply

/-- A run so far: the host calls in their order, and the number of UI requests among
them. -/
structure MacroState where
  calls : List HostCall
  uiAsked : Nat
  deriving DecidableEq, Repr

/-- The run before the script starts. -/
def MacroState.initial : MacroState := ⟨[], 0⟩

/-- The constant `CONFIG.CHAT_ROOM_NAME`. -/
def CONFIG.CHAT_ROOM_NAME : String := "G라이더 미션방"

/-- The constant `CONFIG.WAIT_TIME`. -/
def CONFIG.WAIT_TIME : Nat := 2000

/-- Record a host call that returns. -/
def MacroState.call (st : MacroState) (call : HostCall) : MacroState :=
  { st with calls := st.calls ++ [call] }

/-- The function `log(message)`. -/
def Macro.log (message : String) (st : MacroState) : MacroState :=
  st.call (.addToLog message)

/-- The function `sleep(ms)`. -/
def Macro.sleep (ms : Nat) (st : MacroState) : MacroState :=
  st.call (.wait ms)

/-- The function `launchApp(packageName)`; its result is not used. -/
def Macro.launchApp (packageName : String) (st : MacroState) : MacroState :=
  st.call (.launchApplication packageName)

/-- The host function `performGlobalAction`. -/
def Macro.performGlobalAction (action : GlobalAction) (st : MacroState) : MacroState :=
  st.call (.performGlobalAction action)

/-- The common shape of `clickText`, `clickTextContains`, `clickDescription` and
`inputText`: the request is made; its result is returned, as its truthiness; when it
raises, `failure` is logged and `false` is returned. -/
def Macro.request (host : MacroHost) (call : HostCall) (failure : String) (st : MacroState) :
    Bool × MacroState :=
  match host.ui st.uiAsked call with
  | .truthy => (true, ⟨st.calls ++ [call], st.uiAsked + 1⟩)
  | .falsy => (false, ⟨st.calls ++ [call], st.uiAsked + 1⟩)
  | .raised => (false, Macro.log failure ⟨st.calls ++ [call], st.uiAsked + 1⟩)

/-- The function `clickText(text)`. -/
def Macro.clickText (host : MacroHost) (text : String) (st : MacroState) : Bool × MacroState :=
  Macro.request host (.clickOnText text) ("⚠️ 텍스트 클릭 실패: " ++ text) st

/-- The function `clickTextContains(text)`. -/
def Macro.clickTextContains (host : MacroHost) (text : String) (st : MacroState) :
    Bool × MacroState :=
  Macro.request host (.clickOnTextContains text) ("⚠️ 텍스트 포함 클릭 실패: " ++ text) st

/-- The function `clickDescription(desc)`. -/
def Macro.clickDescription (host : MacroHost) (desc : String) (st : MacroState) :
    Bool × MacroState :=
  Macro.request host (.clickOnContentDescription desc) ("⚠️ 설명 클릭 실패: " ++ desc) st

/-- The function `inputText(text)`. -/
def Macro.inputText (host : MacroHost) (text : String) (st : MacroState) : Bool × MacroState :=
  Macro.request host (.enterText text) ("⚠️ 텍스트 입력 실패: " ++ text) st

/-- The condition of `if (!clickDescription(label))` with the nested
`if (!clickText(label))`, negated: whether the click by content description, or else the
click by text, gave a truthy result. -/
def Macro.clickDescriptionOrText (host : MacroHost) (label : String) (st : MacroState) :
    Bool × MacroState :=
  match Macro.clickDescription host label st with
  | (true, clicked) => (true, clicked)
  | (false, missed) => Macro.clickText host label missed

/-- The function `getWebhookVariable(key)`: `none` is `null` or `undefined`. -/
def Macro.getWebhookVariable (host : MacroHost) (key : String) (st : MacroState) :
    Option String × MacroState :=
  let first := st.call (.getVariable ("wv_" ++ key))
  let second := first.call (.getVariable key)
  match host.getVariable ("wv_" ++ key) with
  | .raised => (none, Macro.log ("⚠️ 변수 가져오기 실패: " ++ key) first)
  | .text value =>
    if value ≠ "" then (some value, first)
    else
      match host.getVariable key with
      | .raised => (none, Macro.log ("⚠️ 변수 가져오기 실패: " ++ key) second)
      | .text other => (some other, second)
      | .missing => (none, second)
  | .missing =>
    match host.getVariable key with
    | .raised => (none, Macro.log ("⚠️ 변수 가져오기 실패: " ++ key) second)
    | .text other => (some other, second)
    | .missing => (none, second)

/-- Steps 7 to 9 of the `try` block of `sendKakaoMessage`: the result is the returned
value, or the message of the `Error` thrown. -/
def Macro.sendMessageSteps (host : MacroHost) (message : String) (st : MacroState) :
    Except String Bool × MacroState :=
  match Macro.inputText host message (Macro.log "✍️ 메시지 입력" st) with
  | (false, failed) => (.error "메시지 입력 실패", failed)
  | (true, typed) =>
    match Macro.clickDescriptionOrText host "전송"
        (Macro.log "📤 메시지 전송" (Macro.sleep 1000 typed)) with
    | (false, failed) => (.error "전송 버튼을 찾을 수 없습니다", failed)
    | (true, sent) =>
      (.ok true,
        Macro.performGlobalAction .home
          (Macro.log "✅ 메시지 전송 완료!" (Macro.sleep 1000 sent)))

/-- Steps 5 and 6 of the `try` block of `sendKakaoMessage`, followed by the later ones. -/
def Macro.enterRoomSteps (host : MacroHost) (message : String) (st : MacroState) :
    Except String Bool × MacroState :=
  match Macro.inputText host CONFIG.CHAT_ROOM_NAME
      (Macro.log ("📝 채팅방 검색: " ++ CONFIG.CHAT_ROOM_NAME) st) with
  | (false, failed) => (.error "채팅방 이름 입력 실패", failed)
  | (true, typed) =>
    match Macro.clickTextContains host CONFIG.CHAT_ROOM_NAME
        (Macro.log "🎯 채팅방 진입" (Macro.sleep 2000 typed)) with
    | (false, failed) => (.error ("채팅방을 찾을 수 없습니다: " ++ CONFIG.CHAT_ROOM_NAME), failed)
    | (true, entered) => Macro.sendMessageSteps host message (Macro.sleep 2000 entered)

/-- The `try` block of `sendKakaoMessage`. -/
def Macro.sendKakaoMessageTry (host : MacroHost) (message : String) (st : MacroState) :
    Except String Bool × MacroState :=
  let launched :=
    Macro.sleep 1000 (Macro.performGlobalAction .back (Macro.sleep CONFIG.WAIT_TIME
      (Macro.launchApp "com.kakao.talk" (Macro.log "📱 카카오톡 실행 중..." st))))
  match Macro.clickText host "채팅" (Macro.log "💬 채팅 탭 클릭" launched) with
  | (false, failed) => (.error "채팅 탭을 찾을 수 없습니다", failed)
  | (true, chats) =>
    match Macro.clickDescriptionOrText host "검색"
        (Macro.log "🔍 검색 시작" (Macro.sleep 1500 chats)) with
    | (false, failed) => (.error "검색 버튼을 찾을 수 없습니다", failed)
    | (true, searching) => Macro.enterRoomSteps host message (Macro.sleep 1000 searching)

/-- The function `sendKakaoMessage(message)`: the returned value and the run. -/
def Macro.sendKakaoMessage (host : MacroHost) (message : String) (st : MacroState) :
    Bool × MacroState :=
  match Macro.sendKakaoMessageTry host message st with
  | (.ok returned, done) => (returned, done)
  | (.error text, failed) =>
    (false, Macro.performGlobalAction .home (Macro.log ("❌ 메시지 전송 실패: " ++ text) failed))

/-- The function `executeMacro()`. No statement of its `try` block raises here (the
callees catch what the host raises), so its `catch` block is not reached. -/
def Macro.executeMacro (host : MacroHost) (st : MacroState) : Bool × MacroState :=
  let started := Macro.log "🚀 카카오톡 자동 전송 시작" st
  let message := Macro.getWebhookVariable host "message" started
  let chatId := Macro.getWebhookVariable host "chat_id" message.2
  match message.1 with
  | none => (false, Macro.log "❌ 메시지가 없습니다" chatId.2)
  | some text =>
    if text = "" then (false, Macro.log "❌ 메시지가 없습니다" chatId.2)
    else Macro.sendKakaoMessage host text (Macro.log ("📝 전송할 메시지: " ++ text) chatId.2)

/-- A UI step of `sendKakaoMessage` in the words of the specification: one request, or a
request with another one to try when the first fails. -/
inductive UIStep where
  | single (request : HostCall)
  | withFallback (request fallback : HostCall)
  deriving DecidableEq, Repr

/-- The UI steps of `sendKakaoMessage` as the specification lists them: chat tab click;
search by content description or, failing that, by text; chat-room name input; chat-room
click; message input; send by content description or, failing that, by text. -/
def uiSteps (message : String) : List UIStep :=
  [.single (.clickOnText "채팅"),
    .withFallback (.clickOnContentDescription "검색") (.clickOnText "검색"),
    .single (.enterText CONFIG.CHAT_ROOM_NAME),
    .single (.clickOnTextContains CONFIG.CHAT_ROOM_NAME),
    .single (.enterText message),
    .withFallback (.clickOnContentDescription "전송") (.clickOnText "전송")]

/-- Whether every step of a list succeeds, in the words of the specification: a request
succeeds when its result is truthy; the requests are counted from `asked`. -/
def everyStepSucceeds (host : MacroHost) : List UIStep → Nat → Bool
  | [], _ => true
  | .single request :: rest, asked =>
    host.ui asked request == .truthy && everyStepSucceeds host rest (asked + 1)
  | .withFallback request fallback :: rest, asked =>
    if host.ui asked request == .truthy then everyStepSucceeds host rest (asked + 1)
    else host.ui (asked + 1) fallback == .truthy && everyStepSucceeds host rest (asked + 2)

/-- The requests made for a list of steps when no step after a failed one is attempted,
in the words of the specification. -/
def requestsUntilFailure (host : MacroHost) : List UIStep → Nat → List HostCall
  | [], _ => []
  | .single request :: rest, asked =>
    request ::
      (if host.ui asked request == .truthy then requestsUntilFailure host rest (asked + 1)
        else [])
  | .withFallback request fallback :: rest, asked =>
    request ::
      (if host.ui asked request == .truthy then requestsUntilFailure host rest (asked + 1)
        else
          fallback ::
            (if host.ui (asked + 1) fallback == .truthy then
              requestsUntilFailure host rest (asked + 2)
            else []))

/-- Whether a host call is a UI request. -/
def HostCall.isRequest : HostCall → Bool
  | .clickOnText _ => true
  | .clickOnTextContains _ => true
  | .clickOnContentDescription _ => true
  | .enterText _ => true
  | _ => false

/-- The global actions among host calls, in their order. -/
def globalActions (calls : List HostCall) : List GlobalAction :=
  calls.filterMap fun call =>
    match call with
    | .performGlobalAction action => some action
    | _ => none

/-- Whether a host call launches an application. -/
def HostCall.isLaunch : HostCall → Bool
  | .launchApplication _ => true
  | _ => false

/-! ## Sample values used by the witnesses -/

/-- An ok snapshot with one rider in its detail. -/
def sampleSnapshotA : Snapshot :=
  { current_score := .number 92, completed_missions := .number 156, active_riders := .number 31,
    rest := [("riders", .array [.object [("name", .prim (.string "Kim"))]])] }

/-- The same three tracked values as `sampleSnapshotA`, with different rider detail. -/
def sampleSnapshotB : Snapshot :=
  { current_score := .number 92, completed_missions := .number 156, active_riders := .number 31,
    rest := [("riders", .array [.object [("name", .prim (.string "Lee"))]])] }

/-- A snapshot that carries only an error reason. -/
def errorSnapshot : Snapshot :=
  { current_score := .undefined, completed_missions := .undefined, active_riders := .undefined,
    rest := [("error", .prim (.bool true)), ("error_reason", .prim (.string "timeout"))] }

/-- The field map of the concrete scenario: three numbers. -/
def scenarioFields : FieldMap :=
  [("score", .prim (.number 92)), ("completed_missions", .prim (.number 156)),
    ("active_riders", .prim (.number 31))]

/-- The same pairs as `scenarioFields`, the first two in the other order. -/
def scenarioFieldsSwapped : FieldMap :=
  [("completed_missions", .prim (.number 156)), ("score", .prim (.number 92)),
    ("active_riders", .prim (.number 31))]

/-- The content of `messageTemplates.simple`, cut into tokens. -/
def simpleContentTokens : List Token :=
  [.text "점수 ".data, .placeholder "score".data, .text "점 | 미션 ".data,
    .placeholder "completed_missions".data, .text "개 | 라이더 ".data,
    .placeholder "active_riders".data, .text "명".data]

/-- The footer of `messageTemplates.simple`, cut into tokens. -/
def simpleFooterTokens : List Token := [.placeholder "timestamp".data]

/-- A stand-in for `JSON.parse` that rejects every text with one message. -/
def rejectingParser : String → Except String JSValue :=
  fun _ => .error "Unexpected end of JSON input"

/-- The form controls as a user may have left them. -/
def sampleControls : FormControls :=
  { template := "custom", sendOnChange := false, sendOnSchedule := true, sendOnAlert := true,
    customMessage := "\x7b\"title\": \"알림\"\x7d\n",
    templateOptions := ["standard", "detailed", "simple", "custom"] }

/-- A settings panel right after the script has loaded: the global holds the default
settings and no notification is shown. -/
def startupPage (storage : Option String) (storageWritable : Bool) : SettingsPage :=
  { messageSettings := defaultMessageSettings, storage := storage,
    storageWritable := storageWritable, controls := sampleControls,
    toasts := NotificationDOM.empty }

/-! ## A stand-in for the browser functions -/

/-- Commas between groups of three digits, on the digits in reverse order; `count` is
the number of digits already in the current group. -/
def groupDigits : Nat → List Char → List Char
  | _, [] => []
  | count, c :: rest =>
    if count = 3 then ',' :: c :: groupDigits 1 rest else c :: groupDigits (count + 1) rest

/-- The decimal text of a natural number with thousands separators. -/
def groupedText (n : Nat) : String :=
  ⟨(groupDigits 0 (toString n).data.reverse).reverse⟩

/-- The sign of a text of digits with an optional minus sign and decimal point; the
empty text counts as zero and any other text is not a number. -/
def sampleTextSign (s : String) : Option Int :=
  let body := match s.data with
    | '-' :: rest => rest
    | cs => cs
  if s.data = [] then some 0
  else if body.any Char.isDigit ∧ body.all (fun c => c.isDigit || c == '.') ∧
      body.count '.' ≤ 1 then
    if body.all (fun c => c == '0' || c == '.') then some 0
    else if s.data.head? = some '-' then some (-1)
    else some 1
  else none

/-- A stand-in for the browser: numbers are grouped by thousands, a tenth of a multiple
of ten is exact, a date is shown by its ISO text and an hour label is taken from the
hour digits of the ISO text. -/
def samplePlatform : Platform where
  dateToLocaleString := fun v =>
    match v with
    | .prim (.string s) => s
    | _ => "Invalid Date"
  numberToLocaleString := fun p =>
    match p with
    | .number n => (if n < 0 then "-" else "") ++ groupedText n.natAbs
    | .fraction text => text
    | _ => "NaN"
  timesTenth := fun p =>
    match p with
    | .number n =>
      if n % 10 = 0 then some (.number (n / 10))
      else some (.fraction ((if n < 0 then "-" else "") ++ toString (n.natAbs / 10) ++ "." ++
        toString (n.natAbs % 10)))
    | .null => some (.number 0)
    | _ => none
  textSign := sampleTextSign
  hourLabel := fun v =>
    match v with
    | .prim (.string s) => ⟨(s.data.drop 11).take 2⟩ ++ ":00"
    | _ => "NaN:00"
  parseErrorMessage := fun _ => "Unexpected token"

/-- A page of the semi-automatic dashboard that shows an earlier snapshot. -/
def sampleSemiPage : SemiPage where
  indicatorClass := "status-indicator online"
  statusText := "실시간 연결 (2025-01-01T09:00:00.000Z 기준)"
  totalScore := "812"
  totalCompleted := "41"
  acceptanceRate := "97%"
  activeRiders := "1"
  riderList := .children [{ className := "rider-item", innerHTML := "<div>kim</div>" }]
  toasts := NotificationDOM.empty

/-- A snapshot tagged with an error. -/
def sampleErrorSnapshot : SemiSnapshot where
  error := .bool true
  error_reason := .string "크롤링 실패"
  last_updated := .undefined
  totalScore := .undefined
  totalCompleted := .undefined
  acceptanceRate := .undefined
  riders := none

/-- An ok snapshot with one active rider and one idle rider. -/
def sampleOkSnapshot : SemiSnapshot where
  error := .undefined
  error_reason := .undefined
  last_updated := .string "2025-01-01T10:00:00.000Z"
  totalScore := .number 830
  totalCompleted := .number 44
  acceptanceRate := .fraction "96.5"
  riders := some [
    { name := .string "kim", completed := .number 12, acceptance := .number 100 },
    { name := .string "lee", completed := .number 0, acceptance := .number 0 }]

/-- Two digits for an hour of the day. -/
def twoDigits (n : Nat) : String :=
  (if n < 10 then "0" else "") ++ toString n

/-- The draws and clock readings of a call of `generateSampleData` at nine in the
morning of the first of January 2025. -/
def sampleDraws : SampleDraws where
  hour := 9
  timestamp := "2025-01-01T09:00:00.000Z"
  score := 37
  missions := 4
  riders := 3
  income := 37
  scoreChange := .fraction "12.5"
  missionChange := 4
  ridersChange := 0
  historyStamp := fun i =>
    (if i ≤ 9 then "2025-01-01T" else "2024-12-31T") ++ twoDigits ((33 - i) % 24) ++
      ":00:00.000Z"
  historyHour := fun i => (33 - i) % 24
  historyScore := fun i => 7 * i
  historyMissions := fun i => i
  historyRiders := fun i => 3 * i
  distributionCompleted := 2
  distributionInProgress := 5
  distributionPending := 7
  actionTime := "2025-01-01T08:57:30.000Z"

/-- A page of the dashboard that shows an earlier snapshot, with the standard template
selected. -/
def sampleDocsPage : DocsPage where
  lastData := some { current_score := .number 812, completed_missions := .number 41,
                     active_riders := .number 30, rest := [] }
  lastDataUpdate := some "2025. 1. 1. 오전 8:59:30"
  dashboardOpacity := "1"
  dashboardTransition := "opacity 0.3s ease"
  currentScore := { value := "812점", change := "+3점", changeClass := "stat-change positive" }
  completedMissions := { value := "41개", change := "0개", changeClass := "stat-change positive" }
  activeRiders := { value := "30명", change := "-1명", changeClass := "stat-change negative" }
  estimatedIncome :=
    { value := "97,440원", change := "9,744원", changeClass := "stat-change negative" }
  performanceChart := some { labels := [], scores := [], missions := [] }
  missionChart := some []
  activityLog := []
  templateControl := "standard"
  customControl := ""
  preview := none
  statusColor := "#27ae60"
  statusLabel := "정상 운영"
  lastUpdateTime := "2025. 1. 1. 오전 8:59:30"
  toasts := NotificationDOM.empty

/-- The content of the `standard` template, cut into text and placeholders. -/
def standardContentTokens : List Token :=
  [.text "📊 현재 점수: ".data, .placeholder "score".data, .text "점\n✅ 완료 미션: ".data,
    .placeholder "completed_missions".data, .text "개\n🏍️ 활성 라이더: ".data,
    .placeholder "active_riders".data, .text "명\n💰 예상 수익: ".data,
    .placeholder "estimated_income".data, .text "원".data]

/-- The footer of the `standard` template, cut into text and placeholders. -/
def standardFooterTokens : List Token := [.text "📅 ".data, .placeholder "timestamp".data]

/-- The content of the `detailed` template, cut into text and placeholders. -/
def detailedContentTokens : List Token :=
  [.text "🎯 성과 지표\n━━━━━━━━━━━━━━━━━━━━━\n📊 현재 점수: ".data, .placeholder "score".data,
    .text "점 (".data, .placeholder "score_change".data, .text ")\n✅ 완료 미션: ".data,
    .placeholder "completed_missions".data, .text "개 (".data,
    .placeholder "mission_change".data, .text ")\n🏍️ 활성 라이더: ".data,
    .placeholder "active_riders".data, .text "명 (".data, .placeholder "riders_change".data,
    .text ")\n💰 예상 수익: ".data, .placeholder "estimated_income".data, .text "원 (".data,
    .placeholder "income_change".data,
    .text ")\n\n📈 시간대별 추이\n━━━━━━━━━━━━━━━━━━━━━\n🕒 피크시간 성과율: ".data,
    .placeholder "peak_performance".data, .text "%\n⏰ 평균 응답시간: ".data,
    .placeholder "avg_response_time".data, .text "분\n🎯 목표 달성률: ".data,
    .placeholder "goal_achievement".data, .text "%".data]

/-- The footer of the `detailed` template, cut into text and placeholders. -/
def detailedFooterTokens : List Token :=
  [.text "📅 ".data, .placeholder "timestamp".data, .text " | 다음 업데이트: ".data,
    .placeholder "next_update".data]

/-- The generated sample with the text `$&` as its completed count. -/
def dollarSnapshot : List (String × JSValue) :=
  (sampleProperties sampleDraws).map fun kv =>
    if kv.1 = "completed_missions" then (kv.1, .prim (.string (String.mk [dollar, ampersand])))
    else kv

/-- A stand-in for the time value of `new Date(timestamp)`: a number is its own time
value, the one ISO text of the samples is known, anything else is an invalid date. -/
def sampleTimeValue : JSPrim → Option Int
  | .number n => some n
  | .string s => if s = "2025-01-01T09:00:00.000Z" then some 1735722000000 else none
  | _ => none

/-- The control centre after `registerFunctions`, with the status that `loadSystemStatus`
falls back to and nothing shown yet. -/
def sampleControlCenter : ControlCenterState where
  functions := registerFunctions
  systemStatus :=
    { activeFunctions := .number 8, totalExecutions := 1247, successRate := .fraction "97.2",
      lastUpdate := .string "2025-01-01T09:00:00.000Z" }
  display := { activeFunctions := "0", totalExecutions := "0", successRate := "0%",
               lastUpdate := "알 수 없음" }
  toasts := NotificationDOM.empty

/-- The enhanced control centre as its constructor leaves it when nothing is stored: the
default configuration, the default theme applied, no timer. -/
def sampleEnhanced : EnhancedState where
  currentConfig :=
    [("theme", .prim (.string "default")), ("refreshInterval", .prim (.number 30)),
      ("notifications", .prim (.bool true)), ("autoUpdate", .prim (.bool true))]
  updateInterval := none
  intervals := []
  timersCreated := 0
  storage := none
  appliedTheme := some "default"
  toasts := NotificationDOM.empty

/-- A host whose webhook carries a message, whose search button has no content
description that can be clicked (the request raises), and whose other requests
succeed. -/
def sampleHost : MacroHost where
  getVariable := fun name => if name = "wv_message" then .text "오늘 미션 현황" else .missing
  ui := fun _ call => if call = .clickOnContentDescription "검색" then .raised else .truthy

/-- A host as `sampleHost` on which the chat room is not found. -/
def roomlessHost : MacroHost where
  getVariable := sampleHost.getVariable
  ui := fun asked call =>
    if call = .clickOnTextContains CONFIG.CHAT_ROOM_NAME then .falsy else sampleHost.ui asked call

/-- A host without webhook variables. -/
def silentHost : MacroHost where
  getVariable := fun _ => .missing
  ui := fun _ _ => .truthy

/-! ## Theorems: change detection -/

/-- C1: with a snapshot held, `hasDataChanged` completes, adopts the candidate, and
returns true exactly when the held and the candidate snapshot differ in `current_score`,
`completed_missions` or `active_riders`; the other properties of either snapshot have no
influence on the returned value. -/
theorem hasDataChanged_iff_tracked_field_differs (prev next : Snapshot) :
    (∃ changed, hasDataChanged (some prev) (some next) = .ok (changed, some next) ∧
      (changed = true ↔
        (prev.current_score ≠ next.current_score ∨
          prev.completed_missions ≠ next.completed_missions ∨
          prev.active_riders ≠ next.active_riders))) ∧
    ∀ restPrev restNext : List (String × JSValue),
      (hasDataChanged (some { prev with rest := restPrev })
          (some { next with rest := restNext })).map Prod.fst =
        (hasDataChanged (some prev) (some next)).map Prod.fst := by
  refine ⟨⟨_, rfl, ?_⟩, fun _ _ => rfl⟩
  simp [strictNotEquals, or_assoc]

/-- C2: with no snapshot held, `hasDataChanged(s)` returns true for every snapshot `s`
and `s` is the held snapshot afterwards. -/
theorem hasDataChanged_first_call (s : Snapshot) :
    hasDataChanged none (some s) = .ok (true, some s) := rfl

/-- C3: when two snapshots agree on `current_score`, `completed_missions` and
`active_riders`, the call `hasDataChanged(s2)` right after `hasDataChanged(s1)` returns
false, from any starting state, and the held snapshot is then `s2`. -/
theorem hasDataChanged_second_call_same_tracked_fields (lastData : Option Snapshot)
    (s1 s2 : Snapshot) (hScore : s1.current_score = s2.current_score)
    (hMissions : s1.completed_missions = s2.completed_missions)
    (hRiders : s1.active_riders = s2.active_riders) :
    ingestTwice lastData (some s1) (some s2) = .ok (false, some s2) := by
  cases lastData <;> simp [ingestTwice, hasDataChanged, strictNotEquals, hScore, hMissions, hRiders]

/-- Witness for C3: two snapshots that differ only in rider detail. -/
theorem hasDataChanged_second_call_same_tracked_fields_witness :
    sampleSnapshotA.current_score = sampleSnapshotB.current_score ∧
    sampleSnapshotA.completed_missions = sampleSnapshotB.completed_missions ∧
    sampleSnapshotA.active_riders = sampleSnapshotB.active_riders ∧
    ingestTwice none (some sampleSnapshotA) (some sampleSnapshotB) =
      .ok (false, some sampleSnapshotB) :=
  ⟨rfl, rfl, rfl,
    hasDataChanged_second_call_same_tracked_fields none sampleSnapshotA sampleSnapshotB
      rfl rfl rfl⟩

/-- C4, as the code behaves: with a snapshot held, a `null` candidate makes
`hasDataChanged` raise `TypeError`. -/
theorem hasDataChanged_null_candidate_raises :
    hasDataChanged (some sampleSnapshotA) none = .error .typeError := rfl

/-- C4, amended: whenever no snapshot is held or the candidate is not `null`, the call
completes and the candidate, an error snapshot included, is the held value afterwards. -/
theorem hasDataChanged_completes_and_adopts (lastData newData : Option Snapshot)
    (h : lastData = none ∨ newData ≠ none) :
    ∃ changed, hasDataChanged lastData newData = .ok (changed, newData) := by
  cases lastData with
  | none => exact ⟨true, rfl⟩
  | some last =>
    cases newData with
    | none => simp at h
    | some new => exact ⟨_, rfl⟩

/-- Witness for C4: an error snapshot offered while an ok snapshot is held. -/
theorem hasDataChanged_completes_and_adopts_witness :
    ((some sampleSnapshotA = none ∨ some errorSnapshot ≠ none) ∧
      ∃ changed, hasDataChanged (some sampleSnapshotA) (some errorSnapshot) =
        .ok (changed, some errorSnapshot)) :=
  ⟨Or.inr (by simp),
    hasDataChanged_completes_and_adopts (some sampleSnapshotA) (some errorSnapshot)
      (Or.inr (by simp))⟩

/-! ## Lemmas: patterns of plain keys -/

/-- The two braces are different characters. -/
theorem lbrace_ne_rbrace : lbrace ≠ rbrace := by decide

/-- The full stop is a syntax character. -/
theorem isSyntaxCharacter_fullStop : isSyntaxCharacter fullStop = true := by decide
/-- The opening brace is a syntax character. -/
theorem isSyntaxCharacter_lbrace : isSyntaxCharacter lbrace = true := by decide
/-- The closing brace is a syntax character. -/
theorem isSyntaxCharacter_rbrace : isSyntaxCharacter rbrace = true := by decide

/-- Characters that are not syntax characters compile to themselves. -/
theorem compileAtoms_plain (cs : List Char) (h : ∀ c ∈ cs, isSyntaxCharacter c = false) :
    compileAtoms cs = .ok (cs.map Atom.lit) := by
  induction cs with
  | nil => rfl
  | cons c cs ih =>
    have hc : isSyntaxCharacter c = false := h c (List.mem_cons_self _ _)
    have hne : c ≠ fullStop := by
      intro heq
      rw [heq, isSyntaxCharacter_fullStop] at hc
      exact Bool.noConfusion hc
    have ih2 := ih (fun d hd => h d (List.mem_cons_of_mem _ hd))
    simp [compileAtoms, hne, hc, ih2]

/-- What `plainKey` says, as propositions. -/
theorem plainKey_spec (key : String) (h : plainKey key = true) :
    isBracedQuantifierBody key.data = false ∧ ∀ c ∈ key.data, isSyntaxCharacter c = false := by
  simpa [plainKey] using h

/-- A plain key has no opening brace. -/
theorem plainKey_no_lbrace (key : String) (h : plainKey key = true) : lbrace ∉ key.data := by
  intro hmem
  have := (plainKey_spec key h).2 lbrace hmem
  rw [isSyntaxCharacter_lbrace] at this
  exact Bool.noConfusion this

/-- A plain key has no closing brace. -/
theorem plainKey_no_rbrace (key : String) (h : plainKey key = true) : rbrace ∉ key.data := by
  intro hmem
  have := (plainKey_spec key h).2 rbrace hmem
  rw [isSyntaxCharacter_rbrace] at this
  exact Bool.noConfusion this

/-- The regular expression of a plain key is the literal text of its placeholder. -/
theorem compilePlaceholder_plain (key : String) (h : plainKey key = true) :
    compilePlaceholder key = .ok (literalPattern key.data) := by
  obtain ⟨hq, hs⟩ := plainKey_spec key h
  simp [compilePlaceholder, hq, compileAtoms_plain _ hs, literalPattern, placeholderText]

/-- A literal pattern matches a text that starts with it, over its whole length. -/
theorem matchAtoms_lit_prefix (p rest : List Char) :
    matchAtoms (p.map Atom.lit) (p ++ rest) = some p.length := by
  induction p with
  | nil => simp [matchAtoms]
  | cons c p ih => simp [matchAtoms, ih]

/-- A literal pattern matches only a text that starts with it. -/
theorem matchAtoms_lit_some (p s : List Char) (n : Nat)
    (h : matchAtoms (p.map Atom.lit) s = some n) : ∃ rest, s = p ++ rest ∧ n = p.length := by
  induction p generalizing s n with
  | nil =>
    simp [matchAtoms] at h
    exact ⟨s, rfl, by simp [h]⟩
  | cons c p ih =>
    cases s with
    | nil => simp [matchAtoms] at h
    | cons d s =>
      simp only [List.map_cons, matchAtoms] at h
      split at h
      · next hcd =>
        cases hm : matchAtoms (p.map Atom.lit) s with
        | none => simp [hm] at h
        | some m =>
          simp [hm] at h
          obtain ⟨rest, hs, hmn⟩ := ih s m hm
          exact ⟨rest, by simp [hcd, hs], by simp [← h, hmn]⟩
      · exact absurd h (by simp)

/-- Skipping the characters of a match leaves the scan at the text after it. -/
theorem replaceGo_skip (pat : List Atom) (repl xs rest : List Char) :
    ∀ before, replaceGo pat repl (xs ++ rest) before xs.length =
      replaceGo pat repl rest (before ++ xs) 0 := by
  induction xs with
  | nil => intro before; simp
  | cons c xs ih =>
    intro before
    simp only [List.cons_append, List.length_cons, replaceGo, List.append_eq]
    rw [ih]
    simp

/-- The scan copies a stretch of text without an opening brace. -/
theorem replaceGo_no_lbrace (pat : List Atom) (repl t rest : List Char)
    (h : lbrace ∉ t) :
    ∀ before, replaceGo (Atom.lit lbrace :: pat) repl (t ++ rest) before 0 =
      t ++ replaceGo (Atom.lit lbrace :: pat) repl rest (before ++ t) 0 := by
  induction t with
  | nil => intro before; simp
  | cons c t ih =>
    intro before
    have hc : lbrace ≠ c := fun heq => h (by simp [heq])
    have ht : lbrace ∉ t := fun hm => h (List.mem_cons_of_mem _ hm)
    simp only [List.cons_append, replaceGo, matchAtoms, hc, if_false, List.append_eq]
    rw [ih ht]
    simp

/-- A replacement text without a dollar sign is inserted as it is. -/
theorem getSubstitution_no_dollar (matched before after repl : List Char)
    (h : dollar ∉ repl) : getSubstitution matched before after false repl = repl := by
  induction repl with
  | nil => rfl
  | cons c repl ih =>
    have hc : c ≠ dollar := fun heq => h (by simp [heq])
    have ht : dollar ∉ repl := fun hm => h (List.mem_cons_of_mem _ hm)
    simp [getSubstitution, hc, ih ht]

/-- Two brace-free names that end at the same closing brace are equal. -/
theorem closing_prefix_eq (key name rest : List Char) (hk : rbrace ∉ key)
    (hn : rbrace ∉ name) (h : key ++ [rbrace] <+: name ++ rbrace :: rest) : key = name := by
  induction key generalizing name with
  | nil =>
    cases name with
    | nil => rfl
    | cons d name =>
      obtain ⟨t, ht⟩ := h
      simp at ht
      exact absurd (by simp [ht.1]) hn
  | cons c key ih =>
    cases name with
    | nil =>
      obtain ⟨t, ht⟩ := h
      simp at ht
      exact absurd (by simp [ht.1]) hk
    | cons d name =>
      obtain ⟨t, ht⟩ := h
      simp at ht
      have hk2 : rbrace ∉ key := fun hm => hk (List.mem_cons_of_mem _ hm)
      have hn2 : rbrace ∉ name := fun hm => hn (List.mem_cons_of_mem _ hm)
      have := ih name hk2 hn2 ⟨t, by simpa using ht.2⟩
      simp [ht.1, this]

/-- The pattern of a key does not match the placeholder of another name. -/
theorem matchAtoms_placeholder_ne (key name rest : List Char) (hk : rbrace ∉ key)
    (hn : rbrace ∉ name) (hne : name ≠ key) :
    matchAtoms (literalPattern key) (placeholderText name ++ rest) = none := by
  cases hm : matchAtoms (literalPattern key) (placeholderText name ++ rest) with
  | none => rfl
  | some n =>
    exfalso
    obtain ⟨r, hr, -⟩ := matchAtoms_lit_some _ _ _ hm
    simp [placeholderText] at hr
    exact hne (closing_prefix_eq key name rest hk hn ⟨r, by simpa using hr.symm⟩).symm

/-- The pattern of a key matches its own placeholder. -/
theorem matchAtoms_placeholder_eq (key rest : List Char) :
    matchAtoms (literalPattern key) (placeholderText key ++ rest) = some (key.length + 1 + 1) := by
  have := matchAtoms_lit_prefix (placeholderText key) rest
  simpa [literalPattern, placeholderText] using this

/-- The boolean test that no character equals `x`, as non-membership. -/
theorem all_ne_iff_not_mem (cs : List Char) (x : Char) :
    cs.all (fun c => c != x) = true ↔ x ∉ cs := by
  induction cs with
  | nil => simp
  | cons c cs ih =>
    simp only [List.all_cons, Bool.and_eq_true, ih, List.mem_cons, not_or]
    constructor
    · rintro ⟨h1, h2⟩
      exact ⟨fun h => by simp [h] at h1, h2⟩
    · rintro ⟨h1, h2⟩
      exact ⟨by simpa using fun h => h1 h.symm, h2⟩

/-- A well-formed text token has no opening brace. -/
theorem wellFormed_text (cs : List Char) (h : (Token.text cs).wellFormed = true) :
    lbrace ∉ cs := (all_ne_iff_not_mem cs lbrace).1 h

/-- A well-formed placeholder name has no brace. -/
theorem wellFormed_placeholder (name : List Char)
    (h : (Token.placeholder name).wellFormed = true) : lbrace ∉ name ∧ rbrace ∉ name := by
  simp only [Token.wellFormed, List.all_eq_true, Bool.and_eq_true, bne_iff_ne, ne_eq] at h
  exact ⟨fun hm => (h _ hm).1 rfl, fun hm => (h _ hm).2 rfl⟩

/-- On a well-formed token list, one `replace` call substitutes exactly the placeholders
of its key. -/
theorem replaceGo_tokens (key repl : List Char) (hk : rbrace ∉ key) (hr : dollar ∉ repl)
    (ts : List Token) (hts : wellFormedTokens ts = true) :
    ∀ before, replaceGo (literalPattern key) repl (tokensText ts) before 0 =
      tokensText (ts.map (Token.substituteOne key repl)) := by
  induction ts with
  | nil => intro before; rfl
  | cons t ts ih =>
    intro before
    have hts2 : t.wellFormed = true ∧ wellFormedTokens ts = true := by
      simpa [wellFormedTokens] using hts
    have ih2 := ih hts2.2
    have hpat : literalPattern key = Atom.lit lbrace :: (key ++ [rbrace]).map Atom.lit := rfl
    cases t with
    | text cs =>
      have hcs := wellFormed_text cs hts2.1
      simp only [tokensText, Token.chars, List.map_cons, Token.substituteOne]
      rw [hpat, replaceGo_no_lbrace _ _ _ _ hcs, ← hpat, ih2]
    | placeholder name =>
      obtain ⟨hnl, hnr⟩ := wellFormed_placeholder name hts2.1
      by_cases hname : name = key
      · subst hname
        have hm := matchAtoms_placeholder_eq name (tokensText ts)
        simp only [tokensText, Token.chars, List.map_cons, Token.substituteOne, if_true]
        have hshape : placeholderText name ++ tokensText ts =
            lbrace :: ((name ++ [rbrace]) ++ tokensText ts) := by
          simp [placeholderText]
        rw [hshape] at hm ⊢
        simp only [replaceGo, hm]
        rw [getSubstitution_no_dollar _ _ _ _ hr]
        have hlen : name.length + 1 = (name ++ [rbrace]).length := by simp
        rw [hlen, replaceGo_skip, ih2]
      · have hm := matchAtoms_placeholder_ne key name (tokensText ts) hk hnr hname
        simp only [tokensText, Token.chars, List.map_cons, Token.substituteOne, hname, if_false]
        have hshape : placeholderText name ++ tokensText ts =
            lbrace :: ((name ++ [rbrace]) ++ tokensText ts) := by
          simp [placeholderText]
        rw [hshape] at hm ⊢
        simp only [replaceGo, hm]
        have hnb : lbrace ∉ name ++ [rbrace] := by
          simp only [List.mem_append, List.mem_singleton, not_or]
          exact ⟨hnl, lbrace_ne_rbrace⟩
        rw [hpat, replaceGo_no_lbrace _ _ _ _ hnb, ← hpat, ih2]
        simp [placeholderText]

/-- Substituting a text without an opening brace keeps a token list well formed. -/
theorem wellFormedTokens_substituteOne (key repl : List Char) (hr : lbrace ∉ repl)
    (ts : List Token) (hts : wellFormedTokens ts = true) :
    wellFormedTokens (ts.map (Token.substituteOne key repl)) = true := by
  induction ts with
  | nil => rfl
  | cons t ts ih =>
    have hts2 : t.wellFormed = true ∧ wellFormedTokens ts = true := by
      simpa [wellFormedTokens] using hts
    have ih2 := ih hts2.2
    have ht : (t.substituteOne key repl).wellFormed = true := by
      cases t with
      | text cs => exact hts2.1
      | placeholder name =>
        by_cases hname : name = key
        · simp only [Token.substituteOne, hname, if_true]
          exact (all_ne_iff_not_mem repl lbrace).2 hr
        · simp only [Token.substituteOne, hname, if_false]
          exact hts2.1
    simp only [wellFormedTokens, List.map_cons, List.all_cons, Bool.and_eq_true]
    exact ⟨ht, ih2⟩

/-- Substituting the first key and then the others at once is substituting all at once. -/
theorem substitutedText_substituteOne (key : String) (value : JSValue) (rest : FieldMap)
    (ts : List Token) :
    substitutedText rest (ts.map (Token.substituteOne key.data (stringForm value))) =
      substitutedText ((key, value) :: rest) ts := by
  induction ts with
  | nil => rfl
  | cons t ts ih =>
    simp only [List.map_cons, substitutedText, ih]
    congr 1
    cases t with
    | text cs => rfl
    | placeholder name =>
      by_cases hname : name = key.data
      · simp [Token.substituteOne, Token.substituted, lookupField, hname]
      · have hname2 : ¬ key.data = name := fun h => hname h.symm
        simp [Token.substituteOne, Token.substituted, lookupField, hname, hname2]

/-- What `hasStringForm` says: the conversion succeeds with the text `stringForm` gives. -/
theorem hasStringForm_spec (v : JSValue) (h : hasStringForm v = true) :
    ∃ s : String, v.toJSString = .ok s ∧ stringForm v = s.data := by
  unfold hasStringForm at h
  unfold stringForm
  cases hv : v.toJSString with
  | error e => simp [hv] at h
  | ok s => exact ⟨s, rfl, rfl⟩

/-- What `plainValue` says, as propositions. -/
theorem plainValue_spec (v : JSValue) (h : plainValue v = true) :
    ∃ s : String, v.toJSString = .ok s ∧ stringForm v = s.data ∧
      dollar ∉ s.data ∧ lbrace ∉ s.data := by
  simp only [plainValue, Bool.and_eq_true, List.all_eq_true, bne_iff_ne, ne_eq] at h
  obtain ⟨s, hs, hform⟩ := hasStringForm_spec v h.1
  refine ⟨s, hs, hform, ?_, ?_⟩
  · intro hm
    exact (h.2 _ (hform ▸ hm)).1 rfl
  · intro hm
    exact (h.2 _ (hform ▸ hm)).2 rfl

/-- On a well-formed token list and plain fields, the key loop computes the simultaneous
substitution. -/
theorem substituteAll_tokens (fields : FieldMap) (hf : plainFields fields = true) :
    ∀ ts : List Token, wellFormedTokens ts = true →
      substituteAll (.prim (.string ⟨tokensText ts⟩)) fields =
        .ok (.prim (.string ⟨substitutedText fields ts⟩)) := by
  induction fields with
  | nil =>
    intro ts hts
    clear hts
    have : substitutedText [] ts = tokensText ts := by
      induction ts with
      | nil => rfl
      | cons t ts ih =>
        cases t <;> simp [substitutedText, tokensText, Token.substituted, Token.chars, lookupField, ih]
    simp [substituteAll, this]
  | cons kv rest ih =>
    intro ts hts
    obtain ⟨key, value⟩ := kv
    have hf2 : (plainKey key = true ∧ plainValue value = true) ∧ plainFields rest = true := by
      simpa [plainFields] using hf
    obtain ⟨repl, hrepl, hform, hd, hl⟩ := plainValue_spec value hf2.1.2
    have hkr := plainKey_no_rbrace key hf2.1.1
    simp only [substituteAll, compilePlaceholder_plain key hf2.1.1, hrepl, replaceAll]
    rw [replaceGo_tokens key.data repl.data hkr hd ts hts]
    rw [ih hf2.2 _ (wellFormedTokens_substituteOne _ _ hl ts hts)]
    rw [← hform, substitutedText_substituteOne]

/-- With distinct keys, a lookup does not depend on the order of the pairs. -/
theorem lookupField_perm (name : List Char) {f1 f2 : FieldMap} (hperm : f1.Perm f2)
    (hnd : (fieldKeys f1).Nodup) : lookupField name f1 = lookupField name f2 := by
  induction hperm with
  | nil => rfl
  | cons x _ ih =>
    obtain ⟨k, v⟩ := x
    have hnd1 : (k :: fieldKeys _).Nodup := hnd
    simp only [lookupField]
    rw [ih (List.nodup_cons.1 hnd1).2]
  | swap x y l =>
    obtain ⟨k1, v1⟩ := x
    obtain ⟨k2, v2⟩ := y
    have hne : k2 ≠ k1 := by
      intro h
      simp [fieldKeys, h] at hnd
    simp only [lookupField]
    by_cases h1 : k1.data = name
    · by_cases h2 : k2.data = name
      · exact absurd (String.ext (h2.trans h1.symm)) hne
      · simp [h1, h2]
    · by_cases h2 : k2.data = name <;> simp [h1, h2]
  | trans h12 _ ih1 ih2 =>
    have hnd2 : (fieldKeys _).Nodup := (h12.map Prod.fst).nodup_iff.1 hnd
    exact (ih1 hnd).trans (ih2 hnd2)

/-- Simultaneous substitution depends on the field map through its lookups only. -/
theorem substitutedText_congr (f1 f2 : FieldMap)
    (h : ∀ name, lookupField name f1 = lookupField name f2) (ts : List Token) :
    substitutedText f1 ts = substitutedText f2 ts := by
  induction ts with
  | nil => rfl
  | cons t ts ih =>
    cases t with
    | text cs => simp [substitutedText, Token.substituted, ih]
    | placeholder name => simp [substitutedText, Token.substituted, ih, h name]

/-- Plainness of a field map does not depend on the order of the pairs. -/
theorem plainFields_perm {f1 f2 : FieldMap} (hperm : f1.Perm f2)
    (h : plainFields f1 = true) : plainFields f2 = true := by
  simp only [plainFields, List.all_eq_true] at h ⊢
  intro kv hkv
  exact h kv (hperm.mem_iff.2 hkv)

/-- A brace-free prefix of a text ends before the first opening brace of the text. -/
theorem length_le_of_append_eq (xs rest pre more : List Char) (hx : lbrace ∉ xs)
    (h : xs ++ rest = pre ++ lbrace :: more) : xs.length ≤ pre.length := by
  induction xs generalizing pre with
  | nil => simp
  | cons x xs ih =>
    cases pre with
    | nil =>
      simp at h
      exact absurd (by simp [h.1]) hx
    | cons p pre =>
      simp at h
      have := ih pre (fun hm => hx (List.mem_cons_of_mem _ hm)) h.2
      simpa using this

/-- The scan copies the placeholder of a name other than the key. -/
theorem replaceGo_placeholder_ne (key name repl rest before : List Char)
    (hkr : rbrace ∉ key) (hnl : lbrace ∉ name) (hnr : rbrace ∉ name) (hne : name ≠ key) :
    replaceGo (literalPattern key) repl (placeholderText name ++ rest) before 0 =
      placeholderText name ++
        replaceGo (literalPattern key) repl rest (before ++ placeholderText name) 0 := by
  have hpat : literalPattern key = Atom.lit lbrace :: (key ++ [rbrace]).map Atom.lit := rfl
  have hm := matchAtoms_placeholder_ne key name rest hkr hnr hne
  have hshape : placeholderText name ++ rest = lbrace :: ((name ++ [rbrace]) ++ rest) := by
    simp [placeholderText]
  have hnb : lbrace ∉ name ++ [rbrace] := by
    simp only [List.mem_append, List.mem_singleton, not_or]
    exact ⟨hnl, lbrace_ne_rbrace⟩
  rw [hshape] at hm ⊢
  simp only [replaceGo, hm]
  rw [hpat, replaceGo_no_lbrace _ _ _ _ hnb]
  simp [placeholderText]

/-- One `replace` call for a plain key keeps an occurrence of the placeholder of
another brace-free name, whatever the replacement text. -/
theorem replaceGo_keeps_placeholder (key name repl : List Char) (hkl : lbrace ∉ key)
    (hkr : rbrace ∉ key) (hnl : lbrace ∉ name) (hnr : rbrace ∉ name) (hne : name ≠ key)
    (post : List Char) :
    ∀ pre before skip, skip ≤ pre.length →
      placeholderText name <:+:
        replaceGo (literalPattern key) repl (pre ++ (placeholderText name ++ post)) before skip := by
  intro pre
  induction pre with
  | nil =>
    intro before skip hskip
    have hs : skip = 0 := by simpa using hskip
    subst hs
    rw [List.nil_append, replaceGo_placeholder_ne key name repl post before hkr hnl hnr hne]
    exact (List.prefix_append _ _).isInfix
  | cons c pre ih =>
    intro before skip hskip
    cases skip with
    | succ s =>
      simp only [List.cons_append, replaceGo, List.append_eq]
      exact ih _ s (by simpa using hskip)
    | zero =>
      cases hm : matchAtoms (literalPattern key) (c :: (pre ++ (placeholderText name ++ post))) with
      | none =>
        simp only [List.cons_append, replaceGo, hm, List.append_eq]
        exact (ih (before ++ [c]) 0 (Nat.zero_le _)).trans (List.suffix_cons _ _).isInfix
      | some n =>
        cases n with
        | zero =>
          simp only [List.cons_append, replaceGo, hm, List.append_eq]
          exact (ih (before ++ [c]) 0 (Nat.zero_le _)).trans (List.suffix_cons _ _).isInfix
        | succ n =>
          obtain ⟨r, hr, hn⟩ := matchAtoms_lit_some _ _ _ hm
          simp only [placeholderText, List.cons_append, List.cons.injEq, List.length_cons,
            List.length_append, List.length_singleton, List.length_nil] at hr hn
          have hkb : lbrace ∉ key ++ [rbrace] := by
            simp only [List.mem_append, List.mem_singleton, not_or]
            exact ⟨hkl, lbrace_ne_rbrace⟩
          have hle := length_le_of_append_eq (key ++ [rbrace]) r pre
            (name ++ [rbrace] ++ post) hkb (by simpa using hr.2.symm)
          have hnle : n ≤ pre.length := by
            simp at hle
            omega
          simp only [List.cons_append, replaceGo, hm, List.append_eq]
          exact (ih (before ++ [c]) n hnle).trans (List.suffix_append _ _).isInfix

/-- A lookup that fails on a list fails on its head and on its tail. -/
theorem lookupField_cons_none (name : List Char) (key : String) (value : JSValue)
    (rest : FieldMap) (h : lookupField name ((key, value) :: rest) = none) :
    key.data ≠ name ∧ lookupField name rest = none := by
  simp only [lookupField] at h
  by_cases hk : key.data = name
  · simp [hk] at h
  · exact ⟨hk, by simpa [hk] using h⟩

/-- The key loop over plain keys succeeds on a string and keeps a placeholder whose name
is not a key. -/
theorem substituteAll_keeps_placeholder (name : List Char) (hnl : lbrace ∉ name)
    (hnr : rbrace ∉ name) (fields : FieldMap) (hkeys : plainKeys fields = true)
    (habsent : lookupField name fields = none) :
    ∀ s : String, ∃ s2 : String,
      substituteAll (.prim (.string s)) fields = .ok (.prim (.string s2)) ∧
      (placeholderText name <:+: s.data → placeholderText name <:+: s2.data) := by
  induction fields with
  | nil => intro s; exact ⟨s, rfl, id⟩
  | cons kv rest ih =>
    intro s
    obtain ⟨key, value⟩ := kv
    have hk2 : (plainKey key = true ∧ hasStringForm value = true) ∧ plainKeys rest = true := by
      simpa [plainKeys] using hkeys
    obtain ⟨hne, hrest⟩ := lookupField_cons_none name key value rest habsent
    obtain ⟨repl, hrepl, -⟩ := hasStringForm_spec value hk2.1.2
    obtain ⟨s2, hs2, hinf⟩ := ih hk2.2 hrest (replaceAll (literalPattern key.data) s repl)
    refine ⟨s2, ?_, fun h => hinf ?_⟩
    · simp only [substituteAll, compilePlaceholder_plain key hk2.1.1, hrepl]
      exact hs2
    · obtain ⟨pre, post, hpp⟩ := h
      have := replaceGo_keeps_placeholder key.data name repl.data
        (plainKey_no_lbrace key hk2.1.1) (plainKey_no_rbrace key hk2.1.1) hnl hnr
        (fun h => hne h.symm) post pre [] 0 (Nat.zero_le _)
      simp only [replaceAll]
      rw [← hpp]
      simpa using this

/-! ## Theorems: message preview -/

/-- C5, as the code behaves: a value with a dollar pattern is not inserted as it is (the
placeholder stays), a key that is a quantifier body makes the regular expression
constructor raise, a value that holds a placeholder is substituted again by a later
key, and a placeholder assembled by an earlier substitution is substituted too. -/
theorem renderTemplate_not_textual :
    renderTemplate (templateObject "t" "\x7bscore\x7d" "")
        [("score", .prim (.string "$&"))] =
      .ok { title := "t", content := "\x7bscore\x7d", footer := "" } ∧
    renderTemplate (templateObject "t" "\x7b7\x7d" "") [("7", .prim (.string "x"))] =
      .error .syntaxError ∧
    renderTemplate (templateObject "t" "\x7ba\x7d" "")
        [("a", .prim (.string "\x7bb\x7d")), ("b", .prim (.string "x"))] =
      .ok { title := "t", content := "x", footer := "" } ∧
    renderTemplate (templateObject "t" "\x7bx\x7ba\x7d\x7d" "")
        [("a", .prim (.string "y")), ("xy", .prim (.string "Z"))] =
      .ok { title := "t", content := "Z", footer := "" } := by
  refine ⟨?_, ?_, ?_, ?_⟩ <;> rfl

/-- C5, amended: for a template whose content and footer are made of text without an
opening brace and of placeholders with brace-free names, and a field map of plain keys
and plain values, rendering succeeds and the content and the footer are the template's
with every placeholder whose name is a key replaced by exactly the string form of that
key's value, everything else unchanged. -/
theorem renderTemplate_simultaneous (title : String) (contentTokens footerTokens : List Token)
    (fields : FieldMap) (hc : wellFormedTokens contentTokens = true)
    (hf : wellFormedTokens footerTokens = true) (hfields : plainFields fields = true) :
    renderTemplate
        (templateObject title ⟨tokensText contentTokens⟩ ⟨tokensText footerTokens⟩) fields =
      .ok { title := title, content := ⟨substitutedText fields contentTokens⟩,
            footer := ⟨substitutedText fields footerTokens⟩ } := by
  simp [renderTemplate, templateObject, templateField, lookupProperty,
    substituteAll_tokens fields hfields _ hc, substituteAll_tokens fields hfields _ hf,
    JSValue.toJSString, JSPrim.toJSString]

set_option maxRecDepth 100000 in
/-- Witness for C5: the `simple` template, cut into tokens, with the scenario fields. -/
theorem renderTemplate_simultaneous_witness :
    wellFormedTokens simpleContentTokens = true ∧
    wellFormedTokens simpleFooterTokens = true ∧
    plainFields scenarioFields = true ∧
    renderTemplate
        (templateObject "G라이더" ⟨tokensText simpleContentTokens⟩
          ⟨tokensText simpleFooterTokens⟩) scenarioFields =
      .ok { title := "G라이더",
            content := ⟨substitutedText scenarioFields simpleContentTokens⟩,
            footer := ⟨substitutedText scenarioFields simpleFooterTokens⟩ } :=
  ⟨rfl, rfl, rfl,
    renderTemplate_simultaneous "G라이더" simpleContentTokens simpleFooterTokens scenarioFields
      rfl rfl rfl⟩

/-- C6, as the code behaves: a key that is a wildcard matches a placeholder of another
name, so a placeholder whose key is not in the field map is replaced. -/
theorem renderTemplate_wildcard_key_eats_placeholder :
    lookupField "a".data [(".", .prim (.string "X"))] = none ∧
    renderTemplate (templateObject "t" "\x7ba\x7d" "") [(".", .prim (.string "X"))] =
      .ok { title := "t", content := "X", footer := "" } ∧
    ¬ (placeholderText "a".data <:+: "X".data) := by
  refine ⟨rfl, rfl, ?_⟩
  intro h
  exact absurd h.length_le (by decide)

/-- C6, amended: for every template and every field map of plain keys, rendering
succeeds, and a placeholder with a brace-free name that is not a key of the map is
still in the rendered content and footer wherever the template has it. -/
theorem renderTemplate_keeps_unknown_placeholder (title content footer : String)
    (fields : FieldMap) (name : List Char) (hkeys : plainKeys fields = true)
    (hname : (Token.placeholder name).wellFormed = true)
    (habsent : lookupField name fields = none) :
    ∃ r, renderTemplate (templateObject title content footer) fields = .ok r ∧
      (placeholderText name <:+: content.data → placeholderText name <:+: r.content.data) ∧
      (placeholderText name <:+: footer.data → placeholderText name <:+: r.footer.data) := by
  obtain ⟨hnl, hnr⟩ := wellFormed_placeholder name hname
  obtain ⟨c2, hc2, hci⟩ := substituteAll_keeps_placeholder name hnl hnr fields hkeys habsent content
  obtain ⟨f2, hf2, hfi⟩ := substituteAll_keeps_placeholder name hnl hnr fields hkeys habsent footer
  refine ⟨{ title := title, content := c2, footer := f2 }, ?_, hci, hfi⟩
  simp [renderTemplate, templateObject, templateField, lookupProperty, hc2, hf2,
    JSValue.toJSString, JSPrim.toJSString]

set_option maxRecDepth 100000 in
/-- Witness for C6: the placeholder of `estimated_income` in a one-line template, with
the scenario fields. -/
theorem renderTemplate_keeps_unknown_placeholder_witness :
    plainKeys scenarioFields = true ∧
    (Token.placeholder "estimated_income".data).wellFormed = true ∧
    lookupField "estimated_income".data scenarioFields = none ∧
    placeholderText "estimated_income".data <:+:
      ("\x7bscore\x7d / \x7bestimated_income\x7d" : String).data ∧
    ∃ r, renderTemplate
        (templateObject "t" "\x7bscore\x7d / \x7bestimated_income\x7d" "") scenarioFields =
          .ok r ∧
      (placeholderText "estimated_income".data <:+:
          ("\x7bscore\x7d / \x7bestimated_income\x7d" : String).data →
        placeholderText "estimated_income".data <:+: r.content.data) ∧
      (placeholderText "estimated_income".data <:+: ("" : String).data →
        placeholderText "estimated_income".data <:+: r.footer.data) :=
  ⟨rfl, rfl, rfl, ⟨"\x7bscore\x7d / ".data, [], rfl⟩,
    renderTemplate_keeps_unknown_placeholder "t"
      "\x7bscore\x7d / \x7bestimated_income\x7d" "" scenarioFields
      "estimated_income".data rfl rfl rfl⟩

set_option maxRecDepth 100000 in
/-- C7: rendering the built-in `standard` template with the fields score 92,
completed_missions 156 and active_riders 31 gives exactly the content with the three
values in place and the placeholder for `estimated_income` left as literal text. -/
theorem render_standard_scenario :
    renderTemplate (messageTemplates "standard") scenarioFields =
      .ok { title := "🚀 G라이더 현황 알림",
            content := "📊 현재 점수: 92점\n✅ 완료 미션: 156개\n🏍️ 활성 라이더: 31명\n💰 예상 수익: \x7bestimated_income\x7d원",
            footer := "📅 \x7btimestamp\x7d" } := by
  rfl

/-- C8: whenever rendering succeeds, the rendered title is the title of the template,
character for character, whatever the field map holds. -/
theorem renderTemplate_title_unchanged (title content footer : String) (fields : FieldMap)
    (r : Rendered) (h : renderTemplate (templateObject title content footer) fields = .ok r) :
    r.title = title := by
  simp only [renderTemplate, templateObject, templateField, lookupProperty] at h
  simp [JSValue.toJSString, JSPrim.toJSString] at h
  cases hc : substituteAll (.prim (.string content)) fields with
  | error e => simp [hc] at h
  | ok c =>
    cases hf : substituteAll (.prim (.string footer)) fields with
    | error e => simp [hc, hf] at h
    | ok f =>
      simp only [hc, hf] at h
      split at h
      · split at h
        · exact absurd h (by simp)
        · have hr := Except.ok.inj h
          rw [← hr]
      · exact absurd h (by simp)

set_option maxRecDepth 100000 in
/-- Witness for C8: a title that holds the placeholder of a supplied key. -/
theorem renderTemplate_title_unchanged_witness :
    renderTemplate (templateObject "\x7bscore\x7d 알림" "\x7bscore\x7d점" "") scenarioFields =
      .ok { title := "\x7bscore\x7d 알림", content := "92점", footer := "" } ∧
    ({ title := "\x7bscore\x7d 알림", content := "92점", footer := "" } : Rendered).title =
      "\x7bscore\x7d 알림" :=
  ⟨rfl, renderTemplate_title_unchanged "\x7bscore\x7d 알림" "\x7bscore\x7d점" "" scenarioFields
    _ rfl⟩

/-- C9, as the code behaves: the keys are substituted one after the other, so the order
shows when a value holds the placeholder of another key, when a substitution completes
a placeholder, and when a key is a wildcard. -/
theorem renderTemplate_order_dependent :
    (renderTemplate (templateObject "t" "\x7ba\x7d" "")
        [("a", .prim (.string "\x7bb\x7d")), ("b", .prim (.string "x"))] =
      .ok { title := "t", content := "x", footer := "" } ∧
     renderTemplate (templateObject "t" "\x7ba\x7d" "")
        [("b", .prim (.string "x")), ("a", .prim (.string "\x7bb\x7d"))] =
      .ok { title := "t", content := "\x7bb\x7d", footer := "" }) ∧
    (renderTemplate (templateObject "t" "\x7bx\x7ba\x7d\x7d" "")
        [("a", .prim (.string "y")), ("xy", .prim (.string "Z"))] =
      .ok { title := "t", content := "Z", footer := "" } ∧
     renderTemplate (templateObject "t" "\x7bx\x7ba\x7d\x7d" "")
        [("xy", .prim (.string "Z")), ("a", .prim (.string "y"))] =
      .ok { title := "t", content := "\x7bxy\x7d", footer := "" }) ∧
    (renderTemplate (templateObject "t" "\x7ba\x7d" "")
        [(".", .prim (.string "X")), ("a", .prim (.string "Y"))] =
      .ok { title := "t", content := "X", footer := "" } ∧
     renderTemplate (templateObject "t" "\x7ba\x7d" "")
        [("a", .prim (.string "Y")), (".", .prim (.string "X"))] =
      .ok { title := "t", content := "Y", footer := "" }) := by
  refine ⟨⟨?_, ?_⟩, ⟨?_, ?_⟩, ⟨?_, ?_⟩⟩ <;> rfl

/-- C9, amended: for a template whose content and footer are made of text without an
opening brace and of placeholders with brace-free names, two field maps of plain keys
and plain values that hold the same pairs, with distinct keys, in different orders
render to the same message. -/
theorem renderTemplate_order_independent (title : String)
    (contentTokens footerTokens : List Token) (fields1 fields2 : FieldMap)
    (hc : wellFormedTokens contentTokens = true) (hf : wellFormedTokens footerTokens = true)
    (hfields : plainFields fields1 = true) (hperm : fields1.Perm fields2)
    (hnodup : (fieldKeys fields1).Nodup) :
    ∃ r,
      renderTemplate
          (templateObject title ⟨tokensText contentTokens⟩ ⟨tokensText footerTokens⟩)
          fields1 = .ok r ∧
      renderTemplate
          (templateObject title ⟨tokensText contentTokens⟩ ⟨tokensText footerTokens⟩)
          fields2 = .ok r := by
  have hfields2 := plainFields_perm hperm hfields
  have hlook : ∀ name, lookupField name fields1 = lookupField name fields2 :=
    fun name => lookupField_perm name hperm hnodup
  refine ⟨{ title := title, content := ⟨substitutedText fields1 contentTokens⟩,
            footer := ⟨substitutedText fields1 footerTokens⟩ }, ?_, ?_⟩
  · simp [renderTemplate, templateObject, templateField, lookupProperty,
      substituteAll_tokens fields1 hfields _ hc, substituteAll_tokens fields1 hfields _ hf,
      JSValue.toJSString, JSPrim.toJSString]
  · simp [renderTemplate, templateObject, templateField, lookupProperty,
      substituteAll_tokens fields2 hfields2 _ hc, substituteAll_tokens fields2 hfields2 _ hf,
      JSValue.toJSString, JSPrim.toJSString,
      substitutedText_congr fields1 fields2 hlook]

set_option maxRecDepth 100000 in
/-- Witness for C9: the `simple` template with the scenario fields in two orders. -/
theorem renderTemplate_order_independent_witness :
    wellFormedTokens simpleContentTokens = true ∧
    wellFormedTokens simpleFooterTokens = true ∧
    plainFields scenarioFields = true ∧
    scenarioFields.Perm scenarioFieldsSwapped ∧
    (fieldKeys scenarioFields).Nodup ∧
    ∃ r,
      renderTemplate
          (templateObject "G라이더" ⟨tokensText simpleContentTokens⟩
            ⟨tokensText simpleFooterTokens⟩) scenarioFields = .ok r ∧
      renderTemplate
          (templateObject "G라이더" ⟨tokensText simpleContentTokens⟩
            ⟨tokensText simpleFooterTokens⟩) scenarioFieldsSwapped = .ok r :=
  ⟨rfl, rfl, rfl, List.Perm.swap _ _ _, by decide,
    renderTemplate_order_independent "G라이더" simpleContentTokens simpleFooterTokens
      scenarioFields scenarioFieldsSwapped rfl rfl rfl (List.Perm.swap _ _ _) (by decide)⟩

/-- C10: when the selected template is `custom` and `JSON.parse` rejects the custom
body, `updateMessagePreview` raises nothing: its only effect is to set the text of the
preview to the fixed prefix followed by the message of the parse failure. -/
theorem updateMessagePreview_custom_parse_failure
    (jsonParse : String → Except String JSValue)
    (timestamp nextUpdate customMessage message : String) (data : Option FieldMap)
    (h : jsonParse customMessage = .error message) :
    updateMessagePreview jsonParse timestamp nextUpdate "custom" customMessage data =
      .ok (.textContent ("JSON 형식 오류: " ++ message)) := by
  simp [updateMessagePreview, h]

/-- Witness for C10: an empty custom body under a parser that rejects it. -/
theorem updateMessagePreview_custom_parse_failure_witness :
    rejectingParser "" = .error "Unexpected end of JSON input" ∧
    updateMessagePreview rejectingParser "t" "n" "custom" "" none =
      .ok (.textContent ("JSON 형식 오류: " ++ "Unexpected end of JSON input")) :=
  ⟨rfl, updateMessagePreview_custom_parse_failure rejectingParser "t" "n" "" _ none rfl⟩

/-! ## Theorems: notifications -/

/-- Detaching an element that is not attached changes nothing. -/
theorem detach_of_not_mem (id : Nat) (attached : List Toast)
    (h : id ∉ attached.map Toast.id) : detach id attached = attached := by
  induction attached with
  | nil => rfl
  | cons t ts ih =>
    have ht : t.id ≠ id := fun heq => h (by simp [heq])
    have hts : id ∉ ts.map Toast.id := fun hm => h (by simp [List.mem_map] at hm ⊢; exact Or.inr hm)
    have ih2 := ih hts
    unfold detach at ih2 ⊢
    simp [List.filter_cons, ht, ih2]

/-- After detaching, the element is not attached. -/
theorem not_mem_detach (id : Nat) (attached : List Toast) :
    id ∉ (detach id attached).map Toast.id := by
  simp [detach, List.mem_map, List.mem_filter]

/-- Detaching keeps every element of another identity. -/
theorem mem_detach_of_ne (id : Nat) (attached : List Toast) (n : Toast)
    (hn : n ∈ attached) (hne : n.id ≠ id) : n ∈ detach id attached := by
  simp [detach, List.mem_filter, hn, hne]

/-- C16: in each of the three control-centre implementations, when at most one
notification is attached before the call, exactly one is attached after it: the new
element, carrying the message and the class `notification-<type>`; an element that was
attached before is gone. -/
theorem controlCenter_showNotification_single (message type : String)
    (st : NotificationDOM) (h : st.attached.length ≤ 1) :
    (ControlCenter.showNotification message type st).attached =
        [⟨st.nextId, "notification notification-" ++ type, message, true⟩] ∧
    (EnhancedControlCenter.showNotification message type st).attached =
        [⟨st.nextId, "notification notification-" ++ type, message, true⟩] ∧
    (ControlCenterFunctions.showNotification message type st).attached =
        [⟨st.nextId, "notification notification-" ++ type, message, true⟩] ∧
    ∀ old ∈ st.attached, old.id ≠ st.nextId →
      old ∉ (ControlCenter.showNotification message type st).attached ∧
      old ∉ (EnhancedControlCenter.showNotification message type st).attached ∧
      old ∉ (ControlCenterFunctions.showNotification message type st).attached := by
  have hdrop : st.attached.drop 1 = [] := by
    cases hst : st.attached with
    | nil => rfl
    | cons a rest =>
      cases rest with
      | nil => rfl
      | cons b rest2 => simp [hst] at h
  have key : ∀ delay, (supersedingShow delay message type st).attached =
      [⟨st.nextId, "notification notification-" ++ type, message, true⟩] := by
    intro delay
    simp [supersedingShow, hdrop]
  refine ⟨key 5000, key 3000, key 5000, ?_⟩
  intro old _ hne
  have hnot : old ∉ [(⟨st.nextId, "notification notification-" ++ type, message, true⟩ : Toast)] := by
    intro hm
    rw [List.mem_singleton] at hm
    exact hne (by rw [hm])
  refine ⟨?_, ?_, ?_⟩
  · show old ∉ (supersedingShow 5000 message type st).attached
    rw [key]; exact hnot
  · show old ∉ (supersedingShow 3000 message type st).attached
    rw [key]; exact hnot
  · show old ∉ (supersedingShow 5000 message type st).attached
    rw [key]; exact hnot

/-- Witness for C16: a second notification posted while the first is attached. -/
theorem controlCenter_showNotification_single_witness :
    (ControlCenter.showNotification "a" "info" NotificationDOM.empty).attached.length ≤ 1 ∧
    (ControlCenter.showNotification "b" "error"
        (ControlCenter.showNotification "a" "info" NotificationDOM.empty)).attached =
      [⟨1, "notification notification-" ++ "error", "b", true⟩] :=
  ⟨by decide,
    (controlCenter_showNotification_single "b" "error"
      (ControlCenter.showNotification "a" "info" NotificationDOM.empty) (by decide)).1⟩

/-- C17, as the code behaves: in both dashboards the two notifications are attached
together after the second call, and both are faded in 100 ms later. -/
theorem dashboards_showNotification_two_visible :
    (Docs.showNotification "실패" "error"
        (Docs.showNotification "저장됨" "success" NotificationDOM.empty)).attached.length = 2 ∧
    (Semi.showNotification "실패" "error"
        (Semi.showNotification "저장됨" "success" NotificationDOM.empty)).attached.length = 2 ∧
    (advance 100 (Docs.showNotification "실패" "error"
        (Docs.showNotification "저장됨" "success" NotificationDOM.empty))).attached =
      [⟨0, "notification success", "저장됨", true⟩, ⟨1, "notification error", "실패", true⟩] ∧
    (advance 100 (Semi.showNotification "실패" "error"
        (Semi.showNotification "저장됨" "success" NotificationDOM.empty))).attached =
      [⟨0, "notification success", "저장됨", true⟩, ⟨1, "notification error", "실패", true⟩] := by
  refine ⟨?_, ?_, ?_, ?_⟩ <;> decide

/-- C17, amended: in both dashboards, two notifications posted in immediate succession
on a page without notifications are both attached after the second call, the later one
last with its own message and severity; both are still attached 3299 ms later and both
are gone after 3300 ms. -/
theorem dashboards_showNotification_stack (m1 t1 m2 t2 : String) :
    (Docs.showNotification m2 t2 (Docs.showNotification m1 t1 NotificationDOM.empty)).attached =
      [⟨0, "notification " ++ t1, m1, false⟩, ⟨1, "notification " ++ t2, m2, false⟩] ∧
    (Semi.showNotification m2 t2 (Semi.showNotification m1 t1 NotificationDOM.empty)).attached =
      [⟨0, "notification " ++ t1, m1, false⟩, ⟨1, "notification " ++ t2, m2, false⟩] ∧
    (advance 3299 (Docs.showNotification m2 t2
        (Docs.showNotification m1 t1 NotificationDOM.empty))).attached.length = 2 ∧
    (advance 3299 (Semi.showNotification m2 t2
        (Semi.showNotification m1 t1 NotificationDOM.empty))).attached.length = 2 ∧
    (advance 3300 (Docs.showNotification m2 t2
        (Docs.showNotification m1 t1 NotificationDOM.empty))).attached = [] ∧
    (advance 3300 (Semi.showNotification m2 t2
        (Semi.showNotification m1 t1 NotificationDOM.empty))).attached = [] := by
  refine ⟨?_, ?_, ?_, ?_, ?_, ?_⟩ <;>
    simp [advance, runTimers, earliestDue, takeDue, fireAction, Docs.showNotification,
      Semi.showNotification, NotificationDOM.empty, setShown, detach]

/-- C18: in the control-centre implementations the expiry of the timer of a
notification that is no longer attached leaves the attached notifications as they are,
whether it was closed by its button or superseded by a later call; closing twice is
closing once; and an expiry never detaches a notification of another identity. -/
theorem expiry_after_removal_changes_nothing (st : NotificationDOM) (id : Nat) :
    (id ∉ attachedIds st → (fireAction st (.expire id)).attached = st.attached) ∧
    (fireAction (closeNotification id st) (.expire id)).attached =
      (closeNotification id st).attached ∧
    closeNotification id (closeNotification id st) = closeNotification id st ∧
    (∀ n ∈ st.attached, n.id ≠ id → n ∈ (fireAction st (.expire id)).attached) ∧
    ((attachedIds st).Nodup → (∀ i ∈ attachedIds st, i < st.nextId) →
      st.attached.head?.map Toast.id = some id →
      ∀ (delay : Nat) (message type : String),
        (fireAction (supersedingShow delay message type st) (.expire id)).attached =
          (supersedingShow delay message type st).attached) := by
  refine ⟨?_, ?_, ?_, ?_, ?_⟩
  · intro h
    exact detach_of_not_mem id st.attached h
  · exact detach_of_not_mem id _ (not_mem_detach id st.attached)
  · have := detach_of_not_mem id _ (not_mem_detach id st.attached)
    simp only [closeNotification]
    rw [this]
  · intro n hn hne
    exact mem_detach_of_ne id st.attached n hn hne
  · intro hnd hlt hhead delay message type
    apply detach_of_not_mem
    cases hst : st.attached with
    | nil => simp [hst] at hhead
    | cons a rest =>
      simp only [hst, List.head?_cons, Option.map_some', Option.some.injEq] at hhead
      have hnd2 : (a.id :: rest.map Toast.id).Nodup := by
        simpa [attachedIds, hst] using hnd
      have hnotin : id ∉ rest.map Toast.id := hhead ▸ (List.nodup_cons.1 hnd2).1
      have hlt2 : id < st.nextId := hlt id (by simp [attachedIds, hst, hhead])
      simp only [supersedingShow, hst, List.drop_succ_cons, List.drop_zero, List.map_append,
        List.map_cons, List.map_nil, List.mem_append, List.mem_singleton, not_or]
      exact ⟨hnotin, Nat.ne_of_lt hlt2⟩

/-- Witness for C18: the first notification is superseded after one second; the expiry
of its timer at five seconds leaves the second one attached. -/
theorem expiry_after_removal_changes_nothing_witness :
    (attachedIds (ControlCenter.showNotification "a" "info" NotificationDOM.empty)).Nodup ∧
    (fireAction
        (supersedingShow 5000 "b" "error"
          (ControlCenter.showNotification "a" "info" NotificationDOM.empty))
        (.expire 0)).attached =
      (supersedingShow 5000 "b" "error"
        (ControlCenter.showNotification "a" "info" NotificationDOM.empty)).attached ∧
    (advance 4000 (ControlCenter.showNotification "b" "error"
        (advance 1000 (ControlCenter.showNotification "a" "info"
          NotificationDOM.empty)))).attached =
      [⟨1, "notification notification-error", "b", true⟩] :=
  ⟨by decide,
    (expiry_after_removal_changes_nothing
      (ControlCenter.showNotification "a" "info" NotificationDOM.empty) 0).2.2.2.2
      (by decide) (by decide) (by decide) 5000 "b" "error",
    by decide⟩

/-! ## Lemmas: the JSON text of the settings -/

/-- A hexadecimal digit reads back as its value. -/
theorem hexValue_hexDigit : ∀ k, k < 16 → hexValue (hexDigit k) = some k := by
  decide

/-- A character is determined by its code. -/
theorem char_eq_of_toNat (c : Char) (n : Nat) (h : c.toNat = n) : c = Char.ofNat n := by
  rw [← h, Char.ofNat_toNat]

/-- Reading a short escape gives the character it stands for. -/
theorem parseStringBody_escape (e ch : Char) (tail s r : List Char)
    (he : e ≠ 'u') (hu : unescapeChar e = some ch)
    (h : parseStringBody tail = .ok (s, r)) :
    parseStringBody (backslash :: e :: tail) = .ok (ch :: s, r) := by
  have h1 : backslash ≠ doubleQuote := by decide
  rw [parseStringBody.eq_def]
  simp [h1, he, hu, h]

/-- Reading the escape of a control character gives the character back. -/
theorem parseStringBody_unicode (n : Nat) (hn : n < 32) (tail s r : List Char)
    (h : parseStringBody tail = .ok (s, r)) :
    parseStringBody
        (backslash :: 'u' :: '0' :: '0' :: hexDigit (n / 16) :: hexDigit (n % 16) :: tail) =
      .ok (Char.ofNat n :: s, r) := by
  have h1 : backslash ≠ doubleQuote := by decide
  have h0 : hexValue '0' = some 0 := by decide
  have ha := hexValue_hexDigit (n / 16) (by omega)
  have hb := hexValue_hexDigit (n % 16) (by omega)
  rw [parseStringBody.eq_def]
  simp only [h1, if_false, if_true, h0, ha, hb, h]
  have hcode : ((0 * 16 + 0) * 16 + n / 16) * 16 + n % 16 = n := by omega
  rw [hcode]
  have hs : ¬ (55296 ≤ n ∧ n < 57344) := by omega
  simp [hs]

/-- Reading one quoted character gives the character back. -/
theorem parseStringBody_quoteChar (c : Char) (tail s r : List Char)
    (h : parseStringBody tail = .ok (s, r)) :
    parseStringBody (quoteChar c ++ tail) = .ok (c :: s, r) := by
  unfold quoteChar
  by_cases h8 : c.toNat = 8
  · have hc := char_eq_of_toNat c 8 h8
    subst hc
    exact parseStringBody_escape 'b' _ tail s r (by decide) (by decide) h
  by_cases h9 : c.toNat = 9
  · have hc := char_eq_of_toNat c 9 h9
    subst hc
    exact parseStringBody_escape 't' _ tail s r (by decide) (by decide) h
  by_cases h10 : c.toNat = 10
  · have hc := char_eq_of_toNat c 10 h10
    subst hc
    exact parseStringBody_escape 'n' _ tail s r (by decide) (by decide) h
  by_cases h12 : c.toNat = 12
  · have hc := char_eq_of_toNat c 12 h12
    subst hc
    exact parseStringBody_escape 'f' _ tail s r (by decide) (by decide) h
  by_cases h13 : c.toNat = 13
  · have hc := char_eq_of_toNat c 13 h13
    subst hc
    exact parseStringBody_escape 'r' _ tail s r (by decide) (by decide) h
  by_cases hq : c = doubleQuote
  · subst hq
    exact parseStringBody_escape doubleQuote _ tail s r (by decide) (by decide) h
  by_cases hb : c = backslash
  · subst hb
    exact parseStringBody_escape backslash _ tail s r (by decide) (by decide) h
  by_cases hlt : c.toNat < 32
  · simp only [h8, h9, h10, h12, h13, hq, hb, hlt, if_false, if_true]
    have := parseStringBody_unicode c.toNat hlt tail s r h
    rw [Char.ofNat_toNat] at this
    exact this
  · simp only [h8, h9, h10, h12, h13, hq, hb, hlt, if_false]
    rw [List.singleton_append, parseStringBody.eq_def]
    simp [hq, hb, hlt, h]

/-- Reading a quoted string body up to its closing quote gives the string back. -/
theorem parseStringBody_quoteBody (cs rest : List Char) :
    parseStringBody (quoteBody cs ++ doubleQuote :: rest) = .ok (cs, rest) := by
  induction cs with
  | nil =>
    rw [quoteBody, List.nil_append, parseStringBody.eq_def]
    simp
  | cons c cs ih =>
    simp only [quoteBody, List.append_assoc]
    exact parseStringBody_quoteChar c _ cs rest ih

/-- White space is skipped only where there is some. -/
theorem skipWhitespace_cons (c : Char) (cs : List Char) (h : isJSONWhitespace c = false) :
    skipWhitespace (c :: cs) = c :: cs := by
  simp [skipWhitespace, h]

/-- A quoted string parses to the string. -/
theorem parseValue_string (f : Nat) (s rest : List Char) :
    parseValue (f + 1) (quoteJSONString s ++ rest) = .ok (.prim (.string ⟨s⟩), rest) := by
  have hws : isJSONWhitespace doubleQuote = false := by decide
  rw [parseValue]
  simp only [quoteJSONString, List.cons_append, List.append_assoc, List.singleton_append,
    skipWhitespace_cons _ _ hws, parseStringBody_quoteBody, if_true, List.nil_append]

/-- The text of a boolean parses to the boolean. -/
theorem parseValue_bool (f : Nat) (b : Bool) (rest : List Char) :
    parseValue (f + 1) ((if b then "true".data else "false".data) ++ rest) =
      .ok (.prim (.bool b), rest) := by
  cases b
  · have hws : isJSONWhitespace 'f' = false := by decide
    have h1 : ('f' : Char) ≠ doubleQuote := by decide
    have h2 : ('f' : Char) ≠ lbrace := by decide
    have h3 : ('f' : Char) ≠ '[' := by decide
    have h4 : ('f' : Char) ≠ '-' := by decide
    have h5 : ('f' : Char).isDigit = false := by decide
    have h6 : ¬ ("true".data <+: 'f' :: 'a' :: 'l' :: 's' :: 'e' :: rest) := by
      intro h
      have := List.cons_prefix_cons.1 h
      exact absurd this.1 (by decide)
    have h7 : "false".data <+: 'f' :: 'a' :: 'l' :: 's' :: 'e' :: rest :=
      ⟨rest, rfl⟩
    show parseValue (f + 1) ('f' :: 'a' :: 'l' :: 's' :: 'e' :: rest) = _
    rw [parseValue, skipWhitespace_cons _ _ hws]
    simp only [h1, h2, h3, h4, h5, h6, h7, if_false, if_true, Bool.false_eq_true]
    rfl
  · have hws : isJSONWhitespace 't' = false := by decide
    have h1 : ('t' : Char) ≠ doubleQuote := by decide
    have h2 : ('t' : Char) ≠ lbrace := by decide
    have h3 : ('t' : Char) ≠ '[' := by decide
    have h4 : ('t' : Char) ≠ '-' := by decide
    have h5 : ('t' : Char).isDigit = false := by decide
    have h7 : "true".data <+: 't' :: 'r' :: 'u' :: 'e' :: rest :=
      ⟨rest, rfl⟩
    show parseValue (f + 1) ('t' :: 'r' :: 'u' :: 'e' :: rest) = _
    rw [parseValue, skipWhitespace_cons _ _ hws]
    simp only [h1, h2, h3, h4, h5, h7, if_false, if_true, Bool.false_eq_true]
    rfl

/-- One member followed by a comma: the property is defined and the next member is
read. -/
theorem parseMembers_comma (f : Nat) (acc : List (String × JSValue)) (k vt rest : List Char)
    (v : JSValue) (hv : parseValue f (vt ++ ',' :: rest) = .ok (v, ',' :: rest)) :
    parseMembers (f + 1) acc (quoteJSONString k ++ ':' :: (vt ++ ',' :: rest)) =
      parseMembers f (defineProperty acc ⟨k⟩ v) rest := by
  have hq : isJSONWhitespace doubleQuote = false := by decide
  have hc : isJSONWhitespace ':' = false := by decide
  have hs : isJSONWhitespace ',' = false := by decide
  rw [parseMembers]
  simp only [quoteJSONString, List.cons_append, List.append_assoc, List.singleton_append,
    skipWhitespace_cons _ _ hq, parseStringBody_quoteBody, if_true,
    List.nil_append, skipWhitespace_cons _ _ hc, hv, skipWhitespace_cons _ _ hs]

/-- The last member, followed by the closing brace: the object is complete. -/
theorem parseMembers_last (f : Nat) (acc : List (String × JSValue)) (k vt rest : List Char)
    (v : JSValue) (hv : parseValue f (vt ++ rbrace :: rest) = .ok (v, rbrace :: rest)) :
    parseMembers (f + 1) acc (quoteJSONString k ++ ':' :: (vt ++ rbrace :: rest)) =
      .ok (.object (defineProperty acc ⟨k⟩ v), rest) := by
  have hq : isJSONWhitespace doubleQuote = false := by decide
  have hc : isJSONWhitespace ':' = false := by decide
  have hs : isJSONWhitespace rbrace = false := by decide
  have hne : rbrace ≠ ',' := by decide
  rw [parseMembers]
  simp only [quoteJSONString, List.cons_append, List.append_assoc, List.singleton_append,
    skipWhitespace_cons _ _ hq, parseStringBody_quoteBody, if_true,
    List.nil_append, skipWhitespace_cons _ _ hc, hv, skipWhitespace_cons _ _ hs, hne,
    if_false]

/-- The text of the settings object is what `JSON.stringify` gives for it. -/
theorem jsonStringify_settingsObject (c : FormControls) :
    jsonStringify (settingsObject c) = .ok (some (settingsText c)) := by
  obtain ⟨t, b1, b2, b3, cm, opts⟩ := c
  cases b1 <;> cases b2 <;> cases b3 <;>
    simp [settingsObject, settingsText, jsonStringify, stringifyMembers, joinComma, boolText]

/-- The text of the settings object parses to the settings object. -/
theorem parseValue_settingsText (c : FormControls) (f : Nat) :
    parseValue (f + 7) (settingsText c) = .ok (settingsObject c, []) := by
  have hb : isJSONWhitespace lbrace = false := by decide
  have hq : isJSONWhitespace doubleQuote = false := by decide
  have h1 : lbrace ≠ doubleQuote := by decide
  have h2 : doubleQuote ≠ rbrace := by decide
  have hstring : ∀ (g : Nat) (s : List Char) (sep : Char) (rest : List Char),
      parseValue (g + 1) (quoteJSONString s ++ sep :: rest) =
        .ok (.prim (.string ⟨s⟩), sep :: rest) :=
    fun g s sep rest => parseValue_string g s (sep :: rest)
  have hbool : ∀ (g : Nat) (b : Bool) (sep : Char) (rest : List Char),
      parseValue (g + 1) (boolText b ++ sep :: rest) = .ok (.prim (.bool b), sep :: rest) :=
    fun g b sep rest => parseValue_bool g b (sep :: rest)
  unfold settingsText
  rw [show f + 7 = (f + 6) + 1 from rfl, parseValue, skipWhitespace_cons _ _ hb]
  simp only [h1, if_false, if_true]
  rw [show quoteJSONString "template".data ++ _ = doubleQuote :: _ from rfl,
    skipWhitespace_cons _ _ hq]
  simp only [h2, if_false]
  rw [show (doubleQuote :: _ : List Char) = quoteJSONString "template".data ++ _ from rfl]
  rw [show f + 6 = (f + 5) + 1 from rfl, parseMembers_comma _ _ _ _ _ _ (hstring _ _ _ _)]
  rw [show f + 5 = (f + 4) + 1 from rfl, parseMembers_comma _ _ _ _ _ _ (hbool _ _ _ _)]
  rw [show f + 4 = (f + 3) + 1 from rfl, parseMembers_comma _ _ _ _ _ _ (hbool _ _ _ _)]
  rw [show f + 3 = (f + 2) + 1 from rfl, parseMembers_comma _ _ _ _ _ _ (hbool _ _ _ _)]
  rw [show quoteJSONString c.customMessage.data ++ [rbrace] =
    quoteJSONString c.customMessage.data ++ rbrace :: [] from rfl]
  rw [show f + 2 = (f + 1) + 1 from rfl, parseMembers_last _ _ _ _ _ _ (hstring _ _ _ _)]
  rfl

/-- Round trip of the settings object through its JSON text. -/
theorem jsonParse_settingsText (c : FormControls) :
    jsonParse ⟨settingsText c⟩ = .ok (settingsObject c) := by
  have hlen : (String.mk (settingsText c)).length + 1 =
      ((settingsText c).length - 6) + 7 := by
    have : 6 ≤ (settingsText c).length := by
      simp [settingsText, quoteJSONString]
      omega
    show (settingsText c).length + 1 = _
    omega
  unfold jsonParse
  rw [hlen, show (String.mk (settingsText c)).data = settingsText c from rfl,
    parseValue_settingsText]
  rfl

/-! ## Theorems: message settings -/

set_option maxRecDepth 100000 in
/-- C11, as the code behaves: with the template `custom`, a custom body that is valid
JSON but not a template record (an empty object, `null`, a bare string) is not reported
in the preview: `updateMessagePreview` raises `TypeError`. -/
theorem updateMessagePreview_custom_wrong_shape_raises :
    updateMessagePreview (parseOrMessage "Unexpected token") "t" "n" "custom" "\x7b\x7d" none =
      .error .typeError ∧
    updateMessagePreview (parseOrMessage "Unexpected token") "t" "n" "custom" "null" none =
      .error .typeError ∧
    updateMessagePreview (parseOrMessage "Unexpected token") "t" "n" "custom" "\"hello\"" none =
      .error .typeError := by
  refine ⟨?_, ?_, ?_⟩ <;> rfl

/-- The settings object is truthy. -/
theorem truthy_settingsObject (c : FormControls) : truthy (settingsObject c) = true := rfl

/-- Writing the settings object to the slot. -/
theorem storeSettings_settingsObject (page : SettingsPage) (c : FormControls)
    (h : page.messageSettings = settingsObject c) :
    storeSettings page =
      if page.storageWritable then
        ⟨{ page with storage := some ⟨settingsText c⟩ }, none⟩
      else ⟨page, some .storageError⟩ := by
  unfold storeSettings
  rw [h, jsonStringify_settingsObject]

/-- What `saveMessageSettings` leaves behind when the storage accepts the write. -/
theorem saveMessageSettingsWith_writable
    (showNotification : String → String → NotificationDOM → NotificationDOM)
    (page : SettingsPage) (hw : page.storageWritable = true) :
    saveMessageSettingsWith showNotification page =
      ⟨{ page with
          messageSettings := settingsObject page.controls,
          storage := some ⟨settingsText page.controls⟩,
          toasts := showNotification "메시지 설정이 저장되었습니다." "success" page.toasts },
        none⟩ := by
  unfold saveMessageSettingsWith
  rw [storeSettings_settingsObject _ page.controls rfl]
  simp [hw]

/-- What `saveMessageSettings` leaves behind when the storage refuses the write. -/
theorem saveMessageSettingsWith_refused
    (showNotification : String → String → NotificationDOM → NotificationDOM)
    (page : SettingsPage) (hw : page.storageWritable = false) :
    saveMessageSettingsWith showNotification page =
      ⟨{ page with messageSettings := settingsObject page.controls }, some .storageError⟩ := by
  unfold saveMessageSettingsWith
  rw [storeSettings_settingsObject _ page.controls rfl]
  simp [hw]

/-- Loading a slot that holds the text of a settings object. -/
theorem loadMessageSettings_settingsText (page : SettingsPage) (c : FormControls)
    (h : page.storage = some ⟨settingsText c⟩) :
    (loadMessageSettings page).raised = none ∧
    (loadMessageSettings page).state.messageSettings = settingsObject c := by
  have hne : (String.mk (settingsText c)) ≠ "" := by
    intro heq
    have := congrArg String.data heq
    simp [settingsText] at this
  unfold loadMessageSettings
  rw [h]
  simp only [hne, if_false, jsonParse_settingsText]
  unfold applySettingsToControls
  simp [settingsObject, templateField, lookupProperty, JSValue.toJSString,
    JSPrim.toJSString, truthy]
  split <;> simp

/-- Loading never writes the slot. -/
theorem loadMessageSettings_storage (page : SettingsPage) :
    (loadMessageSettings page).state.storage = page.storage := by
  unfold loadMessageSettings
  split
  · rfl
  · split
    · rfl
    · split
      · rfl
      · unfold applySettingsToControls
        simp only
        split
        · rfl
        · split
          · rfl
          · split
            · split <;> rfl
            · rfl

/-- C12: in both dashboards, when the storage accepts the write, `saveMessageSettings`
raises nothing and leaves in memory and in the slot the settings of the form. A
following `loadMessageSettings` reads them back from the slot: on the same page, and on
every page `reloaded` whose slot is the one that was written, whatever its own settings
in memory were, it raises nothing and leaves in memory the saved template, the three
saved booleans and the saved custom body, field by field, with the slot unchanged. -/
theorem save_then_load_round_trip (page : SettingsPage) (hw : page.storageWritable = true) :
    ((Docs.saveMessageSettings page).raised = none ∧
      (Docs.saveMessageSettings page).state.messageSettings = settingsObject page.controls ∧
      (loadMessageSettings (Docs.saveMessageSettings page).state).raised = none ∧
      (loadMessageSettings (Docs.saveMessageSettings page).state).state.messageSettings =
        settingsObject page.controls) ∧
    ((Semi.saveMessageSettings page).raised = none ∧
      (Semi.saveMessageSettings page).state.messageSettings = settingsObject page.controls ∧
      (loadMessageSettings (Semi.saveMessageSettings page).state).raised = none ∧
      (loadMessageSettings (Semi.saveMessageSettings page).state).state.messageSettings =
        settingsObject page.controls) ∧
    (∀ reloaded : SettingsPage,
      (reloaded.storage = (Docs.saveMessageSettings page).state.storage ∨
        reloaded.storage = (Semi.saveMessageSettings page).state.storage) →
      (loadMessageSettings reloaded).raised = none ∧
      (loadMessageSettings reloaded).state.storage = reloaded.storage ∧
      (loadMessageSettings reloaded).state.messageSettings =
        .object [("template", .prim (.string page.controls.template)),
          ("sendOnChange", .prim (.bool page.controls.sendOnChange)),
          ("sendOnSchedule", .prim (.bool page.controls.sendOnSchedule)),
          ("sendOnAlert", .prim (.bool page.controls.sendOnAlert)),
          ("customMessage", .prim (.string page.controls.customMessage))]) := by
  have hdocs := saveMessageSettingsWith_writable Docs.showNotification page hw
  have hsemi := saveMessageSettingsWith_writable Semi.showNotification page hw
  have hslot1 : (Docs.saveMessageSettings page).state.storage =
      some ⟨settingsText page.controls⟩ := by
    unfold Docs.saveMessageSettings
    rw [hdocs]
  have hslot2 : (Semi.saveMessageSettings page).state.storage =
      some ⟨settingsText page.controls⟩ := by
    unfold Semi.saveMessageSettings
    rw [hsemi]
  refine ⟨?_, ?_, ?_⟩
  · have hl := loadMessageSettings_settingsText (Docs.saveMessageSettings page).state
      page.controls hslot1
    exact ⟨by unfold Docs.saveMessageSettings; rw [hdocs],
      by unfold Docs.saveMessageSettings; rw [hdocs], hl.1, hl.2⟩
  · have hl := loadMessageSettings_settingsText (Semi.saveMessageSettings page).state
      page.controls hslot2
    exact ⟨by unfold Semi.saveMessageSettings; rw [hsemi],
      by unfold Semi.saveMessageSettings; rw [hsemi], hl.1, hl.2⟩
  · intro reloaded hslot
    have hstored : reloaded.storage = some ⟨settingsText page.controls⟩ := by
      rcases hslot with h | h
      · rw [h, hslot1]
      · rw [h, hslot2]
    have hl := loadMessageSettings_settingsText reloaded page.controls hstored
    exact ⟨hl.1, loadMessageSettings_storage reloaded, hl.2⟩

/-- Witness for C12: a custom body with quotes, braces and a line break is saved, the
page is loaded again with the default settings in memory and the written slot, and
`loadMessageSettings` reads the saved settings back. -/
theorem save_then_load_round_trip_witness :
    (startupPage none true).storageWritable = true ∧
    (startupPage (Docs.saveMessageSettings (startupPage none true)).state.storage
      true).messageSettings = defaultMessageSettings ∧
    (loadMessageSettings
      (startupPage (Docs.saveMessageSettings (startupPage none true)).state.storage
        true)).state.messageSettings =
      .object [("template", .prim (.string "custom")),
        ("sendOnChange", .prim (.bool false)),
        ("sendOnSchedule", .prim (.bool true)),
        ("sendOnAlert", .prim (.bool true)),
        ("customMessage", .prim (.string "\x7b\"title\": \"알림\"\x7d\n"))] :=
  ⟨rfl, rfl,
    ((save_then_load_round_trip (startupPage none true) rfl).2.2
      (startupPage (Docs.saveMessageSettings (startupPage none true)).state.storage true)
      (Or.inl rfl)).2.2⟩

/-- C13, as the code behaves: at startup, with a stored text that is not JSON,
`loadMessageSettings` raises the `SyntaxError` of `JSON.parse`. -/
theorem loadMessageSettings_bad_slot_raises :
    (loadMessageSettings (startupPage (some "not json") true)).raised = some .syntaxError := by
  rfl

/-- C13, amended: when the global holds the default settings, `loadMessageSettings`
leaves them in place in each of these cases. With no stored value it raises nothing and
changes nothing; with a stored text that `JSON.parse` rejects it changes nothing either,
and the exception of `JSON.parse` is raised to the caller. -/
theorem loadMessageSettings_keeps_default (page : SettingsPage)
    (hdefault : page.messageSettings = defaultMessageSettings) :
    (page.storage = none →
      loadMessageSettings page = ⟨page, none⟩ ∧
      (loadMessageSettings page).state.messageSettings = defaultMessageSettings) ∧
    (∀ (saved : String) (e : JSError), page.storage = some saved → saved ≠ "" →
      jsonParse saved = .error e →
      loadMessageSettings page = ⟨page, some e⟩ ∧
      (loadMessageSettings page).state.messageSettings = defaultMessageSettings) := by
  constructor
  · intro hnone
    have h : loadMessageSettings page = ⟨page, none⟩ := by
      unfold loadMessageSettings
      rw [hnone]
    exact ⟨h, by rw [h]; exact hdefault⟩
  · intro saved e hsome hne hparse
    have h : loadMessageSettings page = ⟨page, some e⟩ := by
      unfold loadMessageSettings
      rw [hsome]
      simp only [hne, if_false, hparse]
    exact ⟨h, by rw [h]; exact hdefault⟩

/-- Witness for C13: a page without a stored value, and a page whose stored text is not
JSON. -/
theorem loadMessageSettings_keeps_default_witness :
    (startupPage none true).messageSettings = defaultMessageSettings ∧
    (startupPage none true).storage = none ∧
    loadMessageSettings (startupPage none true) = ⟨startupPage none true, none⟩ ∧
    jsonParse "not json" = .error .syntaxError ∧
    loadMessageSettings (startupPage (some "not json") true) =
      ⟨startupPage (some "not json") true, some .syntaxError⟩ :=
  ⟨rfl, rfl,
    ((loadMessageSettings_keeps_default (startupPage none true) rfl).1 rfl).1,
    rfl,
    ((loadMessageSettings_keeps_default (startupPage (some "not json") true) rfl).2
      "not json" .syntaxError rfl (by decide) rfl).1⟩

/-- C14: in both dashboards the `beforeunload` handler right after `saveMessageSettings`
leaves the storage slot and the global as `saveMessageSettings` left them, whether the
storage accepts writes or not. -/
theorem beforeUnload_after_save_idempotent (page : SettingsPage) :
    ((beforeUnload (Docs.saveMessageSettings page).state).state.storage =
        (Docs.saveMessageSettings page).state.storage ∧
      (beforeUnload (Docs.saveMessageSettings page).state).state.messageSettings =
        (Docs.saveMessageSettings page).state.messageSettings) ∧
    ((beforeUnload (Semi.saveMessageSettings page).state).state.storage =
        (Semi.saveMessageSettings page).state.storage ∧
      (beforeUnload (Semi.saveMessageSettings page).state).state.messageSettings =
        (Semi.saveMessageSettings page).state.messageSettings) := by
  have key : ∀ showNotification : String → String → NotificationDOM → NotificationDOM,
      (beforeUnload (saveMessageSettingsWith showNotification page).state).state.storage =
        (saveMessageSettingsWith showNotification page).state.storage ∧
      (beforeUnload (saveMessageSettingsWith showNotification page).state).state.messageSettings =
        (saveMessageSettingsWith showNotification page).state.messageSettings := by
    intro showNotification
    cases hw : page.storageWritable with
    | true =>
      rw [saveMessageSettingsWith_writable showNotification page hw]
      unfold beforeUnload
      simp only [truthy_settingsObject, if_true]
      rw [storeSettings_settingsObject _ page.controls rfl]
      simp [hw]
    | false =>
      rw [saveMessageSettingsWith_refused showNotification page hw]
      unfold beforeUnload
      simp only [truthy_settingsObject, if_true]
      rw [storeSettings_settingsObject _ page.controls rfl]
      simp [hw]
  exact ⟨key Docs.showNotification, key Semi.showNotification⟩

/-- C15, as the code behaves: when the storage refuses the write, `saveMessageSettings`
raises the storage exception and posts no notification. -/
theorem saveMessageSettings_refused_raises :
    (Docs.saveMessageSettings (startupPage none false)).raised = some .storageError ∧
    (Docs.saveMessageSettings (startupPage none false)).state.toasts.attached = [] ∧
    (Semi.saveMessageSettings (startupPage none false)).raised = some .storageError ∧
    (Semi.saveMessageSettings (startupPage none false)).state.toasts.attached = [] := by
  have hd := saveMessageSettingsWith_refused Docs.showNotification (startupPage none false) rfl
  have hs := saveMessageSettingsWith_refused Semi.showNotification (startupPage none false) rfl
  unfold Docs.saveMessageSettings Semi.saveMessageSettings
  rw [hd, hs]
  exact ⟨rfl, rfl, rfl, rfl⟩

/-- C15, amended: in both dashboards, when the storage refuses the write,
`saveMessageSettings` keeps the newly applied settings in memory; the storage exception
is raised to the caller, the slot keeps its content and no notification is posted. -/
theorem saveMessageSettings_refused_keeps_settings (page : SettingsPage)
    (hw : page.storageWritable = false) :
    Docs.saveMessageSettings page =
      ⟨{ page with messageSettings := settingsObject page.controls }, some .storageError⟩ ∧
    Semi.saveMessageSettings page =
      ⟨{ page with messageSettings := settingsObject page.controls }, some .storageError⟩ :=
  ⟨saveMessageSettingsWith_refused Docs.showNotification page hw,
    saveMessageSettingsWith_refused Semi.showNotification page hw⟩

/-- Witness for C15: a page whose storage refuses writes. -/
theorem saveMessageSettings_refused_keeps_settings_witness :
    (startupPage none false).storageWritable = false ∧
    (Docs.saveMessageSettings (startupPage none false)).state.messageSettings =
      settingsObject sampleControls ∧
    (Docs.saveMessageSettings (startupPage none false)).state.storage = none :=
  ⟨rfl,
    by rw [(saveMessageSettings_refused_keeps_settings (startupPage none false) rfl).1]; rfl,
    by rw [(saveMessageSettings_refused_keeps_settings (startupPage none false) rfl).1]; rfl⟩

/-! ## Theorems: the refresh cycle of the semi-automatic dashboard -/

theorem toJSString_of_hasStringForm (v : JSValue) (h : hasStringForm v = true) :
    ∃ text, v.toJSString = .ok text := by
  unfold hasStringForm at h
  cases hv : v.toJSString with
  | ok text => exact ⟨text, rfl⟩
  | error e => rw [hv] at h; cases h

theorem riderElements_covered (riders : List Rider)
    (h : ∀ r ∈ riders, hasStringForm (.prim r.name) = true ∧
      hasStringForm (.prim r.completed) = true ∧ hasStringForm (.prim r.acceptance) = true) :
    ∃ elements, riderElements riders = .ok elements := by
  induction riders with
  | nil => exact ⟨[], rfl⟩
  | cons r rest ih =>
    obtain ⟨hn, hc, ha⟩ := h r (List.mem_cons_self _ _)
    obtain ⟨n, hn⟩ := toJSString_of_hasStringForm _ hn
    obtain ⟨c, hc⟩ := toJSString_of_hasStringForm _ hc
    obtain ⟨a, ha⟩ := toJSString_of_hasStringForm _ ha
    obtain ⟨es, hes⟩ := ih (fun r hr => h r (List.mem_cons_of_mem _ hr))
    simp only [JSValue.toJSString] at hn hc ha
    simp only [riderElements, riderElement, hn, hc, ha, hes]
    exact ⟨_, rfl⟩

theorem semi_updateDashboard_covered (platform : Platform) (data : SemiSnapshot)
    (page : SemiPage) (h : data.covered = true) :
    ∃ rendered, Semi.updateDashboard platform data page = .ok rendered := by
  simp only [SemiSnapshot.covered, Bool.and_eq_true, List.all_eq_true] at h
  obtain ⟨⟨⟨hs, hc⟩, hr⟩, hriders⟩ := h
  obtain ⟨s, hs⟩ := toJSString_of_hasStringForm _ hs
  obtain ⟨c, hc⟩ := toJSString_of_hasStringForm _ hc
  obtain ⟨a, hr⟩ := toJSString_of_hasStringForm _ hr
  simp only [JSValue.toJSString] at hs hc hr
  obtain ⟨es, hes⟩ := riderElements_covered (activeRidersOf platform (data.riders.getD []))
    (fun r hr => by
      have hmem : r ∈ data.riders.getD [] := by
        unfold activeRidersOf at hr
        exact (List.mem_filter.mp hr).1
      have := hriders r hmem
      simpa [Bool.and_eq_true, and_assoc] using this)
  simp only [Semi.updateDashboard, hs, hc, hr, hes]
  exact ⟨_, rfl⟩

theorem semi_updateSystemStatus_online (platform : Platform) (lastUpdated message : JSPrim)
    (page : SemiPage) :
    Semi.updateSystemStatus platform "online" lastUpdated message page =
      .ok { page with
        indicatorClass := "status-indicator online",
        statusText :=
          "실시간 연결 (" ++ platform.dateToLocaleString (.prim lastUpdated) ++ " 기준)" } := by
  simp only [Semi.updateSystemStatus, if_true]
  rfl

theorem semi_refreshData_ok (platform : Platform) (data : SemiSnapshot) (page : SemiPage)
    (herror : truthy (.prim data.error) = false) (h : data.covered = true) :
    ∃ after, Semi.refreshData platform (some data) page = .ok after ∧
      after.indicatorClass = "status-indicator online" := by
  obtain ⟨rendered, hr⟩ := semi_updateDashboard_covered platform data page h
  have hs := semi_updateSystemStatus_online platform data.last_updated .undefined rendered
  refine ⟨{ rendered with
    indicatorClass := "status-indicator online",
    statusText :=
      "실시간 연결 (" ++ platform.dateToLocaleString (.prim data.last_updated) ++ " 기준)" },
    ?_, rfl⟩
  simp only [Semi.refreshData, herror, hr]
  exact hs

theorem semi_updateSystemStatus_error (platform : Platform) (reason : JSPrim) (text : String)
    (page : SemiPage) (htext : textContentOf reason = .ok text) :
    ∃ shownText, Semi.updateSystemStatus platform "error" .null reason page =
      .ok { page with indicatorClass := "status-indicator error", statusText := shownText } := by
  have hform : ∃ t, (if reason = .undefined then JSPrim.string "데이터 수신 중단"
      else reason).toJSString = .ok t := by
    by_cases hu : reason = .undefined
    · exact ⟨_, by rw [if_pos hu]; rfl⟩
    · rw [if_neg hu]
      cases reason with
      | undefined => exact absurd rfl hu
      | null => exact ⟨_, rfl⟩
      | bool b => exact ⟨text, htext⟩
      | number n => exact ⟨text, htext⟩
      | fraction t => exact ⟨text, htext⟩
      | string s => exact ⟨text, htext⟩
  obtain ⟨t, ht⟩ := hform
  refine ⟨"오류: " ++ t, ?_⟩
  simp only [Semi.updateSystemStatus]
  simp only [ht, if_true]
  rfl

theorem semi_refreshData_none (platform : Platform) (page : SemiPage) :
    ∃ shownText, Semi.refreshData platform none page =
      .ok { page with
        indicatorClass := "status-indicator error", statusText := shownText,
        toasts := Semi.showNotification "데이터 파일을 찾을 수 없습니다." "error" page.toasts } := by
  obtain ⟨shownText, hs⟩ := semi_updateSystemStatus_error platform
    (.string "데이터 파일을 찾을 수 없습니다.") _ page rfl
  refine ⟨shownText, ?_⟩
  simp only [Semi.refreshData, hs]
  rfl

theorem semi_refreshData_error_tagged (platform : Platform) (data : SemiSnapshot)
    (text : String) (page : SemiPage) (herror : truthy (.prim data.error) = true)
    (htext : textContentOf data.error_reason = .ok text) :
    ∃ shownText, Semi.refreshData platform (some data) page =
      .ok { page with
        indicatorClass := "status-indicator error", statusText := shownText,
        toasts := Semi.showNotification text "error" page.toasts } := by
  obtain ⟨shownText, hs⟩ := semi_updateSystemStatus_error platform data.error_reason text page
    htext
  refine ⟨shownText, ?_⟩
  simp only [Semi.refreshData, herror, hs, htext, if_true]

/-- C19: in the semi-automatic dashboard, when `fetchLatestData` returned `null`, and when
it returned a snapshot tagged with an error whose reason has the text `text`,
`refreshData` sets the class of the status indicator to `status-indicator error`, posts
an error notification with the fixed missing-data message, respectively with `text`,
and leaves the shown score, completed count, acceptance rate, active-rider count and
rider list as they were; a following `refreshData` with a snapshot that is not tagged
with an error sets the class of the indicator to `status-indicator online`. -/
theorem semi_refreshData_failed_then_online (platform : Platform) (page : SemiPage)
    (fetched : Option SemiSnapshot) (text : String)
    (hfailed : (fetched = none ∧ text = "데이터 파일을 찾을 수 없습니다.") ∨
      ∃ data, fetched = some data ∧ truthy (.prim data.error) = true ∧
        textContentOf data.error_reason = .ok text) :
    ∃ failed, Semi.refreshData platform fetched page = .ok failed ∧
      failed.indicatorClass = "status-indicator error" ∧
      failed.toasts = Semi.showNotification text "error" page.toasts ∧
      failed.totalScore = page.totalScore ∧ failed.totalCompleted = page.totalCompleted ∧
      failed.acceptanceRate = page.acceptanceRate ∧ failed.activeRiders = page.activeRiders ∧
      failed.riderList = page.riderList ∧
      ∀ next : SemiSnapshot, truthy (.prim next.error) = false → next.covered = true →
        ∃ after, Semi.refreshData platform (some next) failed = .ok after ∧
          after.indicatorClass = "status-indicator online" := by
  rcases hfailed with ⟨hnone, htext⟩ | ⟨data, hsome, herror, htext⟩
  · subst hnone htext
    obtain ⟨shownText, hs⟩ := semi_refreshData_none platform page
    exact ⟨_, hs, rfl, rfl, rfl, rfl, rfl, rfl, rfl,
      fun next hnext hcovered => semi_refreshData_ok platform next _ hnext hcovered⟩
  · subst hsome
    obtain ⟨shownText, hs⟩ := semi_refreshData_error_tagged platform data text page herror htext
    exact ⟨_, hs, rfl, rfl, rfl, rfl, rfl, rfl, rfl,
      fun next hnext hcovered => semi_refreshData_ok platform next _ hnext hcovered⟩

/-- The failure and the recovery of C19 on the sample page: the snapshot tagged with an
error posts its reason and keeps the page, the ok snapshot that follows brings the
indicator back. -/
theorem semi_refreshData_failed_then_online_witness :
    ∃ failed after,
      Semi.refreshData samplePlatform (some sampleErrorSnapshot) sampleSemiPage = .ok failed ∧
      failed.indicatorClass = "status-indicator error" ∧
      failed.toasts = Semi.showNotification "크롤링 실패" "error" sampleSemiPage.toasts ∧
      failed.totalScore = "812" ∧ failed.riderList = sampleSemiPage.riderList ∧
      Semi.refreshData samplePlatform (some sampleOkSnapshot) failed = .ok after ∧
      after.indicatorClass = "status-indicator online" := by
  obtain ⟨failed, h1, h2, h3, h4, _, _, _, h8, hnext⟩ :=
    semi_refreshData_failed_then_online samplePlatform sampleSemiPage (some sampleErrorSnapshot)
      "크롤링 실패" (Or.inr ⟨sampleErrorSnapshot, rfl, rfl, rfl⟩)
  obtain ⟨after, h9, h10⟩ := hnext sampleOkSnapshot rfl (by decide)
  exact ⟨failed, after, h1, h2, h3, h4, h8, h9, h10⟩

/-! ## Lemmas: the stages of `updateDashboard` -/

theorem andThen_of_none {σ : Type} (o : Outcome σ) (next : σ → Outcome σ)
    (h : o.raised = none) : o.andThen next = next o.state := by
  unfold Outcome.andThen
  rw [h]

theorem signOf_prim (platform : Platform) (p : JSPrim) :
    ∃ sign, signOf platform (.prim p) = .ok sign := by
  cases p <;> exact ⟨_, rfl⟩

theorem updateStatCard_value (platform : Platform) (value change : JSValue) (unit : String)
    (card : StatCard) (text : String)
    (hv : (formatNumber platform value).toJSString = .ok text) :
    (updateStatCard platform value change unit card).state.value = text ++ unit := by
  unfold updateStatCard
  simp only [hv]
  split
  · rfl
  · split
    · rfl
    · split <;> rfl

theorem pluck_objects (name : String) (items : List JSValue)
    (h : ∀ v ∈ items, ∃ props, v = .object props) :
    ∃ values, pluck name items = .ok values := by
  induction items with
  | nil => exact ⟨[], rfl⟩
  | cons v rest ih =>
    obtain ⟨props, hv⟩ := h v (List.mem_cons_self _ _)
    obtain ⟨values, hrest⟩ := ih (fun w hw => h w (List.mem_cons_of_mem _ hw))
    subst hv
    simp only [pluck, templateField, hrest]
    exact ⟨_, rfl⟩

theorem generatePerformanceHistory_objects (draws : SampleDraws) :
    ∀ v ∈ generatePerformanceHistory draws, ∃ props, v = .object props ∧
      props.any (fun kv => kv.1 == "toString") = false := by
  intro v hv
  unfold generatePerformanceHistory at hv
  obtain ⟨i, _, hi⟩ := List.mem_map.mp hv
  exact ⟨_, hi.symm, by simp [List.any]⟩

theorem generatePerformanceHistory_stamps (draws : SampleDraws) :
    ∀ v ∈ generatePerformanceHistory draws, ∃ props stamp, v = .object props ∧
      lookupProperty props "timestamp" = .prim stamp := by
  intro v hv
  unfold generatePerformanceHistory at hv
  obtain ⟨i, _, hi⟩ := List.mem_map.mp hv
  exact ⟨_, _, hi.symm, rfl⟩

theorem chartLabels_stamps (platform : Platform) (items : List JSValue)
    (h : ∀ v ∈ items, ∃ props stamp, v = .object props ∧
      lookupProperty props "timestamp" = .prim stamp) :
    ∃ labels, chartLabels platform items = .ok labels := by
  induction items with
  | nil => exact ⟨[], rfl⟩
  | cons v rest ih =>
    obtain ⟨props, stamp, hv, hstamp⟩ := h v (List.mem_cons_self _ _)
    obtain ⟨labels, hrest⟩ := ih (fun w hw => h w (List.mem_cons_of_mem _ hw))
    subst hv
    simp only [chartLabels, chartLabel, templateField, hstamp, dateArgument, hrest]
    exact ⟨_, rfl⟩

theorem joinElements_objects (items : List JSValue)
    (h : ∀ v ∈ items, ∃ props, v = .object props ∧
      props.any (fun kv => kv.1 == "toString") = false) :
    ∃ text, joinElements items = .ok text := by
  induction items with
  | nil => exact ⟨_, rfl⟩
  | cons v rest ih =>
    obtain ⟨props, hv, hprops⟩ := h v (List.mem_cons_self _ _)
    obtain ⟨text, hrest⟩ := ih (fun w hw => h w (List.mem_cons_of_mem _ hw))
    subst hv
    cases rest with
    | nil =>
      simp only [joinElements, JSValue.toJSString, hprops]
      exact ⟨_, rfl⟩
    | cons w rest2 =>
      simp only [joinElements, JSValue.toJSString, hprops, hrest]
      exact ⟨_, rfl⟩
theorem formatNumber_prim (platform : Platform) (p : JSPrim) :
    ∃ text, (formatNumber platform (.prim p)).toJSString = .ok text ∧
      formatNumber platform (.prim (.string text)) = .prim (.string text) := by
  cases p with
  | number n => exact ⟨_, rfl, rfl⟩
  | fraction t => exact ⟨_, rfl, rfl⟩
  | undefined => exact ⟨_, rfl, rfl⟩
  | null => exact ⟨_, rfl, rfl⟩
  | bool b => cases b <;> exact ⟨_, rfl, rfl⟩
  | string s => exact ⟨_, rfl, rfl⟩

theorem updateStatCard_prim_change (platform : Platform) (value : JSValue) (change : JSPrim)
    (unit text : String) (card : StatCard)
    (hv : (formatNumber platform value).toJSString = .ok text) :
    (updateStatCard platform value (.prim change) unit card).raised = none := by
  obtain ⟨c, hc, _⟩ := formatNumber_prim platform change
  obtain ⟨sign, hs⟩ := signOf_prim platform change
  unfold updateStatCard
  simp only [hv]
  cases change <;> simp only [hs, hc]

theorem updateStatCards_numbers (platform : Platform) (props : List (String × JSValue))
    (page : DocsPage) (score missions riders income : Int)
    (scoreChange missionChange ridersChange : JSPrim)
    (h1 : lookupProperty props "current_score" = .prim (.number score))
    (h2 : lookupProperty props "score_change" = .prim scoreChange)
    (h3 : lookupProperty props "completed_missions" = .prim (.number missions))
    (h4 : lookupProperty props "mission_change" = .prim missionChange)
    (h5 : lookupProperty props "active_riders" = .prim (.number riders))
    (h6 : lookupProperty props "riders_change" = .prim ridersChange)
    (h7 : lookupProperty props "estimated_income" = .prim (.number income)) :
    ∃ c1 c2 c3 c4 : StatCard,
      updateStatCards platform props page =
        ⟨{ page with currentScore := c1, completedMissions := c2, activeRiders := c3,
                     estimatedIncome := c4 }, none⟩ ∧
      c1.value = platform.numberToLocaleString (.number score) ++ "점" ∧
      c2.value = platform.numberToLocaleString (.number missions) ++ "개" ∧
      c3.value = platform.numberToLocaleString (.number riders) ++ "명" ∧
      c4.value = platform.numberToLocaleString (.number income) ++ "원" := by
  have r1 := updateStatCard_prim_change platform (.prim (.number score)) scoreChange "점" _
    page.currentScore rfl
  have r2 := updateStatCard_prim_change platform (.prim (.number missions)) missionChange "개" _
    page.completedMissions rfl
  have r3 := updateStatCard_prim_change platform (.prim (.number riders)) ridersChange "명" _
    page.activeRiders rfl
  have r4 : ∀ tenth : String, (updateStatCard platform
      (formatNumber platform (.prim (.number income))) (.prim (.string tenth)) "원"
      page.estimatedIncome).raised = none := fun tenth =>
    updateStatCard_prim_change platform _ (.string tenth) "원"
      (platform.numberToLocaleString (.number income)) page.estimatedIncome rfl
  refine ⟨(updateStatCard platform (.prim (.number score)) (.prim scoreChange) "점"
      page.currentScore).state,
    (updateStatCard platform (.prim (.number missions)) (.prim missionChange) "개"
      page.completedMissions).state,
    (updateStatCard platform (.prim (.number riders)) (.prim ridersChange) "명"
      page.activeRiders).state,
    (updateStatCard platform (formatNumber platform (.prim (.number income)))
      (.prim (.string (match platform.timesTenth (.number income) with
        | some product => platform.numberToLocaleString product
        | none => "NaN"))) "원" page.estimatedIncome).state, ?_,
    updateStatCard_value _ _ _ _ _ _ rfl, updateStatCard_value _ _ _ _ _ _ rfl,
    updateStatCard_value _ _ _ _ _ _ rfl, updateStatCard_value _ _ _ _ _ _ rfl⟩
  unfold updateStatCards
  rw [h1, h2, h3, h4, h5, h6, h7]
  simp only [Outcome.andThen, onCard, r1, r2, r3, tenthText]
  cases ht : platform.timesTenth (.number income) with
  | none =>
    have r := r4 "NaN"
    simp only [r]
  | some product =>
    have r := r4 (platform.numberToLocaleString product)
    simp only [r]

theorem updateChartsAndLog_sample (platform : Platform) (props : List (String × JSValue))
    (page : DocsPage) (items : List JSValue) (action : List (String × JSValue))
    (actionText : String)
    (h1 : lookupProperty props "performance_history" = .array items)
    (hitems : ∀ v ∈ items, ∃ ps stamp, v = .object ps ∧
      lookupProperty ps "timestamp" = .prim stamp)
    (h2 : lookupProperty props "last_action" = .object action)
    (time : JSPrim) (htime : lookupProperty action "time" = .prim time)
    (h3 : (lookupProperty action "action").toJSString = .ok actionText) :
    ∃ chart missions log,
      updateChartsAndLog platform props page =
        ⟨{ page with performanceChart := chart, missionChart := missions, activityLog := log },
          none⟩ := by
  have hstamped : ∀ v ∈ items.drop (items.length - 12), ∃ ps stamp, v = .object ps ∧
      lookupProperty ps "timestamp" = .prim stamp :=
    fun v hv => hitems v (List.mem_of_mem_drop hv)
  have hlast : ∀ v ∈ items.drop (items.length - 12), ∃ ps, v = .object ps :=
    fun v hv => (hstamped v hv).elim fun ps h => h.elim fun _ h2 => ⟨ps, h2.1⟩
  obtain ⟨labels, hlabels⟩ := chartLabels_stamps platform _ hstamped
  obtain ⟨scores, hscores⟩ := pluck_objects "score" _ hlast
  obtain ⟨missions, hmissions⟩ := pluck_objects "missions" _ hlast
  unfold updateChartsAndLog
  rw [h1, h2]
  cases hchart : page.performanceChart with
  | none =>
    simp only [updatePerformanceChart, updateActivityLog, truthy, htime, dateArgument, h3,
      Bool.not_true]
    exact ⟨_, _, _, rfl⟩
  | some chart =>
    simp only [updatePerformanceChart, updateActivityLog, truthy, htime, dateArgument, h3,
      Bool.not_true, hlabels, hscores, hmissions]
    exact ⟨_, _, _, rfl⟩

theorem substituteAll_plainKeys (fields : FieldMap) (hkeys : plainKeys fields = true) :
    ∀ s : String, ∃ s2 : String,
      substituteAll (.prim (.string s)) fields = .ok (.prim (.string s2)) := by
  induction fields with
  | nil => intro s; exact ⟨s, rfl⟩
  | cons kv rest ih =>
    intro s
    obtain ⟨key, value⟩ := kv
    have hk2 : (plainKey key = true ∧ hasStringForm value = true) ∧ plainKeys rest = true := by
      simpa [plainKeys] using hkeys
    obtain ⟨repl, hrepl, -⟩ := hasStringForm_spec value hk2.1.2
    obtain ⟨s2, hs2⟩ := ih hk2.2 (replaceAll (literalPattern key.data) s repl)
    refine ⟨s2, ?_⟩
    simp only [substituteAll, compilePlaceholder_plain key hk2.1.1, hrepl]
    exact hs2

theorem renderTemplate_plainKeys (title content footer : String) (fields : FieldMap)
    (hkeys : plainKeys fields = true) :
    ∃ r, renderTemplate (templateObject title content footer) fields = .ok r := by
  obtain ⟨c2, hc2⟩ := substituteAll_plainKeys fields hkeys content
  obtain ⟨f2, hf2⟩ := substituteAll_plainKeys fields hkeys footer
  refine ⟨{ title := title, content := c2, footer := f2 }, ?_⟩
  simp [renderTemplate, templateObject, templateField, lookupProperty, hc2, hf2,
    JSValue.toJSString, JSPrim.toJSString]

theorem docs_updateMessagePreview_builtin (platform : Platform) (fields : FieldMap)
    (page : DocsPage) (hkeys : plainKeys fields = true)
    (hbuiltin : page.templateControl = "standard" ∨ page.templateControl = "detailed" ∨
      page.templateControl = "simple") :
    ∃ effect, Docs.updateMessagePreview platform fields page =
      ⟨{ page with preview := some effect }, none⟩ := by
  have hrender : ∃ r, renderTemplate (messageTemplates page.templateControl) fields = .ok r := by
    rcases hbuiltin with h | h | h <;> rw [h]
    · exact renderTemplate_plainKeys _ _ _ fields hkeys
    · exact renderTemplate_plainKeys _ _ _ fields hkeys
    · exact renderTemplate_plainKeys _ _ _ fields hkeys
  have hcustom : page.templateControl ≠ "custom" := by
    rcases hbuiltin with h | h | h <;> rw [h] <;> decide
  obtain ⟨r, hr⟩ := hrender
  refine ⟨.innerHTML (previewHTML r), ?_⟩
  simp only [Docs.updateMessagePreview, customCovered, Dashboard.updateMessagePreview, hcustom,
    if_false, if_true, Option.getD_some, hr]

theorem hasStringForm_number (n : Int) (h : n.natAbs < 1000000000000000000000) :
    hasStringForm (.prim (.number n)) = true := by
  simp [hasStringForm, JSValue.toJSString, JSPrim.toJSString, h]

theorem hasStringForm_objects (items : List JSValue)
    (h : ∀ v ∈ items, ∃ props, v = .object props ∧
      props.any (fun kv => kv.1 == "toString") = false) :
    hasStringForm (.array items) = true := by
  obtain ⟨text, ht⟩ := joinElements_objects items h
  simp [hasStringForm, JSValue.toJSString, ht]

theorem plainKeys_sampleProperties (draws : SampleDraws)
    (hchange : hasStringForm (.prim draws.scoreChange) = true) :
    plainKeys (sampleProperties draws) = true := by
  have hkey : plainKey "timestamp" = true ∧ plainKey "current_score" = true ∧
      plainKey "completed_missions" = true ∧ plainKey "active_riders" = true ∧
      plainKey "estimated_income" = true ∧ plainKey "score_change" = true ∧
      plainKey "mission_change" = true ∧ plainKey "riders_change" = true ∧
      plainKey "performance_history" = true ∧ plainKey "mission_distribution" = true ∧
      plainKey "system_status" = true ∧ plainKey "last_action" = true := by decide
  obtain ⟨k1, k2, k3, k4, k5, k6, k7, k8, k9, k10, k11, k12⟩ := hkey
  have hhistory := hasStringForm_objects _ (generatePerformanceHistory_objects draws)
  have hbase : (if isPeakTime draws.hour then 850 else 720 : Nat) ≤ 850 := by split <;> omega
  have hmissions : (if isPeakTime draws.hour then 25 else 18 : Nat) ≤ 25 := by split <;> omega
  have hriders : (if isPeakTime draws.hour then 35 else 28 : Nat) ≤ 35 := by split <;> omega
  have h1 := hasStringForm_number
    (((if isPeakTime draws.hour then 850 else 720) + draws.score % 100 : Nat) : Int) (by omega)
  have h2 := hasStringForm_number
    (((if isPeakTime draws.hour then 25 else 18) + draws.missions % 10 : Nat) : Int) (by omega)
  have h3 := hasStringForm_number
    (((if isPeakTime draws.hour then 35 else 28) + draws.riders % 8 : Nat) : Int) (by omega)
  have h4 := hasStringForm_number
    ((((if isPeakTime draws.hour then 850 else 720) + draws.income % 100) * 120 : Nat) : Int)
    (by omega)
  have h5 := hasStringForm_number (((draws.missionChange % 6 : Nat) : Int) - 3) (by omega)
  have h6 := hasStringForm_number (((draws.ridersChange % 4 : Nat) : Int) - 2) (by omega)
  simp only [plainKeys, sampleProperties, List.all_cons, List.all_nil, k1, k2, k3, k4, k5, k6,
    k7, k8, k9, k10, k11, k12, h1, h2, h3, h4, h5, h6, hchange, hhistory, Bool.and_true,
    Bool.true_and]
  simp [hasStringForm, JSValue.toJSString, JSPrim.toJSString]

theorem docs_updateDashboard_sample (platform : Platform) (draws : SampleDraws)
    (page : DocsPage)
    (hbuiltin : page.templateControl = "standard" ∨ page.templateControl = "detailed" ∨
      page.templateControl = "simple")
    (hchange : hasStringForm (.prim draws.scoreChange) = true) :
    ∃ rendered, Docs.updateDashboard platform (generateSampleData draws) page = ⟨rendered, none⟩ ∧
      rendered.toasts = page.toasts ∧
      rendered.statusLabel = page.statusLabel ∧ rendered.statusColor = page.statusColor ∧
      rendered.currentScore.value =
        platform.numberToLocaleString
          (.number (((if isPeakTime draws.hour then 850 else 720) + draws.score % 100 : Nat) : Int))
          ++ "점" ∧
      rendered.completedMissions.value =
        platform.numberToLocaleString
          (.number (((if isPeakTime draws.hour then 25 else 18) + draws.missions % 10 : Nat) : Int))
          ++ "개" ∧
      rendered.activeRiders.value =
        platform.numberToLocaleString
          (.number (((if isPeakTime draws.hour then 35 else 28) + draws.riders % 8 : Nat) : Int))
          ++ "명" ∧
      rendered.estimatedIncome.value =
        platform.numberToLocaleString
          (.number ((((if isPeakTime draws.hour then 850 else 720) + draws.income % 100) * 120 :
            Nat) : Int)) ++ "원" := by
  have hsnapshot : ∃ snapshot, snapshotOf (sampleProperties draws) = some snapshot :=
    ⟨_, rfl⟩
  obtain ⟨snapshot, hsnapshot⟩ := hsnapshot
  have hheld : ∃ hasChanges, hasDataChanged page.lastData (some snapshot) =
      .ok (hasChanges, some snapshot) := by
    cases hlast : page.lastData with
    | none => exact ⟨_, rfl⟩
    | some last => exact ⟨_, rfl⟩
  obtain ⟨hasChanges, hheld⟩ := hheld
  have hfade : (startFade hasChanges (some snapshot) page).toasts = page.toasts ∧
      (startFade hasChanges (some snapshot) page).statusLabel = page.statusLabel ∧
      (startFade hasChanges (some snapshot) page).statusColor = page.statusColor ∧
      (startFade hasChanges (some snapshot) page).templateControl = page.templateControl := by
    cases hasChanges <;> exact ⟨rfl, rfl, rfl, rfl⟩
  obtain ⟨hf1, hf2, hf3, hf4⟩ := hfade
  obtain ⟨c1, c2, c3, c4, hcards, v1, v2, v3, v4⟩ :=
    updateStatCards_numbers platform (sampleProperties draws)
      (startFade hasChanges (some snapshot) page) _ _ _ _ _ _ _ rfl rfl rfl rfl rfl rfl rfl
  obtain ⟨chart, missions, log, hcharts⟩ :=
    updateChartsAndLog_sample platform (sampleProperties draws)
      { startFade hasChanges (some snapshot) page with
        currentScore := c1, completedMissions := c2, activeRiders := c3, estimatedIncome := c4 }
      (generatePerformanceHistory draws) _ "데이터 수집 완료" rfl
      (generatePerformanceHistory_stamps draws) rfl (.string draws.actionTime) rfl rfl
  obtain ⟨effect, hpreview⟩ :=
    docs_updateMessagePreview_builtin platform (sampleProperties draws)
      { startFade hasChanges (some snapshot) page with
        currentScore := c1, completedMissions := c2, activeRiders := c3, estimatedIncome := c4,
        performanceChart := chart, missionChart := missions, activityLog := log }
      (plainKeys_sampleProperties draws hchange) (by rw [← hf4] at hbuiltin; exact hbuiltin)
  have hfinal : Docs.updateDashboard platform (generateSampleData draws) page =
      ⟨{ startFade hasChanges (some snapshot) page with
        currentScore := c1, completedMissions := c2, activeRiders := c3, estimatedIncome := c4,
        performanceChart := chart, missionChart := missions, activityLog := log,
        preview := some effect }, none⟩ := by
    simp only [Docs.updateDashboard, generateSampleData, hsnapshot, hheld, hcards,
      Outcome.andThen, hcharts]
    exact hpreview
  exact ⟨_, hfinal, hf1, hf2, hf3, v1, v2, v3, v4⟩

/-! ## Theorems: the refresh cycle of the dashboard -/

set_option maxRecDepth 100000 in
/-- C20, counterexample: on the sample page a rejected request, a response that is not
ok and a body that is not JSON all end with the indicator in its online state
(`정상 운영`), no notification posted and the cards showing the generated sample
(`757점` where `812점` was shown). -/
theorem docs_refreshData_failure_shows_sample :
    (∀ outcome ∈ [FetchOutcome.rejected, FetchOutcome.notOk 404, FetchOutcome.badBody],
      (Docs.refreshData samplePlatform sampleDraws "2025. 1. 1. 오전 9:00:00" outcome
          sampleDocsPage).raised = none ∧
      (Docs.refreshData samplePlatform sampleDraws "2025. 1. 1. 오전 9:00:00" outcome
          sampleDocsPage).state.statusLabel = "정상 운영" ∧
      (Docs.refreshData samplePlatform sampleDraws "2025. 1. 1. 오전 9:00:00" outcome
          sampleDocsPage).state.statusColor = "#27ae60" ∧
      (Docs.refreshData samplePlatform sampleDraws "2025. 1. 1. 오전 9:00:00" outcome
          sampleDocsPage).state.toasts = NotificationDOM.empty ∧
      (Docs.refreshData samplePlatform sampleDraws "2025. 1. 1. 오전 9:00:00" outcome
          sampleDocsPage).state.currentScore.value = "757점" ∧
      (Docs.refreshData samplePlatform sampleDraws "2025. 1. 1. 오전 9:00:00" outcome
          sampleDocsPage).state.estimatedIncome.value = "90,840원") ∧
    sampleDocsPage.currentScore.value = "812점" ∧
    sampleDocsPage.estimatedIncome.value = "97,440원" := by
  refine ⟨?_, rfl, rfl⟩
  intro outcome h
  simp only [List.mem_cons, List.mem_singleton, List.not_mem_nil, or_false] at h
  rcases h with h | h | h <;> subst h <;> decide

/-- C20 (amended): for every fetch failure (rejected request, response that is not ok,
body that is not JSON), with one of the three built-in templates selected,
`refreshData` renders the sample that `generateSampleData` builds, as it renders fetched
data: it completes, the indicator is set to its online state, no notification is posted
and the four cards show the values of the sample. The score change of the sample is
taken to be a number the model can print. -/
theorem docs_refreshData_failure_renders_sample (platform : Platform) (draws : SampleDraws)
    (nowText : String) (outcome : FetchOutcome) (page : DocsPage)
    (hfailed : outcome.failed = true)
    (hbuiltin : page.templateControl = "standard" ∨ page.templateControl = "detailed" ∨
      page.templateControl = "simple")
    (hchange : hasStringForm (.prim draws.scoreChange) = true) :
    Docs.fetchLatestData draws outcome = .ok (generateSampleData draws) ∧
    (Docs.refreshData platform draws nowText outcome page).raised = none ∧
    (Docs.refreshData platform draws nowText outcome page).state.statusLabel = "정상 운영" ∧
    (Docs.refreshData platform draws nowText outcome page).state.statusColor = "#27ae60" ∧
    (Docs.refreshData platform draws nowText outcome page).state.toasts = page.toasts ∧
    (Docs.refreshData platform draws nowText outcome page).state.currentScore.value =
      platform.numberToLocaleString
        (.number (((if isPeakTime draws.hour then 850 else 720) + draws.score % 100 : Nat) : Int))
        ++ "점" ∧
    (Docs.refreshData platform draws nowText outcome page).state.completedMissions.value =
      platform.numberToLocaleString
        (.number (((if isPeakTime draws.hour then 25 else 18) + draws.missions % 10 : Nat) : Int))
        ++ "개" ∧
    (Docs.refreshData platform draws nowText outcome page).state.activeRiders.value =
      platform.numberToLocaleString
        (.number (((if isPeakTime draws.hour then 35 else 28) + draws.riders % 8 : Nat) : Int))
        ++ "명" ∧
    (Docs.refreshData platform draws nowText outcome page).state.estimatedIncome.value =
      platform.numberToLocaleString
        (.number ((((if isPeakTime draws.hour then 850 else 720) + draws.income % 100) * 120 :
          Nat) : Int)) ++ "원" := by
  have hfetch : Docs.fetchLatestData draws outcome = .ok (generateSampleData draws) := by
    cases outcome with
    | ok body => cases hfailed
    | rejected => rfl
    | notOk status => rfl
    | badBody => rfl
  obtain ⟨rendered, hrendered, h1, h2, h3, v1, v2, v3, v4⟩ :=
    docs_updateDashboard_sample platform draws page hbuiltin hchange
  have hrefresh : Docs.refreshData platform draws nowText outcome page =
      ⟨{ Docs.updateSystemStatus "online" rendered with
          lastDataUpdate := some nowText, lastUpdateTime := nowText }, none⟩ := by
    have htruthy : truthy (generateSampleData draws) = true := rfl
    simp only [Docs.refreshData, Docs.ingest, stampLastUpdate, hfetch, htruthy, hrendered,
      if_true]
  have hstatus : Docs.updateSystemStatus "online" rendered =
      { rendered with statusColor := "#27ae60", statusLabel := "정상 운영" } := by
    simp only [Docs.updateSystemStatus, if_true]
  rw [hrefresh, hstatus]
  exact ⟨hfetch, rfl, rfl, rfl, h1, v1, v2, v3, v4⟩

/-- The amended C20 on the sample page with the detailed template selected, for a
response with status 500. -/
theorem docs_refreshData_failure_renders_sample_witness :
    (Docs.refreshData samplePlatform sampleDraws "2025. 1. 1. 오전 9:00:00" (.notOk 500)
      { sampleDocsPage with templateControl := "detailed" }).state.statusLabel = "정상 운영" ∧
    (Docs.refreshData samplePlatform sampleDraws "2025. 1. 1. 오전 9:00:00" (.notOk 500)
      { sampleDocsPage with templateControl := "detailed" }).state.toasts =
        sampleDocsPage.toasts ∧
    (Docs.refreshData samplePlatform sampleDraws "2025. 1. 1. 오전 9:00:00" (.notOk 500)
      { sampleDocsPage with templateControl := "detailed" }).state.currentScore.value =
        samplePlatform.numberToLocaleString (.number 757) ++ "점" :=
  have h := docs_refreshData_failure_renders_sample samplePlatform sampleDraws
    "2025. 1. 1. 오전 9:00:00" (.notOk 500) { sampleDocsPage with templateControl := "detailed" }
    rfl (Or.inr (Or.inl rfl)) rfl
  ⟨h.2.2.1, h.2.2.2.2.1, h.2.2.2.2.2.1⟩

/-! ## Theorems: fetching and rendering -/

/-- C21: in both dashboards `fetchLatestData` completes with a value for every way the
request can end: the parsed body of an ok response; and after a rejected request, a
response that is not ok or a body that is not JSON, the generated sample data in the
dashboard and `null` in the semi-automatic dashboard. -/
theorem fetchLatestData_never_raises (draws : SampleDraws) (outcome : FetchOutcome) :
    Docs.fetchLatestData draws outcome =
      .ok (match outcome with
        | .ok body => body
        | _ => generateSampleData draws) ∧
    Semi.fetchLatestData outcome =
      .ok (match outcome with
        | .ok body => body
        | _ => .prim .null) := by
  cases outcome <;> exact ⟨rfl, rfl⟩

/-- A stage of `updateDashboard` commutes with `withFrame`: it neither reads nor writes
what `withFrame` replaces. -/
theorem andThen_withFrame (first next : DocsPage → Outcome DocsPage)
    (hfirst : ∀ frame page, first (withFrame frame page) =
      ⟨withFrame frame (first page).state, (first page).raised⟩)
    (hnext : ∀ frame page, next (withFrame frame page) =
      ⟨withFrame frame (next page).state, (next page).raised⟩)
    (frame page : DocsPage) :
    (first (withFrame frame page)).andThen next =
      ⟨withFrame frame ((first page).andThen next).state,
        ((first page).andThen next).raised⟩ := by
  rw [hfirst]
  unfold Outcome.andThen
  cases h : (first page).raised with
  | none => simp only [hnext]
  | some e => simp only [h]

theorem updateStatCards_withFrame (platform : Platform) (props : List (String × JSValue))
    (frame page : DocsPage) :
    updateStatCards platform props (withFrame frame page) =
      ⟨withFrame frame (updateStatCards platform props page).state,
        (updateStatCards platform props page).raised⟩ := by
  simp only [updateStatCards, Outcome.andThen, onCard, withFrame]
  generalize updateStatCard platform (lookupProperty props "current_score")
    (lookupProperty props "score_change") "점" page.currentScore = o1
  rcases o1 with ⟨c1, _ | e1⟩
  · simp only []
    generalize updateStatCard platform (lookupProperty props "completed_missions")
      (lookupProperty props "mission_change") "개" page.completedMissions = o2
    rcases o2 with ⟨c2, _ | e2⟩
    · simp only []
      generalize updateStatCard platform (lookupProperty props "active_riders")
        (lookupProperty props "riders_change") "명" page.activeRiders = o3
      rcases o3 with ⟨c3, _ | e3⟩
      · simp only []
        cases tenthText platform (lookupProperty props "estimated_income") with
        | error e => rfl
        | ok tenth => rfl
      · rfl
    · rfl
  · rfl

theorem updateChartsAndLog_withFrame (platform : Platform) (props : List (String × JSValue))
    (frame page : DocsPage) :
    updateChartsAndLog platform props (withFrame frame page) =
      ⟨withFrame frame (updateChartsAndLog platform props page).state,
        (updateChartsAndLog platform props page).raised⟩ := by
  unfold updateChartsAndLog
  show (match updatePerformanceChart platform (lookupProperty props "performance_history")
      page.performanceChart with
    | ⟨chart, some e⟩ => _
    | ⟨chart, none⟩ => _) = _
  rcases updatePerformanceChart platform (lookupProperty props "performance_history")
      page.performanceChart with ⟨chart, _ | e⟩
  · rfl
  · rfl

theorem docs_updateMessagePreview_withFrame (platform : Platform) (fields : FieldMap)
    (frame page : DocsPage) :
    Docs.updateMessagePreview platform fields (withFrame frame page) =
      ⟨withFrame frame (Docs.updateMessagePreview platform fields page).state,
        (Docs.updateMessagePreview platform fields page).raised⟩ := by
  unfold Docs.updateMessagePreview
  show (if customCovered page.templateControl page.customControl = true then _ else _) = _
  cases customCovered page.templateControl page.customControl with
  | false => rfl
  | true =>
    simp only [if_true]
    show (match Dashboard.updateMessagePreview
        (parseOrMessage (platform.parseErrorMessage page.customControl))
        "" "" page.templateControl page.customControl (some fields) with
      | .error e => _
      | .ok effect => _) = _
    cases Dashboard.updateMessagePreview
        (parseOrMessage (platform.parseErrorMessage page.customControl))
        "" "" page.templateControl page.customControl (some fields) with
    | error e => rfl
    | ok effect => rfl

theorem docs_stages_withFrame (platform : Platform) (props : List (String × JSValue))
    (frame page : DocsPage) :
    ((updateStatCards platform props (withFrame frame page)).andThen fun p1 =>
      (updateChartsAndLog platform props p1).andThen fun p2 =>
      Docs.updateMessagePreview platform props p2) =
    ⟨withFrame frame
        ((updateStatCards platform props page).andThen fun p1 =>
          (updateChartsAndLog platform props p1).andThen fun p2 =>
          Docs.updateMessagePreview platform props p2).state,
      ((updateStatCards platform props page).andThen fun p1 =>
        (updateChartsAndLog platform props p1).andThen fun p2 =>
        Docs.updateMessagePreview platform props p2).raised⟩ :=
  andThen_withFrame (updateStatCards platform props)
    (fun p1 => (updateChartsAndLog platform props p1).andThen fun p2 =>
      Docs.updateMessagePreview platform props p2)
    (updateStatCards_withFrame platform props)
    (fun frame2 page2 =>
      andThen_withFrame (updateChartsAndLog platform props)
        (fun p2 => Docs.updateMessagePreview platform props p2)
        (updateChartsAndLog_withFrame platform props)
        (docs_updateMessagePreview_withFrame platform props) frame2 page2)
    frame page

theorem docs_updateDashboard_held (platform : Platform) (props : List (String × JSValue))
    (page : DocsPage) (held : Option Snapshot) :
    (Docs.updateDashboard platform (.object props) { page with lastData := held }).raised =
      (Docs.updateDashboard platform (.object props) { page with lastData := none }).raised ∧
    (Docs.updateDashboard platform (.object props) { page with lastData := held }).state.views =
      (Docs.updateDashboard platform (.object props) { page with lastData := none }).state.views ∧
    (Docs.updateDashboard platform (.object props) { page with lastData := held }).state.toasts =
      page.toasts := by
  cases hsnap : snapshotOf props with
  | none =>
    have e1 : ∀ q : DocsPage, Docs.updateDashboard platform (.object props) q =
        ⟨q, some .unmodelled⟩ := fun q => by simp only [Docs.updateDashboard, hsnap]
    rw [e1, e1]
    exact ⟨rfl, rfl, rfl⟩
  | some snapshot =>
    have hverdict : ∃ hasChanges, hasDataChanged held (some snapshot) =
        .ok (hasChanges, some snapshot) := by
      cases held with
      | none => exact ⟨_, rfl⟩
      | some last => exact ⟨_, rfl⟩
    obtain ⟨hasChanges, hverdict⟩ := hverdict
    have hfirst : hasDataChanged none (some snapshot) = .ok (true, some snapshot) := rfl
    have hframe : startFade hasChanges (some snapshot) { page with lastData := held } =
        withFrame (startFade hasChanges (some snapshot) { page with lastData := held })
          (startFade true (some snapshot) { page with lastData := none }) := by
      cases hasChanges <;> rfl
    have e1 : Docs.updateDashboard platform (.object props) { page with lastData := held } =
        ((updateStatCards platform props
          (startFade hasChanges (some snapshot) { page with lastData := held })).andThen
          fun p1 => (updateChartsAndLog platform props p1).andThen fun p2 =>
            Docs.updateMessagePreview platform props p2) := by
      simp only [Docs.updateDashboard, hsnap, hverdict]
    have e2 : Docs.updateDashboard platform (.object props) { page with lastData := none } =
        ((updateStatCards platform props
          (startFade true (some snapshot) { page with lastData := none })).andThen
          fun p1 => (updateChartsAndLog platform props p1).andThen fun p2 =>
            Docs.updateMessagePreview platform props p2) := by
      simp only [Docs.updateDashboard, hsnap, hfirst]
    rw [e1, e2, hframe, docs_stages_withFrame]
    refine ⟨rfl, rfl, ?_⟩
    cases hasChanges <;> rfl

theorem semi_updateDashboard_rendered (platform : Platform) (data : SemiSnapshot)
    (page : SemiPage) (h : data.covered = true) :
    ∃ score completed rate elements,
      riderElements (activeRidersOf platform (data.riders.getD [])) = .ok elements ∧
      Semi.updateDashboard platform data page =
        .ok { page with
          totalScore := score,
          totalCompleted := completed,
          acceptanceRate := rate ++ "%",
          activeRiders := toString (activeRidersOf platform (data.riders.getD [])).length,
          riderList :=
            if (activeRidersOf platform (data.riders.getD [])).length = 0 then
              .markup riderPlaceholder
            else .children elements,
          toasts := Semi.showNotification "대시보드 데이터가 업데이트되었습니다." "success"
            page.toasts } := by
  simp only [SemiSnapshot.covered, Bool.and_eq_true, List.all_eq_true] at h
  obtain ⟨⟨⟨hs, hc⟩, hr⟩, hriders⟩ := h
  obtain ⟨s, hs⟩ := toJSString_of_hasStringForm _ hs
  obtain ⟨c, hc⟩ := toJSString_of_hasStringForm _ hc
  obtain ⟨a, hr⟩ := toJSString_of_hasStringForm _ hr
  simp only [JSValue.toJSString] at hs hc hr
  obtain ⟨es, hes⟩ := riderElements_covered (activeRidersOf platform (data.riders.getD []))
    (fun r hr => by
      have hmem : r ∈ data.riders.getD [] := by
        unfold activeRidersOf at hr
        exact (List.mem_filter.mp hr).1
      have := hriders r hmem
      simpa [Bool.and_eq_true, and_assoc] using this)
  refine ⟨s, c, a, es, hes, ?_⟩
  simp only [Semi.updateDashboard, hs, hc, hr, hes]

set_option maxRecDepth 100000 in
/-- C22, as the code behaves: a second refresh of the dashboard with a snapshot whose
three tracked properties are those of the held one is reported unchanged, and the
income card, the activity log and the preview are written again from it; the
semi-automatic dashboard posts its success notification again for the snapshot it has
just rendered. -/
theorem refresh_unchanged_snapshot_rerenders :
    (hasDataChanged
        (Docs.refreshData samplePlatform sampleDraws "2025. 1. 1. 오전 9:00:00"
          (.ok (generateSampleData sampleDraws)) sampleDocsPage).state.lastData
        (snapshotOf (sampleProperties { sampleDraws with income := 50 }))).toOption.map Prod.fst =
      some false ∧
    (Docs.refreshData samplePlatform sampleDraws "2025. 1. 1. 오전 9:00:00"
      (.ok (generateSampleData sampleDraws)) sampleDocsPage).state.estimatedIncome.value =
      "90,840원" ∧
    (Docs.refreshData samplePlatform sampleDraws "2025. 1. 1. 오전 9:30:00"
      (.ok (generateSampleData { sampleDraws with income := 50 }))
      (Docs.refreshData samplePlatform sampleDraws "2025. 1. 1. 오전 9:00:00"
        (.ok (generateSampleData sampleDraws)) sampleDocsPage).state).state.estimatedIncome.value =
      "92,400원" ∧
    (Docs.refreshData samplePlatform sampleDraws "2025. 1. 1. 오전 9:30:00"
      (.ok (generateSampleData { sampleDraws with income := 50 }))
      (Docs.refreshData samplePlatform sampleDraws "2025. 1. 1. 오전 9:00:00"
        (.ok (generateSampleData sampleDraws)) sampleDocsPage).state).state.activityLog.length =
      2 ∧
    (Docs.refreshData samplePlatform sampleDraws "2025. 1. 1. 오전 9:30:00"
      (.ok (generateSampleData { sampleDraws with income := 50 }))
      (Docs.refreshData samplePlatform sampleDraws "2025. 1. 1. 오전 9:00:00"
        (.ok (generateSampleData sampleDraws)) sampleDocsPage).state).state.preview ≠
      (Docs.refreshData samplePlatform sampleDraws "2025. 1. 1. 오전 9:00:00"
        (.ok (generateSampleData sampleDraws)) sampleDocsPage).state.preview ∧
    ((Semi.refreshData samplePlatform (some sampleOkSnapshot) sampleSemiPage).toOption.bind
      fun first => (Semi.refreshData samplePlatform (some sampleOkSnapshot) first).toOption.map
        fun second => second.toasts.attached.map Toast.text) =
      some ["대시보드 데이터가 업데이트되었습니다.", "대시보드 데이터가 업데이트되었습니다."] := by
  refine ⟨?_, ?_, ?_, ?_, ?_, ?_⟩ <;> decide

/-- C22 (amended): the dashboard renders a fetched snapshot whether or not it is
reported changed. For every data object and every held snapshot, `updateDashboard`
raises what it raises, and leaves the four cards, the two charts, the activity log and
the message preview as it leaves them, when nothing is held and the snapshot is reported
changed; it posts no notification in either case. In the semi-automatic dashboard
`updateDashboard` keeps no snapshot: it renders every ok snapshot and posts the success
notification each time. -/
theorem updateDashboard_renders_whatever_the_verdict (platform : Platform)
    (props : List (String × JSValue)) (page : DocsPage) (held : Option Snapshot)
    (data : SemiSnapshot) (semiPage : SemiPage) (hcovered : data.covered = true) :
    ((Docs.updateDashboard platform (.object props) { page with lastData := held }).raised =
        (Docs.updateDashboard platform (.object props) { page with lastData := none }).raised ∧
      (Docs.updateDashboard platform (.object props) { page with lastData := held }).state.views =
        (Docs.updateDashboard platform (.object props)
          { page with lastData := none }).state.views ∧
      (Docs.updateDashboard platform (.object props)
          { page with lastData := held }).state.toasts = page.toasts) ∧
    ∃ rendered, Semi.updateDashboard platform data semiPage = .ok rendered ∧
      rendered.toasts =
        Semi.showNotification "대시보드 데이터가 업데이트되었습니다." "success" semiPage.toasts := by
  refine ⟨docs_updateDashboard_held platform props page held, ?_⟩
  obtain ⟨score, completed, rate, elements, -, hr⟩ :=
    semi_updateDashboard_rendered platform data semiPage hcovered
  exact ⟨_, hr, rfl⟩

set_option maxRecDepth 100000 in
/-- The amended C22 on the sample pages: the generated sample rendered on a page that
holds a snapshot, and the ok snapshot of the semi-automatic dashboard. -/
theorem updateDashboard_renders_whatever_the_verdict_witness :
    (Docs.updateDashboard samplePlatform (.object (sampleProperties sampleDraws))
        { sampleDocsPage with lastData := sampleDocsPage.lastData }).state.views =
      (Docs.updateDashboard samplePlatform (.object (sampleProperties sampleDraws))
        { sampleDocsPage with lastData := none }).state.views ∧
    ∃ rendered, Semi.updateDashboard samplePlatform sampleOkSnapshot sampleSemiPage =
        .ok rendered ∧
      rendered.toasts.attached.map Toast.text = ["대시보드 데이터가 업데이트되었습니다."] :=
  have h := updateDashboard_renders_whatever_the_verdict samplePlatform
    (sampleProperties sampleDraws) sampleDocsPage sampleDocsPage.lastData sampleOkSnapshot
    sampleSemiPage (by decide)
  ⟨h.1.2.1, h.2.elim fun rendered hr => ⟨rendered, hr.1, by rw [hr.2]; decide⟩⟩

/-! ## Theorems: the rider list and the activity log -/

theorem riderElements_forall₂ (riders : List Rider) :
    ∀ elements, riderElements riders = .ok elements →
      List.Forall₂ (fun r e => ∃ name completed acceptance,
        r.name.toJSString = .ok name ∧ r.completed.toJSString = .ok completed ∧
        r.acceptance.toJSString = .ok acceptance ∧
        e = { className := "rider-item",
              innerHTML :=
                "\n                <div class=\"rider-name\">" ++ name ++
                "</div>\n                <div class=\"rider-stats\">\n                    <span>완료: " ++
                completed ++ "</span>\n                    <span>수락률: " ++ acceptance ++
                "%</span>\n                </div>\n            " }) riders elements := by
  induction riders with
  | nil =>
    intro elements h
    cases h
    exact List.Forall₂.nil
  | cons r rest ih =>
    intro elements h
    unfold riderElements at h
    cases hr : riderElement r with
    | error e => rw [hr] at h; cases h
    | ok element =>
      cases hrest : riderElements rest with
      | error e => rw [hr, hrest] at h; cases h
      | ok others =>
        rw [hr, hrest] at h
        cases h
        refine List.Forall₂.cons ?_ (ih others hrest)
        unfold riderElement at hr
        cases hname : r.name.toJSString with
        | error e => rw [hname] at hr; cases hr
        | ok name =>
          cases hcompleted : r.completed.toJSString with
          | error e => rw [hname, hcompleted] at hr; cases hr
          | ok completed =>
            cases hacceptance : r.acceptance.toJSString with
            | error e => rw [hname, hcompleted, hacceptance] at hr; cases hr
            | ok acceptance =>
              rw [hname, hcompleted, hacceptance] at hr
              cases hr
              exact ⟨name, completed, acceptance, rfl, rfl, rfl, rfl⟩

/-- C24: in the semi-automatic dashboard, for every snapshot, `updateDashboard` shows as
the number of active riders the number of riders whose completed count is greater than
0 (a missing count is not), and the rider list holds one element for each of these
riders, in their order in the snapshot: an element of class `rider-item` whose markup
shows the name, the completed count and the acceptance rate of that rider. When there is
none, or the snapshot has no riders, the list is the placeholder and the count is
`0`. -/
theorem semi_updateDashboard_active_riders (platform : Platform) (data : SemiSnapshot)
    (page : SemiPage) (hcovered : data.covered = true) :
    (∀ n : Int, isPositive platform (.number n) = decide (0 < n)) ∧
    isPositive platform .undefined = false ∧
    ∃ rendered elements,
      Semi.updateDashboard platform data page = .ok rendered ∧
      rendered.activeRiders =
        toString ((data.riders.getD []).filter
          fun r => isPositive platform r.completed).length ∧
      List.Forall₂ (fun r e => ∃ name completed acceptance,
          r.name.toJSString = .ok name ∧ r.completed.toJSString = .ok completed ∧
          r.acceptance.toJSString = .ok acceptance ∧
          e = { className := "rider-item",
                innerHTML :=
                  "\n                <div class=\"rider-name\">" ++ name ++
                  "</div>\n                <div class=\"rider-stats\">\n                    <span>완료: " ++
                  completed ++ "</span>\n                    <span>수락률: " ++ acceptance ++
                  "%</span>\n                </div>\n            " })
        ((data.riders.getD []).filter fun r => isPositive platform r.completed) elements ∧
      rendered.riderList =
        (if ((data.riders.getD []).filter fun r => isPositive platform r.completed).length = 0
          then .markup riderPlaceholder
          else .children elements) ∧
      (((data.riders.getD []).filter fun r => isPositive platform r.completed) = [] →
        rendered.activeRiders = "0" ∧ rendered.riderList = .markup riderPlaceholder) := by
  refine ⟨fun n => rfl, rfl, ?_⟩
  obtain ⟨score, completed, rate, elements, helements, hr⟩ :=
    semi_updateDashboard_rendered platform data page hcovered
  refine ⟨_, elements, hr, rfl, riderElements_forall₂ _ _ helements, rfl, ?_⟩
  intro hnone
  have hnone2 : activeRidersOf platform (data.riders.getD []) = [] := hnone
  simp only [hnone2, List.length_nil, if_true]
  exact ⟨rfl, trivial⟩

/-- Witness for C24: of the two riders of the sample snapshot the one with twelve
completed deliveries is listed, with its name, count and rate, and the one with none is
not; a snapshot without riders shows the placeholder. -/
theorem semi_updateDashboard_active_riders_witness :
    (∃ rendered,
      Semi.updateDashboard samplePlatform sampleOkSnapshot sampleSemiPage = .ok rendered ∧
      rendered.activeRiders = "1" ∧
      rendered.riderList = .children [{ className := "rider-item", innerHTML :=
        "\n                <div class=\"rider-name\">kim" ++
        "</div>\n                <div class=\"rider-stats\">\n                    <span>완료: 12" ++
        "</span>\n                    <span>수락률: 100" ++
        "%</span>\n                </div>\n            " }]) ∧
    ∃ rendered,
      Semi.updateDashboard samplePlatform { sampleOkSnapshot with riders := none }
        sampleSemiPage = .ok rendered ∧
      rendered.activeRiders = "0" ∧ rendered.riderList = .markup riderPlaceholder := by
  obtain ⟨rendered, elements, h1, h2, h3, h4, -⟩ :=
    (semi_updateDashboard_active_riders samplePlatform sampleOkSnapshot sampleSemiPage
      (by decide)).2.2
  obtain ⟨rendered0, elements0, g1, -, -, -, g5⟩ :=
    (semi_updateDashboard_active_riders samplePlatform { sampleOkSnapshot with riders := none }
      sampleSemiPage (by decide)).2.2
  refine ⟨⟨rendered, h1, h2, ?_⟩, ⟨rendered0, g1, g5 rfl⟩⟩
  have hactive : ((sampleOkSnapshot.riders.getD []).filter
      fun r => isPositive samplePlatform r.completed) =
      [{ name := .string "kim", completed := .number 12, acceptance := .number 100 }] := by
    decide
  rw [hactive] at h3 h4
  cases h3 with
  | cons hfirst hrest =>
    cases hrest
    obtain ⟨name, completed, acceptance, hn, hc, ha, he⟩ := hfirst
    cases hn
    cases hc
    cases ha
    rw [h4, he]
    rfl

/-- C25, as the code behaves: a `lastAction` that is not `null` but falsy (an empty
text, zero, `false`) adds no entry; and a time or an action that cannot be converted
raises `TypeError` and adds no entry. -/
theorem updateActivityLog_not_added :
    (updateActivityLog samplePlatform (.prim (.string "")) []).state = [] ∧
    (updateActivityLog samplePlatform (.prim (.number 0)) []).state = [] ∧
    (updateActivityLog samplePlatform (.prim (.bool false)) []).state = [] ∧
    (updateActivityLog samplePlatform
      (.object [("time", .prim (.string "2025-01-01T08:57:30.000Z")),
        ("action", .object [("toString", .prim (.number 1))])]) []).state = [] ∧
    (updateActivityLog samplePlatform
      (.object [("time", .prim (.string "2025-01-01T08:57:30.000Z")),
        ("action", .object [("toString", .prim (.number 1))])]) []).raised =
      some .typeError ∧
    (updateActivityLog samplePlatform
      (.object [("time", .object [("toString", .prim (.number 1))]),
        ("action", .prim (.string "x"))]) []).state = [] ∧
    (updateActivityLog samplePlatform
      (.object [("time", .object [("toString", .prim (.number 1))]),
        ("action", .prim (.string "x"))]) []).raised = some .typeError := by
  refine ⟨?_, ?_, ?_, ?_, ?_, ?_, ?_⟩ <;> decide

/-- C25 (amended): for every log and every truthy `lastAction` whose time `new Date`
converts, to the primitive `date`, and whose action has the string form `actionText`,
`updateActivityLog` completes; the new entry is the first item, the items after it are
the first nine of the previous log in their order, and the log holds `min (n + 1) 10`
items, where `n` is the previous length. -/
theorem updateActivityLog_newest_first (platform : Platform)
    (lastAction time date action : JSValue) (actionText : String) (log : List PageElement)
    (htruthy : truthy lastAction = true)
    (htime : templateField lastAction "time" = .ok time)
    (hdate : dateArgument time = .ok date)
    (haction : templateField lastAction "action" = .ok action)
    (htext : action.toJSString = .ok actionText) :
    (updateActivityLog platform lastAction log).raised = none ∧
    (updateActivityLog platform lastAction log).state =
      { className := "activity-item",
        innerHTML :=
          "\n        <div class=\"activity-time\">" ++ platform.dateToLocaleString date ++
          "</div>\n        <div class=\"activity-content\">" ++ actionText ++ "</div>\n    " } ::
        log.take 9 ∧
    (updateActivityLog platform lastAction log).state.length = min (log.length + 1) 10 ∧
    (updateActivityLog platform lastAction log).state.length ≤ 10 := by
  have hprops : ∃ props, lookupProperty props "time" = time ∧
      lookupProperty props "action" = action ∧
      updateActivityLog platform lastAction log =
        (match dateArgument (lookupProperty props "time") with
          | .error e => ⟨log, some e⟩
          | .ok converted =>
            match (lookupProperty props "action").toJSString with
            | .error e => ⟨log, some e⟩
            | .ok text =>
              ⟨({ className := "activity-item",
                  innerHTML :=
                    "\n        <div class=\"activity-time\">" ++
                    platform.dateToLocaleString converted ++
                    "</div>\n        <div class=\"activity-content\">" ++ text ++
                    "</div>\n    " } :: log).take 10, none⟩) := by
    cases lastAction with
    | object ps =>
      refine ⟨ps, ?_, ?_, ?_⟩
      · simpa [templateField] using htime
      · simpa [templateField] using haction
      · simp only [updateActivityLog, htruthy, Bool.not_true, Bool.false_eq_true, if_false]
    | array items =>
      refine ⟨[], ?_, ?_, ?_⟩
      · simpa [templateField] using htime
      · simpa [templateField] using haction
      · simp only [updateActivityLog, htruthy, Bool.not_true, Bool.false_eq_true, if_false]
    | prim p =>
      refine ⟨[], ?_, ?_, ?_⟩
      · cases p <;> simp [templateField, truthy] at htime htruthy ⊢ <;> exact htime
      · cases p <;> simp [templateField, truthy] at haction htruthy ⊢ <;> exact haction
      · simp only [updateActivityLog, htruthy, Bool.not_true, Bool.false_eq_true, if_false]
  obtain ⟨props, h1, h2, hrun⟩ := hprops
  rw [hrun, h1, h2]
  simp only [hdate, htext]
  refine ⟨trivial, ?_, ?_, ?_⟩
  · rfl
  · simp only [List.length_take, List.length_cons]
    omega
  · simp only [List.length_take, List.length_cons]
    omega

/-- Witness for C25: an eleventh entry on a log of ten, whose new entry comes first. -/
theorem updateActivityLog_newest_first_witness :
    (updateActivityLog samplePlatform
      (.object [("time", .prim (.string "2025-01-01T08:57:30.000Z")),
        ("action", .prim (.string "데이터 수집 완료"))])
      (List.replicate 10 { className := "activity-item", innerHTML := "old" })).state.length =
      min (10 + 1) 10 ∧
    (updateActivityLog samplePlatform
      (.object [("time", .prim (.string "2025-01-01T08:57:30.000Z")),
        ("action", .prim (.string "데이터 수집 완료"))])
      (List.replicate 10 { className := "activity-item", innerHTML := "old" })).state.head? =
      some { className := "activity-item",
             innerHTML :=
               "\n        <div class=\"activity-time\">2025-01-01T08:57:30.000Z" ++
               "</div>\n        <div class=\"activity-content\">데이터 수집 완료</div>\n    " } :=
  ⟨(updateActivityLog_newest_first samplePlatform
    (.object [("time", .prim (.string "2025-01-01T08:57:30.000Z")),
      ("action", .prim (.string "데이터 수집 완료"))])
    (.prim (.string "2025-01-01T08:57:30.000Z")) (.prim (.string "2025-01-01T08:57:30.000Z"))
    (.prim (.string "데이터 수집 완료"))
    "데이터 수집 완료" (List.replicate 10 { className := "activity-item", innerHTML := "old" })
    rfl rfl rfl rfl rfl).2.2.1, by decide⟩

/-! ## Theorems: the preview of a raw snapshot -/

theorem updateStatCards_controls (platform : Platform) (props : List (String × JSValue))
    (page : DocsPage) :
    (updateStatCards platform props page).state.templateControl = page.templateControl ∧
    (updateStatCards platform props page).state.customControl = page.customControl := by
  simp only [updateStatCards, Outcome.andThen, onCard]
  generalize updateStatCard platform (lookupProperty props "current_score")
    (lookupProperty props "score_change") "점" page.currentScore = o1
  rcases o1 with ⟨c1, _ | e1⟩
  · simp only []
    generalize updateStatCard platform (lookupProperty props "completed_missions")
      (lookupProperty props "mission_change") "개" page.completedMissions = o2
    rcases o2 with ⟨c2, _ | e2⟩
    · simp only []
      generalize updateStatCard platform (lookupProperty props "active_riders")
        (lookupProperty props "riders_change") "명" page.activeRiders = o3
      rcases o3 with ⟨c3, _ | e3⟩
      · simp only []
        cases tenthText platform (lookupProperty props "estimated_income") with
        | error e => exact ⟨rfl, rfl⟩
        | ok tenth => exact ⟨rfl, rfl⟩
      · exact ⟨rfl, rfl⟩
    · exact ⟨rfl, rfl⟩
  · exact ⟨rfl, rfl⟩

theorem updateChartsAndLog_controls (platform : Platform) (props : List (String × JSValue))
    (page : DocsPage) :
    (updateChartsAndLog platform props page).state.templateControl = page.templateControl ∧
    (updateChartsAndLog platform props page).state.customControl = page.customControl := by
  unfold updateChartsAndLog
  rcases updatePerformanceChart platform (lookupProperty props "performance_history")
      page.performanceChart with ⟨chart, _ | e⟩
  · exact ⟨rfl, rfl⟩
  · exact ⟨rfl, rfl⟩

theorem docs_updateDashboard_completes (platform : Platform)
    (props : List (String × JSValue)) (page : DocsPage)
    (h : (Docs.updateDashboard platform (.object props) page).raised = none) :
    ∃ before, before.templateControl = page.templateControl ∧
      before.customControl = page.customControl ∧
      Docs.updateDashboard platform (.object props) page =
        Docs.updateMessagePreview platform props before := by
  cases hsnap : snapshotOf props with
  | none =>
    simp only [Docs.updateDashboard, hsnap] at h
    cases h
  | some snapshot =>
    cases hverdict : hasDataChanged page.lastData (some snapshot) with
    | error e =>
      simp only [Docs.updateDashboard, hsnap, hverdict] at h
      cases h
    | ok verdict =>
      obtain ⟨hasChanges, held⟩ := verdict
      have hrun : Docs.updateDashboard platform (.object props) page =
          ((updateStatCards platform props (startFade hasChanges held page)).andThen fun p1 =>
            (updateChartsAndLog platform props p1).andThen fun p2 =>
              Docs.updateMessagePreview platform props p2) := by
        simp only [Docs.updateDashboard, hsnap, hverdict]
      have hfade : (startFade hasChanges held page).templateControl = page.templateControl ∧
          (startFade hasChanges held page).customControl = page.customControl := by
        cases hasChanges <;> exact ⟨rfl, rfl⟩
      have hcards := updateStatCards_controls platform props (startFade hasChanges held page)
      rw [hrun] at h ⊢
      cases h1 : (updateStatCards platform props (startFade hasChanges held page)).raised with
      | some e =>
        simp only [Outcome.andThen, h1] at h
        cases h
      | none =>
        have hcharts := updateChartsAndLog_controls platform props
          (updateStatCards platform props (startFade hasChanges held page)).state
        cases h2 : (updateChartsAndLog platform props
            (updateStatCards platform props (startFade hasChanges held page)).state).raised with
        | some e =>
          simp only [Outcome.andThen, h1, h2] at h
          cases h
        | none =>
          refine ⟨(updateChartsAndLog platform props
            (updateStatCards platform props (startFade hasChanges held page)).state).state,
            ?_, ?_, ?_⟩
          · rw [hcharts.1, hcards.1, hfade.1]
          · rw [hcharts.2, hcards.2, hfade.2]
          · simp only [Outcome.andThen, h1, h2]

theorem docs_updateMessagePreview_tokens (platform : Platform) (fields : FieldMap)
    (page : DocsPage) (title : String) (contentTokens footerTokens : List Token)
    (hfields : plainFields fields = true)
    (hcustom : page.templateControl ≠ "custom")
    (htemplate : messageTemplates page.templateControl =
      templateObject title ⟨tokensText contentTokens⟩ ⟨tokensText footerTokens⟩)
    (hc : wellFormedTokens contentTokens = true) (hf : wellFormedTokens footerTokens = true) :
    Docs.updateMessagePreview platform fields page =
      ⟨{ page with preview := some (.innerHTML (previewHTML
          { title := title, content := ⟨substitutedText fields contentTokens⟩,
            footer := ⟨substitutedText fields footerTokens⟩ })) }, none⟩ := by
  have hrender : renderTemplate (messageTemplates page.templateControl) fields =
      .ok { title := title, content := ⟨substitutedText fields contentTokens⟩,
            footer := ⟨substitutedText fields footerTokens⟩ } := by
    rw [htemplate]
    simp [renderTemplate, templateObject, templateField, lookupProperty,
      substituteAll_tokens fields hfields _ hc, substituteAll_tokens fields hfields _ hf,
      JSValue.toJSString, JSPrim.toJSString]
  simp only [Docs.updateMessagePreview, customCovered, Dashboard.updateMessagePreview, hcustom,
    if_false, if_true, Option.getD_some, hrender]

theorem raw_simple (timestamp score missions riders income scoreChange missionChange
    ridersChange history distribution status lastAction : JSValue) :
    (String.mk (substitutedText
      (snapshotWithSampleKeys timestamp score missions riders income scoreChange missionChange
        ridersChange history distribution status lastAction) simpleContentTokens) =
      "점수 \x7bscore\x7d점 | 미션 " ++ stringOf missions ++ "개 | 라이더 " ++ stringOf riders ++
        "명") ∧
    String.mk (substitutedText
      (snapshotWithSampleKeys timestamp score missions riders income scoreChange missionChange
        ridersChange history distribution status lastAction) simpleFooterTokens) =
      stringOf timestamp := by
  constructor
  · apply String.ext
    simp [substitutedText, Token.substituted, lookupField, snapshotWithSampleKeys, stringOf,
      simpleContentTokens, placeholderText, lbrace, rbrace]
  · apply String.ext
    simp [substitutedText, Token.substituted, lookupField, snapshotWithSampleKeys, stringOf,
      simpleFooterTokens, placeholderText, lbrace, rbrace]

theorem raw_standard (timestamp score missions riders income scoreChange missionChange
    ridersChange history distribution status lastAction : JSValue) :
    (String.mk (substitutedText
      (snapshotWithSampleKeys timestamp score missions riders income scoreChange missionChange
        ridersChange history distribution status lastAction) standardContentTokens) =
      "📊 현재 점수: \x7bscore\x7d점\n✅ 완료 미션: " ++ stringOf missions ++
        "개\n🏍️ 활성 라이더: " ++ stringOf riders ++ "명\n💰 예상 수익: " ++ stringOf income ++
        "원") ∧
    String.mk (substitutedText
      (snapshotWithSampleKeys timestamp score missions riders income scoreChange missionChange
        ridersChange history distribution status lastAction) standardFooterTokens) =
      "📅 " ++ stringOf timestamp := by
  constructor
  · apply String.ext
    simp [substitutedText, Token.substituted, lookupField, snapshotWithSampleKeys, stringOf,
      standardContentTokens, placeholderText, lbrace, rbrace]
  · apply String.ext
    simp [substitutedText, Token.substituted, lookupField, snapshotWithSampleKeys, stringOf,
      standardFooterTokens, placeholderText, lbrace, rbrace]

theorem raw_detailed (timestamp score missions riders income scoreChange missionChange
    ridersChange history distribution status lastAction : JSValue) :
    (String.mk (substitutedText
      (snapshotWithSampleKeys timestamp score missions riders income scoreChange missionChange
        ridersChange history distribution status lastAction) detailedContentTokens) =
      "🎯 성과 지표\n━━━━━━━━━━━━━━━━━━━━━\n📊 현재 점수: \x7bscore\x7d점 (" ++
        stringOf scoreChange ++ ")\n✅ 완료 미션: " ++ stringOf missions ++ "개 (" ++
        stringOf missionChange ++ ")\n🏍️ 활성 라이더: " ++ stringOf riders ++ "명 (" ++
        stringOf ridersChange ++ ")\n💰 예상 수익: " ++ stringOf income ++
        "원 (\x7bincome_change\x7d)\n\n📈 시간대별 추이\n━━━━━━━━━━━━━━━━━━━━━\n🕒 피크시간 성과율: \x7bpeak_performance\x7d%\n⏰ 평균 응답시간: \x7bavg_response_time\x7d분\n🎯 목표 달성률: \x7bgoal_achievement\x7d%") ∧
    String.mk (substitutedText
      (snapshotWithSampleKeys timestamp score missions riders income scoreChange missionChange
        ridersChange history distribution status lastAction) detailedFooterTokens) =
      "📅 " ++ stringOf timestamp ++ " | 다음 업데이트: \x7bnext_update\x7d" := by
  constructor
  · apply String.ext
    simp [substitutedText, Token.substituted, lookupField, snapshotWithSampleKeys, stringOf,
      detailedContentTokens, placeholderText, lbrace, rbrace]
  · apply String.ext
    simp [substitutedText, Token.substituted, lookupField, snapshotWithSampleKeys, stringOf,
      detailedFooterTokens, placeholderText, lbrace, rbrace]

set_option maxRecDepth 100000 in
theorem messageTemplates_tokens :
    messageTemplates "standard" =
      templateObject "🚀 G라이더 현황 알림" ⟨tokensText standardContentTokens⟩
        ⟨tokensText standardFooterTokens⟩ ∧
    messageTemplates "detailed" =
      templateObject "📈 G라이더 상세 현황 리포트" ⟨tokensText detailedContentTokens⟩
        ⟨tokensText detailedFooterTokens⟩ ∧
    messageTemplates "simple" =
      templateObject "G라이더" ⟨tokensText simpleContentTokens⟩
        ⟨tokensText simpleFooterTokens⟩ := by
  refine ⟨?_, ?_, ?_⟩ <;> rfl

set_option maxRecDepth 100000 in
/-- C30, as the code behaves: a snapshot with the keys of `generateSampleData` whose
completed count is the text `$&` leaves the placeholder of `completed_missions` in the
preview, next to the placeholder of `score`. -/
theorem updateDashboard_dollar_value_keeps_placeholder :
    dollarSnapshot.map Prod.fst = (sampleProperties sampleDraws).map Prod.fst ∧
    (Docs.updateDashboard samplePlatform (.object dollarSnapshot)
      { sampleDocsPage with templateControl := "simple" }).raised = none ∧
    (Docs.updateDashboard samplePlatform (.object dollarSnapshot)
      { sampleDocsPage with templateControl := "simple" }).state.preview =
      some (.innerHTML (previewHTML
        { title := "G라이더",
          content := "점수 \x7bscore\x7d점 | 미션 \x7bcompleted_missions\x7d개 | 라이더 31명",
          footer := "2025-01-01T09:00:00.000Z" })) := by
  refine ⟨?_, ?_, ?_⟩ <;> decide

/-- C30 (amended): for every snapshot with the keys of `generateSampleData` whose values
are plain (their string forms hold neither `$` nor an opening brace), whenever
`updateDashboard` completes on it the preview is the selected built-in template with the
placeholder of `score` left as literal text and the placeholders of `completed_missions`,
`active_riders` and of every other key of the snapshot replaced by the string form of
the value; and `updateDashboard` completes on every snapshot that `generateSampleData`
builds with a score change the model can print. -/
theorem updateDashboard_previews_raw_snapshot (platform : Platform) (page : DocsPage)
    (timestamp score missions riders income scoreChange missionChange ridersChange history
      distribution status lastAction : JSValue)
    (hplain : plainFields (snapshotWithSampleKeys timestamp score missions riders income
      scoreChange missionChange ridersChange history distribution status lastAction) = true)
    (hcompletes : (Docs.updateDashboard platform
      (.object (snapshotWithSampleKeys timestamp score missions riders income scoreChange
        missionChange ridersChange history distribution status lastAction)) page).raised =
      none) :
    (page.templateControl = "standard" →
      (Docs.updateDashboard platform
        (.object (snapshotWithSampleKeys timestamp score missions riders income scoreChange
          missionChange ridersChange history distribution status lastAction))
        page).state.preview =
      some (.innerHTML (previewHTML
        { title := "🚀 G라이더 현황 알림",
          content := "📊 현재 점수: \x7bscore\x7d점\n✅ 완료 미션: " ++ stringOf missions ++
            "개\n🏍️ 활성 라이더: " ++ stringOf riders ++ "명\n💰 예상 수익: " ++
            stringOf income ++ "원",
          footer := "📅 " ++ stringOf timestamp }))) ∧
    (page.templateControl = "detailed" →
      (Docs.updateDashboard platform
        (.object (snapshotWithSampleKeys timestamp score missions riders income scoreChange
          missionChange ridersChange history distribution status lastAction))
        page).state.preview =
      some (.innerHTML (previewHTML
        { title := "📈 G라이더 상세 현황 리포트",
          content :=
            "🎯 성과 지표\n━━━━━━━━━━━━━━━━━━━━━\n📊 현재 점수: \x7bscore\x7d점 (" ++
            stringOf scoreChange ++ ")\n✅ 완료 미션: " ++ stringOf missions ++ "개 (" ++
            stringOf missionChange ++ ")\n🏍️ 활성 라이더: " ++ stringOf riders ++ "명 (" ++
            stringOf ridersChange ++ ")\n💰 예상 수익: " ++ stringOf income ++
            "원 (\x7bincome_change\x7d)\n\n📈 시간대별 추이\n━━━━━━━━━━━━━━━━━━━━━\n🕒 피크시간 성과율: \x7bpeak_performance\x7d%\n⏰ 평균 응답시간: \x7bavg_response_time\x7d분\n🎯 목표 달성률: \x7bgoal_achievement\x7d%",
          footer := "📅 " ++ stringOf timestamp ++ " | 다음 업데이트: \x7bnext_update\x7d" }))) ∧
    (page.templateControl = "simple" →
      (Docs.updateDashboard platform
        (.object (snapshotWithSampleKeys timestamp score missions riders income scoreChange
          missionChange ridersChange history distribution status lastAction))
        page).state.preview =
      some (.innerHTML (previewHTML
        { title := "G라이더",
          content := "점수 \x7bscore\x7d점 | 미션 " ++ stringOf missions ++ "개 | 라이더 " ++
            stringOf riders ++ "명",
          footer := stringOf timestamp }))) ∧
    ∀ draws : SampleDraws, hasStringForm (.prim draws.scoreChange) = true →
      (page.templateControl = "standard" ∨ page.templateControl = "detailed" ∨
        page.templateControl = "simple") →
      (Docs.updateDashboard platform (generateSampleData draws) page).raised = none := by
  obtain ⟨before, ht, -, hrun⟩ := docs_updateDashboard_completes platform _ page hcompletes
  rw [hrun]
  refine ⟨?_, ?_, ?_, ?_⟩
  · intro htemplate
    have hcustom : before.templateControl ≠ "custom" := by rw [ht, htemplate]; decide
    rw [docs_updateMessagePreview_tokens platform _ before "🚀 G라이더 현황 알림"
      standardContentTokens standardFooterTokens hplain hcustom
      (by rw [ht, htemplate]; exact messageTemplates_tokens.1) rfl rfl]
    rw [(raw_standard timestamp score missions riders income scoreChange missionChange
      ridersChange history distribution status lastAction).1,
      (raw_standard timestamp score missions riders income scoreChange missionChange
      ridersChange history distribution status lastAction).2]
  · intro htemplate
    have hcustom : before.templateControl ≠ "custom" := by rw [ht, htemplate]; decide
    rw [docs_updateMessagePreview_tokens platform _ before "📈 G라이더 상세 현황 리포트"
      detailedContentTokens detailedFooterTokens hplain hcustom
      (by rw [ht, htemplate]; exact messageTemplates_tokens.2.1) rfl rfl]
    rw [(raw_detailed timestamp score missions riders income scoreChange missionChange
      ridersChange history distribution status lastAction).1,
      (raw_detailed timestamp score missions riders income scoreChange missionChange
      ridersChange history distribution status lastAction).2]
  · intro htemplate
    have hcustom : before.templateControl ≠ "custom" := by rw [ht, htemplate]; decide
    rw [docs_updateMessagePreview_tokens platform _ before "G라이더"
      simpleContentTokens simpleFooterTokens hplain hcustom
      (by rw [ht, htemplate]; exact messageTemplates_tokens.2.2) rfl rfl]
    rw [(raw_simple timestamp score missions riders income scoreChange missionChange
      ridersChange history distribution status lastAction).1,
      (raw_simple timestamp score missions riders income scoreChange missionChange
      ridersChange history distribution status lastAction).2]
  · intro draws hchange hbuiltin
    obtain ⟨rendered, hrendered, -⟩ :=
      docs_updateDashboard_sample platform draws page hbuiltin hchange
    rw [hrendered]

set_option maxRecDepth 100000 in
/-- Witness for C30: the generated sample on the sample page, whose standard template
shows the placeholder of `score` and the numbers 22, 31 and 90840. -/
theorem updateDashboard_previews_raw_snapshot_witness :
    (Docs.updateDashboard samplePlatform
      (.object (snapshotWithSampleKeys
        (.prim (.string "2025-01-01T09:00:00.000Z")) (.prim (.number 757))
        (.prim (.number 22)) (.prim (.number 31)) (.prim (.number 90840))
        (.prim (.fraction "12.5")) (.prim (.number 1)) (.prim (.number (-2)))
        (.array (generatePerformanceHistory sampleDraws))
        (.object [("completed", .prim (.number 20)), ("in_progress", .prim (.number 5)),
          ("pending", .prim (.number 7))])
        (.prim (.string "operational"))
        (.object [("time", .prim (.string "2025-01-01T08:57:30.000Z")),
          ("action", .prim (.string "데이터 수집 완료")),
          ("status", .prim (.string "success"))])))
      sampleDocsPage).state.preview =
    some (.innerHTML (previewHTML
      { title := "🚀 G라이더 현황 알림",
        content := "📊 현재 점수: \x7bscore\x7d점\n✅ 완료 미션: " ++
          stringOf (.prim (.number 22)) ++ "개\n🏍️ 활성 라이더: " ++
          stringOf (.prim (.number 31)) ++ "명\n💰 예상 수익: " ++
          stringOf (.prim (.number 90840)) ++ "원",
        footer := "📅 " ++ stringOf (.prim (.string "2025-01-01T09:00:00.000Z")) })) ∧
    stringOf (.prim (.number 22)) = "22" ∧
    generateSampleData sampleDraws =
      .object (snapshotWithSampleKeys
        (.prim (.string "2025-01-01T09:00:00.000Z")) (.prim (.number 757))
        (.prim (.number 22)) (.prim (.number 31)) (.prim (.number 90840))
        (.prim (.fraction "12.5")) (.prim (.number 1)) (.prim (.number (-2)))
        (.array (generatePerformanceHistory sampleDraws))
        (.object [("completed", .prim (.number 20)), ("in_progress", .prim (.number 5)),
          ("pending", .prim (.number 7))])
        (.prim (.string "operational"))
        (.object [("time", .prim (.string "2025-01-01T08:57:30.000Z")),
          ("action", .prim (.string "데이터 수집 완료")),
          ("status", .prim (.string "success"))])) :=
  ⟨(updateDashboard_previews_raw_snapshot samplePlatform sampleDocsPage
    (.prim (.string "2025-01-01T09:00:00.000Z")) (.prim (.number 757)) (.prim (.number 22))
    (.prim (.number 31)) (.prim (.number 90840)) (.prim (.fraction "12.5"))
    (.prim (.number 1)) (.prim (.number (-2))) (.array (generatePerformanceHistory sampleDraws))
    (.object [("completed", .prim (.number 20)), ("in_progress", .prim (.number 5)),
      ("pending", .prim (.number 7))])
    (.prim (.string "operational"))
    (.object [("time", .prim (.string "2025-01-01T08:57:30.000Z")),
      ("action", .prim (.string "데이터 수집 완료")), ("status", .prim (.string "success"))])
    (by decide) (by decide)).1 rfl, by decide, rfl⟩

/-! ## Theorems: refresh requests -/

theorem refreshRun_requests (platform : Platform) (n : Nat) :
    ∀ st, (refreshRun platform st (List.replicate n .refreshRequested)).fetching.length =
        st.fetching.length + n ∧
      (refreshRun platform st (List.replicate n .refreshRequested)).page = st.page := by
  induction n with
  | zero => intro st; exact ⟨rfl, rfl⟩
  | succ k ih =>
    intro st
    have h := ih (startRefresh st)
    simp only [List.replicate_succ, refreshRun, refreshStep]
    refine ⟨?_, h.2⟩
    rw [h.1]
    simp only [startRefresh, List.length_append, List.length_singleton]
    omega

set_option maxRecDepth 100000 in
/-- C23, as the code behaves: `Ctrl+R` pressed twice on the sample page leaves two fetches
in flight at once, and when the second settles before the first the page ends up
showing the result of the first. -/
theorem refresh_requests_overlap :
    (refreshRun samplePlatform ⟨sampleDocsPage, [], 0⟩
      [.keydown true "r", .keydown true "r"]).fetching = [0, 1] ∧
    (refreshRun samplePlatform ⟨sampleDocsPage, [], 0⟩
      [.keydown true "r", .keydown true "r",
        .fetchSettled 1 sampleDraws "2025. 1. 1. 오전 9:00:02"
          (.ok (generateSampleData { sampleDraws with score := 55 })),
        .fetchSettled 0 sampleDraws "2025. 1. 1. 오전 9:00:03"
          (.ok (generateSampleData sampleDraws))]).page.currentScore.value = "757점" ∧
    (refreshRun samplePlatform ⟨sampleDocsPage, [], 0⟩
      [.keydown true "r", .keydown true "r",
        .fetchSettled 1 sampleDraws "2025. 1. 1. 오전 9:00:02"
          (.ok (generateSampleData { sampleDraws with score := 55 }))]).page.currentScore.value =
      "775점" := by
  refine ⟨?_, ?_, ?_⟩ <;> decide

/-- C23 (amended): refresh requests are not serialised. Every request, from the keyboard
or from another caller, sends its own request at once and is added to the fetches in
flight, whatever is in flight already: after `n` requests in a row there are `n` more.
The result of a fetch in flight is ingested and rendered in one step when it settles,
that of `refreshData` on the page as it is then, and only that call leaves the fetches
in flight. -/
theorem refresh_requests_not_serialised (platform : Platform) (st : RefreshState)
    (n call : Nat) (draws : SampleDraws) (nowText : String) (outcome : FetchOutcome)
    (hcall : call ∈ st.fetching) :
    (refreshStep platform st (.keydown true "r")).fetching = st.fetching ++ [st.nextCall] ∧
    (refreshStep platform st .refreshRequested).fetching = st.fetching ++ [st.nextCall] ∧
    (refreshRun platform st (List.replicate n .refreshRequested)).fetching.length =
      st.fetching.length + n ∧
    (refreshRun platform st (List.replicate n .refreshRequested)).page = st.page ∧
    (refreshStep platform st (.fetchSettled call draws nowText outcome)).page =
      (Docs.refreshData platform draws nowText outcome st.page).state ∧
    (refreshStep platform st (.fetchSettled call draws nowText outcome)).fetching =
      st.fetching.filter fun c => c != call := by
  refine ⟨rfl, rfl, (refreshRun_requests platform n st).1, (refreshRun_requests platform n st).2,
    ?_, ?_⟩
  · simp only [refreshStep, hcall, if_true]
  · simp only [refreshStep, hcall, if_true]

/-- Witness for C23: three requests on the sample page whose first fetch is still in
flight. -/
theorem refresh_requests_not_serialised_witness :
    (0 : Nat) ∈ (⟨sampleDocsPage, [0], 1⟩ : RefreshState).fetching ∧
    (refreshRun samplePlatform ⟨sampleDocsPage, [0], 1⟩
      (List.replicate 3 .refreshRequested)).fetching.length = 1 + 3 :=
  ⟨by decide,
    (refresh_requests_not_serialised samplePlatform ⟨sampleDocsPage, [0], 1⟩ 3 0 sampleDraws
      "2025. 1. 1. 오전 9:00:00" .rejected (by decide)).2.2.1⟩

/-! ## Theorems: the control centre -/

theorem floor_div_literal (d : Int) (k : Nat) : ⌊(d : ℚ) / (k : ℚ)⌋ = d / (k : Int) :=
  Rat.floor_intCast_div_natCast d k

/-- C27, as stated, fails: the timestamp `0`, the first millisecond of 1970, is not
missing and lies `1735727400000` ms, more than a day, before the current time of the
samples, where the claim gives `20089일 전`; the guard `if (!timestamp)` takes the
number `0` for a missing timestamp and `formatTimeAgo` answers `알 수 없음`. -/
theorem formatTimeAgo_epoch_unknown :
    sampleTimeValue (.number 0) = some 0 ∧
    (86400000 : Int) ≤ 1735727400000 - 0 ∧
    ((1735727400000 : Int) - 0) / 86400000 = 20089 ∧
    formatTimeAgo sampleTimeValue 1735727400000 (.number 0) = .ok "알 수 없음" ∧
    formatTimeAgo sampleTimeValue 1735727400000 (.number 0) ≠ .ok "20089일 전" := by
  refine ⟨rfl, by decide, by decide, rfl, ?_⟩
  intro h
  have h2 : formatTimeAgo sampleTimeValue 1735727400000 (.number 0) = .ok "알 수 없음" := rfl
  rw [h2] at h
  exact absurd (Except.ok.inj h) (by decide)

/-- C27, amended: `formatTimeAgo` answers `알 수 없음` for every falsy timestamp
(`undefined`, `null`, the empty text, the number `0`, `false`), and for a truthy
timestamp that is a valid date `d` milliseconds before the current time: `방금 전` when
`d < 60000`, also for negative `d`; the floor `m` of `d / 60000` minutes, between 1 and
59, when `60000 ≤ d < 3600000`; the floor `h` of `d / 3600000` hours, between 1 and 23,
when `3600000 ≤ d < 86400000`; and the floor of `d / 86400000` days, at least 1,
otherwise. The floors are those of the rational quotients. -/
theorem formatTimeAgo_ranges (timeValue : JSPrim → Option Int) (now past : Int)
    (timestamp : JSPrim) (htruthy : truthy (.prim timestamp) = true)
    (hvalue : timeValue timestamp = some past)
    (hrange : (now - past).natAbs < 4503599627370496) :
    (∀ missing : JSPrim, truthy (.prim missing) = false →
      formatTimeAgo timeValue now missing = .ok "알 수 없음") ∧
    (formatTimeAgo timeValue now .undefined = .ok "알 수 없음" ∧
      formatTimeAgo timeValue now .null = .ok "알 수 없음" ∧
      formatTimeAgo timeValue now (.string "") = .ok "알 수 없음" ∧
      formatTimeAgo timeValue now (.number 0) = .ok "알 수 없음" ∧
      formatTimeAgo timeValue now (.bool false) = .ok "알 수 없음") ∧
    (now - past < 60000 → formatTimeAgo timeValue now timestamp = .ok "방금 전") ∧
    (60000 ≤ now - past → now - past < 3600000 →
      formatTimeAgo timeValue now timestamp =
        .ok (toString ⌊((now - past : Int) : ℚ) / 60000⌋ ++ "분 전") ∧
      1 ≤ ⌊((now - past : Int) : ℚ) / 60000⌋ ∧ ⌊((now - past : Int) : ℚ) / 60000⌋ ≤ 59) ∧
    (3600000 ≤ now - past → now - past < 86400000 →
      formatTimeAgo timeValue now timestamp =
        .ok (toString ⌊((now - past : Int) : ℚ) / 3600000⌋ ++ "시간 전") ∧
      1 ≤ ⌊((now - past : Int) : ℚ) / 3600000⌋ ∧
      ⌊((now - past : Int) : ℚ) / 3600000⌋ ≤ 23) ∧
    (86400000 ≤ now - past →
      formatTimeAgo timeValue now timestamp =
        .ok (toString ⌊((now - past : Int) : ℚ) / 86400000⌋ ++ "일 전") ∧
      1 ≤ ⌊((now - past : Int) : ℚ) / 86400000⌋) := by
  have hm : ⌊((now - past : Int) : ℚ) / 60000⌋ = (now - past) / 60000 := by
    have := floor_div_literal (now - past) 60000
    simpa using this
  have hh : ⌊((now - past : Int) : ℚ) / 3600000⌋ = (now - past) / 3600000 := by
    have := floor_div_literal (now - past) 3600000
    simpa using this
  have hd : ⌊((now - past : Int) : ℚ) / 86400000⌋ = (now - past) / 86400000 := by
    have := floor_div_literal (now - past) 86400000
    simpa using this
  have hnot : ¬ 4503599627370496 ≤ (now - past).natAbs := by omega
  have hrun : formatTimeAgo timeValue now timestamp =
      (if (now - past) / 1000 < 60 then .ok "방금 전"
        else if (now - past) / 1000 / 60 < 60 then
          .ok (toString ((now - past) / 1000 / 60) ++ "분 전")
        else if (now - past) / 1000 / 60 / 60 < 24 then
          .ok (toString ((now - past) / 1000 / 60 / 60) ++ "시간 전")
        else .ok (toString ((now - past) / 1000 / 60 / 60 / 24) ++ "일 전")) := by
    simp only [formatTimeAgo, htruthy, hvalue, Bool.not_true, Bool.false_eq_true, if_false,
      hnot]
  have e1 : (now - past) / 1000 / 60 = (now - past) / 60000 := by omega
  have e2 : (now - past) / 1000 / 60 / 60 = (now - past) / 3600000 := by omega
  have e3 : (now - past) / 1000 / 60 / 60 / 24 = (now - past) / 86400000 := by omega
  rw [hm, hh, hd, hrun, e3, e2, e1]
  refine ⟨?_, ⟨rfl, rfl, rfl, rfl, rfl⟩, ?_, ?_, ?_, ?_⟩
  · intro missing hmissing
    simp only [formatTimeAgo, hmissing, Bool.not_false, if_true]
  · intro h
    rw [if_pos (by omega)]
  · intro h1 h2
    rw [if_neg (by omega), if_pos (by omega)]
    exact ⟨rfl, by omega, by omega⟩
  · intro h1 h2
    rw [if_neg (by omega), if_neg (by omega), if_pos (by omega)]
    exact ⟨rfl, by omega, by omega⟩
  · intro h1
    rw [if_neg (by omega), if_neg (by omega), if_neg (by omega)]
    exact ⟨rfl, by omega⟩

/-- Witness for C27: a status updated ninety minutes ago was updated one hour ago. -/
theorem formatTimeAgo_ranges_witness :
    formatTimeAgo sampleTimeValue 1735727400000 (.string "2025-01-01T09:00:00.000Z") =
      .ok (toString ⌊(((1735727400000 : Int) - 1735722000000 : Int) : ℚ) / 3600000⌋ ++
        "시간 전") ∧
    formatTimeAgo sampleTimeValue 1735727400000 (.string "2025-01-01T09:00:00.000Z") =
      .ok "1시간 전" :=
  ⟨((formatTimeAgo_ranges sampleTimeValue 1735727400000 1735722000000
      (.string "2025-01-01T09:00:00.000Z") rfl rfl (by decide)).2.2.2.2.1
      (by decide) (by decide)).1, rfl⟩

theorem updateSystemStatusDisplay_covered (platform : Platform)
    (timeValue : JSPrim → Option Int) (now : Int) (st : ControlCenterState)
    (hactive : hasStringForm (.prim st.systemStatus.activeFunctions) = true)
    (hrate : hasStringForm (.prim st.systemStatus.successRate) = true)
    (hago : ∃ ago, formatTimeAgo timeValue now st.systemStatus.lastUpdate = .ok ago) :
    ∃ display, updateSystemStatusDisplay platform timeValue now st =
      .ok { st with display := display } := by
  obtain ⟨rate, hrate⟩ := toJSString_of_hasStringForm _ hrate
  obtain ⟨ago, hago⟩ := hago
  have hactive2 : ∃ active, textContentOf st.systemStatus.activeFunctions = .ok active := by
    obtain ⟨text, htext⟩ := toJSString_of_hasStringForm _ hactive
    cases h : st.systemStatus.activeFunctions with
    | undefined => exact ⟨_, rfl⟩
    | null => exact ⟨_, rfl⟩
    | bool b => rw [h] at htext; exact ⟨text, htext⟩
    | number n => rw [h] at htext; exact ⟨text, htext⟩
    | fraction t => rw [h] at htext; exact ⟨text, htext⟩
    | string s => rw [h] at htext; exact ⟨text, htext⟩
  obtain ⟨active, hactive2⟩ := hactive2
  simp only [JSValue.toJSString] at hrate
  simp only [updateSystemStatusDisplay, hactive2, hrate, hago]
  exact ⟨_, rfl⟩

/-- C28: `ControlCenter.executeFunction` returns `false` and leaves the state as it is
for an identifier that is not registered. For a registered one it returns `true` when
the response is ok and its body parses, with the status unchanged; and when the request
is rejected, the response is not ok or the body does not parse it returns `false`
without raising, with the number of executions increased by one. -/
theorem executeFunction_outcomes (platform : Platform) (timeValue : JSPrim → Option Int)
    (now : Int) (functionId : String) (outcome : FetchOutcome) (st : ControlCenterState)
    (hcovered : st.systemStatus.covered timeValue now = true) :
    (st.functions.lookup functionId = none →
      ControlCenter.executeFunction platform timeValue now functionId outcome st =
        .ok (false, st)) ∧
    (∀ func, st.functions.lookup functionId = some func →
      ∃ returned after,
        ControlCenter.executeFunction platform timeValue now functionId outcome st =
          .ok (returned, after) ∧
        (returned = true ↔ outcome.failed = false) ∧
        (outcome.failed = false → after.systemStatus = st.systemStatus) ∧
        (outcome.failed = true →
          after.systemStatus.totalExecutions = st.systemStatus.totalExecutions + 1)) := by
  constructor
  · intro hnone
    simp only [ControlCenter.executeFunction, hnone]
  · intro func hsome
    simp only [SystemStatus.covered, Bool.and_eq_true, decide_eq_true_eq] at hcovered
    obtain ⟨⟨⟨hcount, hactive⟩, hrate⟩, hago⟩ := hcovered
    have hago2 : ∃ ago, formatTimeAgo timeValue now st.systemStatus.lastUpdate = .ok ago := by
      cases h : formatTimeAgo timeValue now st.systemStatus.lastUpdate with
      | ok ago => exact ⟨ago, rfl⟩
      | error e => rw [h] at hago; cases hago
    have hfallback : ∃ display, executeFallback platform timeValue now func st =
        .ok (false, { st with
          systemStatus :=
            { st.systemStatus with totalExecutions := st.systemStatus.totalExecutions + 1 },
          toasts := ControlCenter.showNotification (func.name ++ " 실행 요청이 전송되었습니다.")
            "info" st.toasts,
          display := display }) := by
      obtain ⟨display, hdisplay⟩ := updateSystemStatusDisplay_covered platform timeValue now
        { st with
          systemStatus :=
            { st.systemStatus with totalExecutions := st.systemStatus.totalExecutions + 1 },
          toasts := ControlCenter.showNotification (func.name ++ " 실행 요청이 전송되었습니다.")
            "info" st.toasts }
        hactive hrate hago2
      refine ⟨display, ?_⟩
      simp only [executeFallback, incrementExecutions, hcount, if_true, hdisplay]
    obtain ⟨display, hfallback⟩ := hfallback
    cases outcome with
    | ok body =>
      have hrun : ControlCenter.executeFunction platform timeValue now functionId (.ok body) st =
          .ok (true,
            { st with
              toasts := ControlCenter.showNotification
                (func.name ++ "이(가) 성공적으로 실행되었습니다.") "success" st.toasts }) := by
        simp only [ControlCenter.executeFunction, hsome, fetchAndParse, tryCatch]
      exact ⟨true, _, hrun, by simp [FetchOutcome.failed], fun _ => rfl, fun h => by cases h⟩
    | rejected =>
      have hrun : ControlCenter.executeFunction platform timeValue now functionId .rejected st =
          executeFallback platform timeValue now func st := by
        simp only [ControlCenter.executeFunction, hsome, fetchAndParse, tryCatch]
      rw [hfallback] at hrun
      exact ⟨false, _, hrun, by simp [FetchOutcome.failed], fun h => (by cases h), fun _ => rfl⟩
    | notOk status =>
      have hrun : ControlCenter.executeFunction platform timeValue now functionId
          (.notOk status) st = executeFallback platform timeValue now func st := by
        simp only [ControlCenter.executeFunction, hsome, fetchAndParse, tryCatch]
      rw [hfallback] at hrun
      exact ⟨false, _, hrun, by simp [FetchOutcome.failed], fun h => (by cases h), fun _ => rfl⟩
    | badBody =>
      have hrun : ControlCenter.executeFunction platform timeValue now functionId .badBody st =
          executeFallback platform timeValue now func st := by
        simp only [ControlCenter.executeFunction, hsome, fetchAndParse, tryCatch]
      rw [hfallback] at hrun
      exact ⟨false, _, hrun, by simp [FetchOutcome.failed], fun h => (by cases h), fun _ => rfl⟩

/-- Witness for C28: on the sample control centre an unknown identifier gives `false`,
and the scheduler answers `false` with 1248 executions when the response has status
500. -/
theorem executeFunction_outcomes_witness :
    ControlCenter.executeFunction samplePlatform sampleTimeValue 1735727400000 "nothing"
      (.notOk 500) sampleControlCenter = .ok (false, sampleControlCenter) ∧
    ∃ returned after,
      ControlCenter.executeFunction samplePlatform sampleTimeValue 1735727400000 "scheduler"
        (.notOk 500) sampleControlCenter = .ok (returned, after) ∧
      (returned = true ↔ (FetchOutcome.notOk 500).failed = false) ∧
      after.systemStatus.totalExecutions = 1247 + 1 := by
  have h := executeFunction_outcomes samplePlatform sampleTimeValue 1735727400000
  refine ⟨(h "nothing" (.notOk 500) sampleControlCenter rfl).1 rfl, ?_⟩
  obtain ⟨returned, after, h1, h2, -, h4⟩ :=
    (h "scheduler" (.notOk 500) sampleControlCenter rfl).2 _ rfl
  exact ⟨returned, after, h1, h2, h4 rfl⟩

/-! ## Theorems: the refresh timer of the enhanced control centre -/

theorem applyTheme_timers (themeId : JSValue) (st : EnhancedState) :
    (applyTheme themeId st).state.intervals = st.intervals ∧
    (applyTheme themeId st).state.updateInterval = st.updateInterval ∧
    (applyTheme themeId st).state.timersCreated = st.timersCreated := by
  unfold applyTheme
  split
  · exact ⟨rfl, rfl, rfl⟩
  · split
    · exact ⟨rfl, rfl, rfl⟩
    · split <;> exact ⟨rfl, rfl, rfl⟩

theorem clearUpdateInterval_inOrder (st : EnhancedState) (h : timersInOrder st = true) :
    (clearUpdateInterval st).intervals = [] ∨
      (st.updateInterval = none ∧ (clearUpdateInterval st).intervals = []) := by
  obtain ⟨config, held, intervals, next, storage, theme, toasts⟩ := st
  cases intervals with
  | nil => cases held <;> simp [clearUpdateInterval]
  | cons timer rest =>
    cases rest with
    | nil =>
      cases held with
      | none => simp [timersInOrder] at h
      | some id =>
        simp only [timersInOrder, beq_iff_eq] at h
        simp [clearUpdateInterval, h]
    | cons second rest => cases held <;> simp [timersInOrder] at h

theorem clearUpdateInterval_fields (st : EnhancedState) :
    (clearUpdateInterval st).currentConfig = st.currentConfig ∧
    (clearUpdateInterval st).updateInterval = st.updateInterval := by
  unfold clearUpdateInterval
  split <;> exact ⟨rfl, rfl⟩

theorem applyConfig_timers (st : EnhancedState) (h : timersInOrder st = true) :
    timersInOrder (applyConfig st).state = true ∧
    ((applyConfig st).raised = none →
      (truthy (lookupProperty (applyConfig st).state.currentConfig "autoUpdate") = true →
        ∃ timer, (applyConfig st).state.intervals = [timer] ∧
          timesThousand (lookupProperty (applyConfig st).state.currentConfig "refreshInterval") =
            .ok timer.period) ∧
      (truthy (lookupProperty (applyConfig st).state.currentConfig "autoUpdate") = false →
        (applyConfig st).state.intervals = [])) := by
  obtain ⟨h1, h2, h3⟩ := applyTheme_timers (lookupProperty st.currentConfig "theme") st
  generalize hthemed : applyTheme (lookupProperty st.currentConfig "theme") st = themed
    at h1 h2 h3
  have horder : timersInOrder themed.state = true := by
    simp only [timersInOrder, h1, h2] at h ⊢
    exact h
  have hclear : (clearUpdateInterval themed.state).intervals = [] := by
    rcases clearUpdateInterval_inOrder themed.state horder with h | ⟨_, h⟩ <;> exact h
  obtain ⟨hconfig, hheld⟩ := clearUpdateInterval_fields themed.state
  have hrun : applyConfig st = themed.andThen fun themed =>
      if truthy (lookupProperty themed.currentConfig "autoUpdate") then
        match timesThousand (lookupProperty themed.currentConfig "refreshInterval") with
        | .error e => ⟨clearUpdateInterval themed, some e⟩
        | .ok period =>
          let cleared := clearUpdateInterval themed
          ⟨{ cleared with
              intervals := cleared.intervals ++ [⟨themed.timersCreated + 1, period⟩],
              updateInterval := some (themed.timersCreated + 1),
              timersCreated := themed.timersCreated + 1 }, none⟩
      else ⟨clearUpdateInterval themed, none⟩ := by
    simp only [applyConfig, hthemed]
  rw [hrun]
  obtain ⟨state, raised⟩ := themed
  cases raised with
  | some e =>
    simp only [Outcome.andThen]
    exact ⟨horder, fun h => by cases h⟩
  | none =>
    simp only [Outcome.andThen]
    cases hauto : truthy (lookupProperty state.currentConfig "autoUpdate") with
    | false =>
      simp only [Bool.false_eq_true, if_false, hconfig, hauto]
      refine ⟨?_, fun _ => ⟨fun h => (by cases h), fun _ => hclear⟩⟩
      simp only [timersInOrder, hclear]
    | true =>
      simp only [if_true]
      cases hperiod : timesThousand (lookupProperty state.currentConfig "refreshInterval") with
      | error e =>
        simp only
        refine ⟨?_, fun h => by cases h⟩
        simp only [timersInOrder, hclear]
      | ok period =>
        simp only [hclear, List.nil_append, hconfig, hauto, hperiod]
        refine ⟨?_, fun _ => ⟨fun _ => ⟨_, rfl, rfl⟩, fun h => by cases h⟩⟩
        simp [timersInOrder]

theorem saveConfig_timers (newConfig : List (String × JSValue)) (storageAccepts : Bool)
    (st : EnhancedState) (h : timersInOrder st = true) :
    timersInOrder (saveConfig newConfig storageAccepts st).state = true ∧
    ((saveConfig newConfig storageAccepts st).raised = none →
      (truthy (lookupProperty (saveConfig newConfig storageAccepts st).state.currentConfig
          "autoUpdate") = true →
        ∃ timer, (saveConfig newConfig storageAccepts st).state.intervals = [timer] ∧
          timesThousand (lookupProperty
            (saveConfig newConfig storageAccepts st).state.currentConfig "refreshInterval") =
            .ok timer.period) ∧
      (truthy (lookupProperty (saveConfig newConfig storageAccepts st).state.currentConfig
          "autoUpdate") = false →
        (saveConfig newConfig storageAccepts st).state.intervals = [])) := by
  unfold saveConfig
  simp only
  split
  · exact ⟨h, fun h => by cases h⟩
  · cases storageAccepts with
    | false => exact ⟨h, fun h => by cases h⟩
    | true =>
      simp only [if_true]
      rename_i text _
      have key := applyConfig_timers
        { st with
          currentConfig :=
            newConfig.foldl (fun config kv => defineProperty config kv.1 kv.2) st.currentConfig,
          storage := some (storedText text) } h
      generalize applyConfig _ = applied at key ⊢
      obtain ⟨state, raised⟩ := applied
      cases raised with
      | some e => exact ⟨key.1, fun h => by cases h⟩
      | none => exact ⟨key.1, fun _ => key.2 rfl⟩

theorem configStep_timers (st : EnhancedState) (call : ConfigCall)
    (h : timersInOrder st = true) :
    timersInOrder (configStep st call).state = true ∧
    ((configStep st call).raised = none →
      (truthy (lookupProperty (configStep st call).state.currentConfig "autoUpdate") = true →
        ∃ timer, (configStep st call).state.intervals = [timer] ∧
          timesThousand (lookupProperty (configStep st call).state.currentConfig
            "refreshInterval") = .ok timer.period) ∧
      (truthy (lookupProperty (configStep st call).state.currentConfig "autoUpdate") = false →
        (configStep st call).state.intervals = [])) := by
  cases call with
  | saveConfig newConfig storageAccepts => exact saveConfig_timers newConfig storageAccepts st h
  | applyConfig => exact applyConfig_timers st h

theorem configRun_timers (calls : List ConfigCall) :
    ∀ st : EnhancedState, timersInOrder st = true → timersInOrder (configRun st calls) = true := by
  induction calls with
  | nil => intro st h; exact h
  | cons call rest ih =>
    intro st h
    exact ih _ (configStep_timers st call h).1

theorem timersInOrder_length (st : EnhancedState) (h : timersInOrder st = true) :
    st.intervals.length ≤ 1 := by
  obtain ⟨config, held, intervals, next, storage, theme, toasts⟩ := st
  cases intervals with
  | nil => simp
  | cons timer rest =>
    cases rest with
    | nil => simp
    | cons second rest => cases held <;> simp [timersInOrder] at h

/-- C29, as stated, fails: on the control centre with its default configuration and no
timer, `saveConfig` with `autoUpdate: false` followed by `saveConfig` with
`autoUpdate: true` that the storage refuses ends with `autoUpdate` equal to `true` and no
timer; and `saveConfig` with `autoUpdate: false` that the storage refuses after an
`applyConfig` ends with `autoUpdate` equal to `false` and a timer active. -/
theorem saveConfig_refused_leaves_timer_stale :
    (lookupProperty (configRun sampleEnhanced
        [.saveConfig [("autoUpdate", .prim (.bool false))] true,
          .saveConfig [("autoUpdate", .prim (.bool true))] false]).currentConfig "autoUpdate" =
        .prim (.bool true) ∧
      (configRun sampleEnhanced
        [.saveConfig [("autoUpdate", .prim (.bool false))] true,
          .saveConfig [("autoUpdate", .prim (.bool true))] false]).intervals = []) ∧
    (lookupProperty (configRun sampleEnhanced
        [.applyConfig,
          .saveConfig [("autoUpdate", .prim (.bool false))] false]).currentConfig "autoUpdate" =
        .prim (.bool false) ∧
      (configRun sampleEnhanced
        [.applyConfig, .saveConfig [("autoUpdate", .prim (.bool false))] false]).intervals =
        [⟨1, some 30000⟩]) := by
  refine ⟨⟨rfl, rfl⟩, rfl, rfl⟩

/-- C29, amended: started on a control centre on which `applyConfig` has not run, after
every sequence of `saveConfig` and `applyConfig` calls at most one interval timer
created by `applyConfig` is active; and when the last call completes without raising,
exactly one is active, with period `refreshInterval * 1000` ms, if `autoUpdate` is
truthy after it, and none if it is falsy. -/
theorem config_calls_keep_one_timer (st : EnhancedState) (calls : List ConfigCall)
    (last : ConfigCall) :
    (configRun (beforeApplyConfig st) calls).intervals.length ≤ 1 ∧
    (configStep (configRun (beforeApplyConfig st) calls) last).state.intervals.length ≤ 1 ∧
    ((configStep (configRun (beforeApplyConfig st) calls) last).raised = none →
      (truthy (lookupProperty
          (configStep (configRun (beforeApplyConfig st) calls) last).state.currentConfig
          "autoUpdate") = true →
        ∃ timer,
          (configStep (configRun (beforeApplyConfig st) calls) last).state.intervals = [timer] ∧
          timesThousand (lookupProperty
            (configStep (configRun (beforeApplyConfig st) calls) last).state.currentConfig
            "refreshInterval") = .ok timer.period) ∧
      (truthy (lookupProperty
          (configStep (configRun (beforeApplyConfig st) calls) last).state.currentConfig
          "autoUpdate") = false →
        (configStep (configRun (beforeApplyConfig st) calls) last).state.intervals = [])) := by
  have hstart : timersInOrder (beforeApplyConfig st) = true := rfl
  have hrun := configRun_timers calls _ hstart
  have hstep := configStep_timers _ last hrun
  exact ⟨timersInOrder_length _ hrun, timersInOrder_length _ hstep.1, hstep.2⟩

/-- Witness for C29: on the default control centre, `saveConfig` with a refresh interval
of 10 followed by `applyConfig` leaves exactly one timer, of period 10000 ms. -/
theorem config_calls_keep_one_timer_witness :
    (∃ timer,
      (configStep (configRun (beforeApplyConfig sampleEnhanced)
        [.saveConfig [("refreshInterval", .prim (.number 10))] true]) .applyConfig).state.intervals
        = [timer] ∧
      timesThousand (lookupProperty
        (configStep (configRun (beforeApplyConfig sampleEnhanced)
          [.saveConfig [("refreshInterval", .prim (.number 10))] true])
          .applyConfig).state.currentConfig "refreshInterval") = .ok timer.period) ∧
    (configStep (configRun (beforeApplyConfig sampleEnhanced)
      [.saveConfig [("refreshInterval", .prim (.number 10))] true]) .applyConfig).state.intervals
      = [⟨2, some 10000⟩] :=
  ⟨((config_calls_keep_one_timer sampleEnhanced
      [.saveConfig [("refreshInterval", .prim (.number 10))] true] .applyConfig).2.2 rfl).1 rfl,
    rfl⟩

/-! ## Theorems: the MacroDroid macro -/

theorem sendMessageSteps_run (host : MacroHost) (message : String) (st : MacroState) :
    ∃ added, (Macro.sendMessageSteps host message st).2.calls = st.calls ++ added ∧
      added.filter HostCall.isRequest =
        requestsUntilFailure host ((uiSteps message).drop 4) st.uiAsked ∧
      ((Macro.sendMessageSteps host message st).1 = .ok true ↔
        everyStepSucceeds host ((uiSteps message).drop 4) st.uiAsked = true) ∧
      (∀ returned, (Macro.sendMessageSteps host message st).1 = .ok returned →
        returned = true ∧ added.getLast? = some (.performGlobalAction .home)) := by
  obtain ⟨calls, asked⟩ := st
  simp only [Macro.sendMessageSteps, Macro.clickDescriptionOrText, Macro.clickText,
    Macro.clickDescription, Macro.inputText, Macro.request, Macro.log, Macro.sleep,
    Macro.performGlobalAction, MacroState.call, uiSteps, List.drop, everyStepSucceeds,
    requestsUntilFailure]
  rcases h0 : host.ui asked (.enterText message) with _ | _ | _
  · rcases h1 : host.ui (asked + 1) (.clickOnContentDescription "전송") with _ | _ | _
    · simp [h0, h1, HostCall.isRequest]
    · rcases h2 : host.ui (asked + 1 + 1) (.clickOnText "전송") with _ | _ | _ <;>
        simp [h0, h1, h2, HostCall.isRequest]
    · rcases h2 : host.ui (asked + 1 + 1) (.clickOnText "전송") with _ | _ | _ <;>
        simp [h0, h1, h2, HostCall.isRequest]
  · simp [h0, HostCall.isRequest]
  · simp [h0, HostCall.isRequest]

theorem enterRoomSteps_run (host : MacroHost) (message : String) (st : MacroState) :
    ∃ added, (Macro.enterRoomSteps host message st).2.calls = st.calls ++ added ∧
      added.filter HostCall.isRequest =
        requestsUntilFailure host ((uiSteps message).drop 2) st.uiAsked ∧
      ((Macro.enterRoomSteps host message st).1 = .ok true ↔
        everyStepSucceeds host ((uiSteps message).drop 2) st.uiAsked = true) ∧
      (∀ returned, (Macro.enterRoomSteps host message st).1 = .ok returned →
        returned = true ∧ added.getLast? = some (.performGlobalAction .home)) := by
  obtain ⟨calls, asked⟩ := st
  simp only [Macro.enterRoomSteps, Macro.clickTextContains, Macro.inputText, Macro.request,
    Macro.log, Macro.sleep, MacroState.call, uiSteps, List.drop, everyStepSucceeds,
    requestsUntilFailure]
  rcases h0 : host.ui asked (.enterText CONFIG.CHAT_ROOM_NAME) with _ | _ | _
  · rcases h1 : host.ui (asked + 1) (.clickOnTextContains CONFIG.CHAT_ROOM_NAME)
      with _ | _ | _
    · obtain ⟨added, hcalls, hrequests, hreturned, hlast⟩ :=
        sendMessageSteps_run host message
          ⟨calls ++ [.addToLog ("📝 채팅방 검색: " ++ CONFIG.CHAT_ROOM_NAME)] ++
            [.enterText CONFIG.CHAT_ROOM_NAME] ++ [.wait 2000] ++ [.addToLog "🎯 채팅방 진입"] ++
            [.clickOnTextContains CONFIG.CHAT_ROOM_NAME] ++ [.wait 2000], asked + 1 + 1⟩
      simp only [uiSteps, List.drop, requestsUntilFailure, everyStepSucceeds]
        at hrequests hreturned
      refine ⟨[.addToLog ("📝 채팅방 검색: " ++ CONFIG.CHAT_ROOM_NAME),
        .enterText CONFIG.CHAT_ROOM_NAME, .wait 2000, .addToLog "🎯 채팅방 진입",
        .clickOnTextContains CONFIG.CHAT_ROOM_NAME, .wait 2000] ++ added, ?_, ?_, ?_, ?_⟩
      · simp only [h0, h1, hcalls]
        simp
      · simp [h0, h1, HostCall.isRequest, hrequests]
      · simp only [h0, h1, hreturned]
        simp
      · intro returned hok
        simp only [h0, h1] at hok
        obtain ⟨htrue, hhome⟩ := hlast returned hok
        refine ⟨htrue, ?_⟩
        rw [List.getLast?_append, hhome]
        rfl
    · simp [h0, h1, HostCall.isRequest]
    · simp [h0, h1, HostCall.isRequest]
  · simp [h0, HostCall.isRequest]
  · simp [h0, HostCall.isRequest]

theorem sendKakaoMessageTry_run (host : MacroHost) (message : String) (st : MacroState) :
    ∃ added, (Macro.sendKakaoMessageTry host message st).2.calls = st.calls ++ added ∧
      added.filter HostCall.isRequest = requestsUntilFailure host (uiSteps message) st.uiAsked ∧
      ((Macro.sendKakaoMessageTry host message st).1 = .ok true ↔
        everyStepSucceeds host (uiSteps message) st.uiAsked = true) ∧
      (∀ returned, (Macro.sendKakaoMessageTry host message st).1 = .ok returned →
        returned = true ∧ added.getLast? = some (.performGlobalAction .home)) := by
  obtain ⟨calls, asked⟩ := st
  simp only [Macro.sendKakaoMessageTry, Macro.clickDescriptionOrText, Macro.clickText,
    Macro.clickDescription, Macro.request, Macro.log, Macro.sleep, Macro.launchApp,
    Macro.performGlobalAction, MacroState.call, uiSteps, everyStepSucceeds,
    requestsUntilFailure]
  have continued : ∀ (reached : MacroState) (before : List HostCall) (others : Nat),
      reached.calls = calls ++ before → reached.uiAsked = asked + others →
      ∃ added, (Macro.enterRoomSteps host message reached).2.calls = calls ++ added ∧
        added.filter HostCall.isRequest =
          before.filter HostCall.isRequest ++
            requestsUntilFailure host ((uiSteps message).drop 2) (asked + others) ∧
        ((Macro.enterRoomSteps host message reached).1 = .ok true ↔
          everyStepSucceeds host ((uiSteps message).drop 2) (asked + others) = true) ∧
        (∀ returned, (Macro.enterRoomSteps host message reached).1 = .ok returned →
          returned = true ∧ added.getLast? = some (.performGlobalAction .home)) := by
    intro reached before others hbefore hasked
    obtain ⟨added, hcalls, hrequests, hreturned, hlast⟩ :=
      enterRoomSteps_run host message reached
    rw [hasked] at hrequests hreturned
    refine ⟨before ++ added, ?_, ?_, hreturned, ?_⟩
    · rw [hcalls, hbefore, List.append_assoc]
    · rw [List.filter_append, hrequests]
    · intro returned hok
      obtain ⟨htrue, hhome⟩ := hlast returned hok
      refine ⟨htrue, ?_⟩
      rw [List.getLast?_append, hhome]
      rfl
  simp only [uiSteps, List.drop, requestsUntilFailure, everyStepSucceeds] at continued
  rcases h0 : host.ui asked (.clickOnText "채팅") with _ | _ | _
  · rcases h1 : host.ui (asked + 1) (.clickOnContentDescription "검색") with _ | _ | _
    · simp only [h0, h1]
      generalize hst : MacroState.mk _ _ = reached
      obtain ⟨added, hcalls, hrequests, hreturned, hlast⟩ := continued reached _ 2
        (by rw [← hst]; simp only [List.append_assoc]; rfl) (by rw [← hst])
      refine ⟨added, ?_, ?_, ?_, hlast⟩
      · rw [hcalls]
      · rw [hrequests]
        simp [HostCall.isRequest]
      · rw [hreturned]
        simp
    · rcases h2 : host.ui (asked + 1 + 1) (.clickOnText "검색") with _ | _ | _
      · simp only [h0, h1, h2]
        generalize hst : MacroState.mk _ _ = reached
        obtain ⟨added, hcalls, hrequests, hreturned, hlast⟩ := continued reached _ 3
          (by rw [← hst]; simp only [List.append_assoc]; rfl) (by rw [← hst])
        refine ⟨added, ?_, ?_, ?_, hlast⟩
        · rw [hcalls]
        · rw [hrequests]
          simp [HostCall.isRequest]
        · rw [hreturned]
          simp
      · simp [h0, h1, h2, HostCall.isRequest]
      · simp [h0, h1, h2, HostCall.isRequest]
    · rcases h2 : host.ui (asked + 1 + 1) (.clickOnText "검색") with _ | _ | _
      · simp only [h0, h1, h2]
        generalize hst : MacroState.mk _ _ = reached
        obtain ⟨added, hcalls, hrequests, hreturned, hlast⟩ := continued reached _ 3
          (by rw [← hst]; simp only [List.append_assoc]; rfl) (by rw [← hst])
        refine ⟨added, ?_, ?_, ?_, hlast⟩
        · rw [hcalls]
        · rw [hrequests]
          simp [HostCall.isRequest]
        · rw [hreturned]
          simp
      · simp [h0, h1, h2, HostCall.isRequest]
      · simp [h0, h1, h2, HostCall.isRequest]
  · simp [h0, HostCall.isRequest]
  · simp [h0, HostCall.isRequest]

theorem globalActions_getLast (calls : List HostCall) (action : GlobalAction)
    (h : calls.getLast? = some (.performGlobalAction action)) :
    (globalActions calls).getLast? = some action := by
  obtain ⟨before, rfl⟩ := List.getLast?_eq_some_iff.mp h
  simp [globalActions, List.filterMap_append]

theorem sendKakaoMessage_run (host : MacroHost) (message : String) (st : MacroState) :
    ∃ added, (Macro.sendKakaoMessage host message st).2.calls = st.calls ++ added ∧
      added.filter HostCall.isRequest = requestsUntilFailure host (uiSteps message) st.uiAsked ∧
      ((Macro.sendKakaoMessage host message st).1 = true ↔
        everyStepSucceeds host (uiSteps message) st.uiAsked = true) ∧
      added.getLast? = some (.performGlobalAction .home) := by
  obtain ⟨added, hcalls, hrequests, hreturned, hlast⟩ :=
    sendKakaoMessageTry_run host message st
  simp only [Macro.sendKakaoMessage]
  generalize Macro.sendKakaoMessageTry host message st = tried at hcalls hreturned hlast
  obtain ⟨outcome, reached⟩ := tried
  cases outcome with
  | ok returned =>
    obtain ⟨htrue, hhome⟩ := hlast returned rfl
    subst htrue
    refine ⟨added, hcalls, hrequests, ?_, hhome⟩
    simp only [true_iff]
    exact hreturned.mp rfl
  | error text =>
    refine ⟨added ++ [.addToLog ("❌ 메시지 전송 실패: " ++ text), .performGlobalAction .home],
      ?_, ?_, ?_, ?_⟩
    · simp only [Macro.performGlobalAction, Macro.log, MacroState.call]
      simp only at hcalls
      rw [hcalls]
      simp
    · rw [List.filter_append, hrequests]
      simp [HostCall.isRequest]
    · simp only at hreturned
      constructor
      · intro h
        cases h
      · intro h
        cases hreturned.mpr h
    · simp

theorem getWebhookVariable_run (host : MacroHost) (key : String) (st : MacroState) :
    (Macro.getWebhookVariable host key st).2.uiAsked = st.uiAsked ∧
    ∃ added, (Macro.getWebhookVariable host key st).2.calls = st.calls ++ added ∧
      added.filter HostCall.isRequest = [] ∧ added.any HostCall.isLaunch = false := by
  obtain ⟨calls, asked⟩ := st
  simp only [Macro.getWebhookVariable, Macro.log, MacroState.call]
  rcases h1 : host.getVariable ("wv_" ++ key) with value | _ | _
  · by_cases hvalue : value = ""
    · rcases h2 : host.getVariable key with other | _ | _ <;>
        simp [hvalue, HostCall.isRequest, HostCall.isLaunch]
    · simp [hvalue, HostCall.isRequest, HostCall.isLaunch]
  · rcases h2 : host.getVariable key with other | _ | _ <;>
      simp [HostCall.isRequest, HostCall.isLaunch]
  · simp [HostCall.isRequest, HostCall.isLaunch]

theorem log_calls (message : String) (st : MacroState) :
    (Macro.log message st).calls = st.calls ++ [.addToLog message] := rfl

theorem log_uiAsked (message : String) (st : MacroState) :
    (Macro.log message st).uiAsked = st.uiAsked := rfl

theorem executeMacro_missing (host : MacroHost)
    (hmissing : ¬ ∃ message,
      (Macro.getWebhookVariable host "message"
        (Macro.log "🚀 카카오톡 자동 전송 시작" MacroState.initial)).1 = some message ∧
      message ≠ "") :
    (Macro.executeMacro host MacroState.initial).1 = false ∧
    (Macro.executeMacro host MacroState.initial).2.calls.any HostCall.isLaunch = false := by
  obtain ⟨-, added1, hcalls1, -, hlaunch1⟩ := getWebhookVariable_run host "message"
    (Macro.log "🚀 카카오톡 자동 전송 시작" MacroState.initial)
  obtain ⟨-, added2, hcalls2, -, hlaunch2⟩ := getWebhookVariable_run host "chat_id"
    (Macro.getWebhookVariable host "message"
      (Macro.log "🚀 카카오톡 자동 전송 시작" MacroState.initial)).2
  have hfalse : (Macro.log "❌ 메시지가 없습니다"
      (Macro.getWebhookVariable host "chat_id"
        (Macro.getWebhookVariable host "message"
          (Macro.log "🚀 카카오톡 자동 전송 시작" MacroState.initial)).2).2).calls.any
      HostCall.isLaunch = false := by
    rw [log_calls, hcalls2, hcalls1, log_calls]
    simp [MacroState.initial, hlaunch1, hlaunch2, HostCall.isLaunch]
  have hrun : Macro.executeMacro host MacroState.initial =
      (false, Macro.log "❌ 메시지가 없습니다"
        (Macro.getWebhookVariable host "chat_id"
          (Macro.getWebhookVariable host "message"
            (Macro.log "🚀 카카오톡 자동 전송 시작" MacroState.initial)).2).2) := by
    cases hvalue : (Macro.getWebhookVariable host "message"
        (Macro.log "🚀 카카오톡 자동 전송 시작" MacroState.initial)).1 with
    | none => simp only [Macro.executeMacro, hvalue]
    | some text =>
      by_cases htext : text = ""
      · simp only [Macro.executeMacro, hvalue, htext, if_true]
      · exact absurd ⟨text, hvalue, htext⟩ hmissing
  rw [hrun]
  exact ⟨rfl, hfalse⟩

theorem executeMacro_present (host : MacroHost) (message : String)
    (hvalue : (Macro.getWebhookVariable host "message"
      (Macro.log "🚀 카카오톡 자동 전송 시작" MacroState.initial)).1 = some message)
    (htext : message ≠ "") :
    ((Macro.executeMacro host MacroState.initial).1 = true ↔
      everyStepSucceeds host (uiSteps message) 0 = true) ∧
    (Macro.executeMacro host MacroState.initial).2.calls.filter HostCall.isRequest =
      requestsUntilFailure host (uiSteps message) 0 := by
  obtain ⟨hasked1, added1, hcalls1, hrequests1, -⟩ := getWebhookVariable_run host "message"
    (Macro.log "🚀 카카오톡 자동 전송 시작" MacroState.initial)
  obtain ⟨hasked2, added2, hcalls2, hrequests2, -⟩ := getWebhookVariable_run host "chat_id"
    (Macro.getWebhookVariable host "message"
      (Macro.log "🚀 카카오톡 자동 전송 시작" MacroState.initial)).2
  obtain ⟨added, hcalls, hrequests, hreturned, -⟩ := sendKakaoMessage_run host message
    (Macro.log ("📝 전송할 메시지: " ++ message)
      (Macro.getWebhookVariable host "chat_id"
        (Macro.getWebhookVariable host "message"
          (Macro.log "🚀 카카오톡 자동 전송 시작" MacroState.initial)).2).2)
  have hasked : (Macro.log ("📝 전송할 메시지: " ++ message)
      (Macro.getWebhookVariable host "chat_id"
        (Macro.getWebhookVariable host "message"
          (Macro.log "🚀 카카오톡 자동 전송 시작" MacroState.initial)).2).2).uiAsked = 0 := by
    rw [log_uiAsked, hasked2, hasked1, log_uiAsked]
    rfl
  rw [hasked] at hrequests hreturned
  have hrun : Macro.executeMacro host MacroState.initial =
      Macro.sendKakaoMessage host message
        (Macro.log ("📝 전송할 메시지: " ++ message)
          (Macro.getWebhookVariable host "chat_id"
            (Macro.getWebhookVariable host "message"
              (Macro.log "🚀 카카오톡 자동 전송 시작" MacroState.initial)).2).2) := by
    simp only [Macro.executeMacro, hvalue, htext, if_false]
  rw [hrun]
  refine ⟨hreturned, ?_⟩
  rw [hcalls, log_calls, hcalls2, hcalls1, log_calls]
  simp [MacroState.initial, List.filter_append, hrequests1, hrequests2, hrequests,
    HostCall.isRequest]

/-- C26: `executeMacro` returns `true` if and only if the webhook message is present and
not empty and every UI step of `sendKakaoMessage` succeeds. When the message is missing
or empty no application is launched. When it is present, the UI requests made are those
of the steps up to the first one that fails. And whenever `sendKakaoMessage` runs, the
last host call it makes, hence the last global action it performs, is `HOME`. -/
theorem executeMacro_true_iff_message_and_steps (host : MacroHost) :
    ((Macro.executeMacro host MacroState.initial).1 = true ↔
      ∃ message,
        (Macro.getWebhookVariable host "message"
          (Macro.log "🚀 카카오톡 자동 전송 시작" MacroState.initial)).1 = some message ∧
        message ≠ "" ∧ everyStepSucceeds host (uiSteps message) 0 = true) ∧
    ((¬ ∃ message,
        (Macro.getWebhookVariable host "message"
          (Macro.log "🚀 카카오톡 자동 전송 시작" MacroState.initial)).1 = some message ∧
        message ≠ "") →
      (Macro.executeMacro host MacroState.initial).2.calls.any HostCall.isLaunch = false) ∧
    (∀ message,
      (Macro.getWebhookVariable host "message"
        (Macro.log "🚀 카카오톡 자동 전송 시작" MacroState.initial)).1 = some message →
      message ≠ "" →
      (Macro.executeMacro host MacroState.initial).2.calls.filter HostCall.isRequest =
        requestsUntilFailure host (uiSteps message) 0) ∧
    (∀ message st, ∃ added,
      (Macro.sendKakaoMessage host message st).2.calls = st.calls ++ added ∧
      added.getLast? = some (.performGlobalAction .home) ∧
      (globalActions added).getLast? = some .home) := by
  refine ⟨?_, fun hmissing => (executeMacro_missing host hmissing).2,
    fun message hvalue htext => (executeMacro_present host message hvalue htext).2, ?_⟩
  · constructor
    · intro htrue
      by_cases hpresent : ∃ message,
          (Macro.getWebhookVariable host "message"
            (Macro.log "🚀 카카오톡 자동 전송 시작" MacroState.initial)).1 = some message ∧
          message ≠ ""
      · obtain ⟨message, hvalue, htext⟩ := hpresent
        exact ⟨message, hvalue, htext,
          (executeMacro_present host message hvalue htext).1.mp htrue⟩
      · rw [(executeMacro_missing host hpresent).1] at htrue
        cases htrue
    · rintro ⟨message, hvalue, htext, hsteps⟩
      exact (executeMacro_present host message hvalue htext).1.mpr hsteps
  · intro message st
    obtain ⟨added, hcalls, -, -, hhome⟩ := sendKakaoMessage_run host message st
    exact ⟨added, hcalls, hhome, globalActions_getLast added .home hhome⟩

/-- Witness for C26: on the sample host the requests are those of every step, with the
search by text after the search by content description; on the host without the chat
room they stop at the click on the room, `false` is returned and `HOME` is the last
call; and without webhook variables nothing is launched. -/
theorem executeMacro_true_iff_message_and_steps_witness :
    (Macro.executeMacro sampleHost MacroState.initial).2.calls.filter HostCall.isRequest =
      requestsUntilFailure sampleHost (uiSteps "오늘 미션 현황") 0 ∧
    (Macro.executeMacro silentHost MacroState.initial).2.calls.any HostCall.isLaunch = false ∧
    (Macro.executeMacro sampleHost MacroState.initial).1 = true ∧
    requestsUntilFailure sampleHost (uiSteps "오늘 미션 현황") 0 =
      [.clickOnText "채팅", .clickOnContentDescription "검색", .clickOnText "검색",
        .enterText "G라이더 미션방", .clickOnTextContains "G라이더 미션방",
        .enterText "오늘 미션 현황", .clickOnContentDescription "전송"] ∧
    (Macro.executeMacro roomlessHost MacroState.initial).1 = false ∧
    (Macro.executeMacro roomlessHost MacroState.initial).2.calls.filter HostCall.isRequest =
      [.clickOnText "채팅", .clickOnContentDescription "검색", .clickOnText "검색",
        .enterText "G라이더 미션방", .clickOnTextContains "G라이더 미션방"] ∧
    (Macro.executeMacro roomlessHost MacroState.initial).2.calls.getLast? =
      some (.performGlobalAction .home) :=
  ⟨(executeMacro_true_iff_message_and_steps sampleHost).2.2.1 "오늘 미션 현황" rfl (by decide),
    (executeMacro_true_iff_message_and_steps silentHost).2.1
      (by rintro ⟨message, hvalue, -⟩; cases hvalue),
    by decide, by decide, by decide, by decide, by decide⟩

end Dashboard
